import Mathlib

/-!
# RSXGL synchronisation objects (src/library/sync.cc)

A shallow embedding of the fence ("sync object") code of sync.cc: the name
registry it allocates from, the mapping between registry names and hardware
semaphore indices, the token counter, and the GL entry points glFenceSync,
glIsSync, glDeleteSync, glClientWaitSync, glWaitSync and glGetSynciv.

Conventions of the embedding

* Machine integers are natural numbers; a narrowing store is written with an
  explicit remainder.
* A GLsync handle is a pointer to an rsxgl_sync_object_t. Pointers are
  addresses, the address of the object stored for registry name n is n, and the
  null pointer is the absent option.
* Every entry point returns an Outcome: the returned value, the error macro it
  executed (if any), whether every rsxgl_assert it evaluated held, and the state
  it leaves.
-/

namespace RSXGL

/-! ## Constants of GL3/gl3.h -/

def GL_FALSE : Nat := 0
def GL_TRUE : Nat := 1
def GL_NO_ERROR : Nat := 0
def GL_INVALID_ENUM : Nat := 0x0500
def GL_INVALID_VALUE : Nat := 0x0501
def GL_OUT_OF_MEMORY : Nat := 0x0505
def GL_OBJECT_TYPE : Nat := 0x9112
def GL_SYNC_CONDITION : Nat := 0x9113
def GL_SYNC_STATUS : Nat := 0x9114
def GL_SYNC_FLAGS : Nat := 0x9115
def GL_SYNC_FENCE : Nat := 0x9116
def GL_SYNC_GPU_COMMANDS_COMPLETE : Nat := 0x9117
def GL_UNSIGNALED : Nat := 0x9118
def GL_SIGNALED : Nat := 0x9119
def GL_ALREADY_SIGNALED : Nat := 0x911A
def GL_TIMEOUT_EXPIRED : Nat := 0x911B
def GL_CONDITION_SATISFIED : Nat := 0x911C
def GL_WAIT_FAILED : Nat := 0x911D
def GL_SYNC_FLUSH_COMMANDS_BIT : Nat := 0x00000001
def GL_TIMEOUT_IGNORED : Nat := 0xFFFFFFFFFFFFFFFF

/-- A GLsync value: the null pointer, or the address of a sync object. -/
abbrev GLsync := Option Nat

/-! ## Build constants and types declared outside sync.cc -/

/-- Constants and integer widths that sync.cc uses but does not declare
(rsxgl_config.h, gl_object.h and the C library headers); they are parameters of
the embedding. -/
structure Config where
  /-- The capacity of the sync registry. -/
  RSXGL_MAX_SYNC_OBJECTS : Nat
  /-- The sleep quantum of the polling loops, in microseconds. -/
  RSXGL_SYNC_SLEEP_INTERVAL : Nat
  /-- The number of sleep quanta glFinish waits for. -/
  RSXGL_FINISH_SLEEP_ITERATIONS : Nat
  /-- The width in bits of the unsigned type name_type. -/
  name_type_bits : Nat
  /-- The width in bits of the unsigned type useconds_t. -/
  useconds_t_bits : Nat
  /-- The value create_name returns when every name is reserved. -/
  create_name_sentinel : Nat

/-- The requirements the code places on its constants: the reserved index range
[64, 64 + N) fits the 8-bit index, name_type is at least a byte wide, and the
exhaustion sentinel of create_name is 0 or an out-of-range name. -/
def Config.wf (cfg : Config) : Prop :=
  64 + cfg.RSXGL_MAX_SYNC_OBJECTS ≤ 256 ∧ 8 ≤ cfg.name_type_bits ∧
    (cfg.create_name_sentinel = 0 ∨ cfg.RSXGL_MAX_SYNC_OBJECTS < cfg.create_name_sentinel)

instance (cfg : Config) : Decidable cfg.wf := by
  unfold Config.wf
  infer_instance

/-! ## The sync object -/

/-- The value a bit-field of the given width holds after a store. -/
def bitfield (width v : Nat) : Nat := v % 2 ^ width

/-- The struct rsxgl_sync_object_t: status:1, index:8, value:23. -/
structure rsxgl_sync_object_t where
  status : Nat
  index : Nat
  value : Nat
deriving DecidableEq

/-- The constructor rsxgl_sync_object_t(): status(0), index(0), value(0). -/
def rsxgl_sync_object_t.ctor : rsxgl_sync_object_t :=
  { status := 0, index := 0, value := 0 }

/-! ## The name registry -/

/-- Replace the value of a table at one key. -/
def assign {α : Type} (f : Nat → α) (k : Nat) (v : α) : Nat → α :=
  fun m => if m = k then v else f m

/-- Modelled from the spec: the storage_type of gl_object.h, which is not among
the sources. A fixed-capacity table; each slot has a liveness bit for "name
reserved", a liveness bit for "object constructed", and embedded object storage.
The storage of the slot of name n is at address n; the table of contents is
total so that it also describes the memory a pointer outside the registry
refers to. -/
structure storage_type where
  names : Nat → Bool
  objects : Nat → Bool
  contents : Nat → rsxgl_sync_object_t

/-- Modelled from the spec: names are the integers of [1, Capacity]; name 0 and
names above the capacity have no slot. -/
def has_slot (capacity name : Nat) : Bool :=
  decide (1 ≤ name) && decide (name ≤ capacity)

/-- Modelled from the spec: is_name of gl_object.h, a liveness predicate defined
for all names including unreserved and out-of-range ones, for which it returns
false. -/
def storage_type.is_name (capacity : Nat) (st : storage_type) (name : Nat) : Bool :=
  has_slot capacity name && st.names name

/-- Modelled from the spec: is_object of gl_object.h, the liveness predicate of
the "object constructed" bit, false for names without a slot. -/
def storage_type.is_object (capacity : Nat) (st : storage_type) (name : Nat) : Bool :=
  has_slot capacity name && st.objects name

/-- Modelled from the spec: create_name of gl_object.h returns the smallest name
in [1, N] not currently reserved and marks it reserved, or returns a sentinel
(0 or an out-of-range name) if all N are reserved, with no other side effect. -/
def storage_type.create_name (capacity sentinel : Nat) (st : storage_type) :
    Nat × storage_type :=
  match (List.range' 1 capacity).find? (fun n => !st.names n) with
  | some n => (n, { st with names := assign st.names n true })
  | none => (sentinel, st)

/-- Modelled from the spec: create_object of gl_object.h constructs the per-slot
object storage of a previously reserved name (running the constructor of the
object) and sets its "object constructed" bit. The spec gives this result under
create_object_pre and calls a call outside it undefined. The definition is
total: for a name without a slot it returns the table as it is, which stands for
a result the spec does not give; whether a call is within the precondition is
stated with create_object_pre. -/
def storage_type.create_object (capacity : Nat) (st : storage_type) (name : Nat) :
    storage_type :=
  if has_slot capacity name then
    { st with objects := assign st.objects name true,
              contents := assign st.contents name rsxgl_sync_object_t.ctor }
  else st

/-- Modelled from the spec: destroy of gl_object.h clears both liveness bits of
a name, making it eligible for reuse by a future create_name. The destructor of
the sync object is trivial, so the object storage keeps its bytes. The spec
gives this result under destroy_pre and calls destroying any other name a caller
error. The definition is total: for a name without a slot it returns the table
as it is, which stands for a result the spec does not give; whether a call is
within the precondition is stated with destroy_pre. -/
def storage_type.destroy (capacity : Nat) (st : storage_type) (name : Nat) : storage_type :=
  if has_slot capacity name then
    { st with names := assign st.names name false,
              objects := assign st.objects name false }
  else st

/-- Modelled from the spec: at(name) of gl_object.h returns the object stored
for a name. -/
def storage_type.object_at (st : storage_type) (name : Nat) : rsxgl_sync_object_t :=
  st.contents name

/-! ## Hardware and program state -/

/-- The hardware locations the GPU writes and the CPU polls: the semaphores, by
index, and the ref of the control register. -/
structure Hardware where
  sem : Nat → Nat
  control_ref : Nat

/-- A command emitted into the GPU command stream. -/
inductive Command where
  | sync_gpu_signal_read (index token : Nat)
  | set_ref (ref : Nat)
deriving DecidableEq

/-- The state sync.cc reads and writes: the static storage() of the sync
registry, the static counter _rsxgl_sync_token, ref of the current context, the
hardware, the commands emitted so far, and counters of the calls made to
rsxgl_gcm_flush, of the reads of a polled hardware location, and of the calls to
usleep. -/
structure State where
  storage : storage_type
  _rsxgl_sync_token : Nat
  ref : Nat
  hw : Hardware
  fifo : List Command
  flushes : Nat
  polls : Nat
  sleeps : Nat

/-- What the GPU does to the hardware locations while the CPU sleeps: the
argument is the number of the sleep. -/
abbrev Gpu := Nat → Hardware → Hardware

/-- The result of an entry point. Modelled from the spec: rsxgl_assert of
rsxgl_assert.h states a precondition the code relies on (a programmer error when
violated, not recoverable at run time); a build may compile it out, so a
violated assertion is recorded and execution goes on. -/
structure Outcome (α : Type) where
  /-- The value returned. -/
  ret : α
  /-- The error macro executed: RSXGL_ERROR(e, r) gives some e, RSXGL_NOERROR(r)
  gives some GL_NO_ERROR, and a return without either macro gives none. -/
  error : Option Nat
  /-- True when every rsxgl_assert evaluated during the call held. -/
  asserts : Bool
  /-- The state after the call. -/
  state : State

/-- Modelled from the spec: the macros RSXGL_ERROR(e, r) and RSXGL_ERROR_(e) of
error.h report the error kind e and return r. -/
def RSXGL_ERROR {α : Type} (e : Nat) (r : α) (asserts : Bool) (s : State) : Outcome α :=
  { ret := r, error := some e, asserts := asserts, state := s }

/-- Modelled from the spec: the macros RSXGL_NOERROR(r) and RSXGL_NOERROR_() of
error.h report success and return r. -/
def RSXGL_NOERROR {α : Type} (r : α) (asserts : Bool) (s : State) : Outcome α :=
  { ret := r, error := some GL_NO_ERROR, asserts := asserts, state := s }

/-- Modelled from the spec: rsxgl_gcm_flush of gl_fifo.h submits all commands
enqueued so far without waiting; the call is counted. -/
def rsxgl_flush (s : State) : State :=
  { s with flushes := s.flushes + 1 }

/-- The entry point glFlush. -/
def glFlush (s : State) : Outcome Unit :=
  RSXGL_NOERROR () true (rsxgl_flush s)

/-- Modelled from the spec: rsxgl_sync_cpu_signal of sync.h writes a value to
the hardware semaphore at an index. -/
def rsxgl_sync_cpu_signal (s : State) (index value : Nat) : State :=
  { s with hw := { s.hw with sem := assign s.hw.sem index value } }

/-- Modelled from the spec: rsxgl_emit_sync_gpu_signal_read of sync.h emits
into the command stream an instruction that makes the GPU, when it executes
commands up to this point, write the token into the semaphore at the index. -/
def rsxgl_emit_sync_gpu_signal_read (s : State) (index token : Nat) : State :=
  { s with fifo := s.fifo ++ [Command.sync_gpu_signal_read index token] }

/-- One call to usleep: the call is counted and the GPU runs meanwhile. -/
def usleep (gpu : Gpu) (s : State) : State :=
  { s with sleeps := s.sleeps + 1, hw := gpu s.sleeps s.hw }

/-- Modelled from the spec: rsxgl_sync_cpu_wait of sync.h busy-polls the
hardware index, at a fixed sleep granularity, comparing its current value to the
expected token, until either they match (result true) or the timeout elapses
(result false); a timeout of zero means check once and return immediately. The
first argument bounds the number of reads; none means the loop is still running
after that many. -/
def rsxgl_sync_cpu_wait (gpu : Gpu) (index value timeout_interval : Nat) :
    Nat → State → Nat → Option (Bool × State)
  | 0, _, _ => none
  | fuel + 1, s, remaining_timeout =>
    let s1 := { s with polls := s.polls + 1 }
    if s1.hw.sem index = value then some (true, s1)
    else if remaining_timeout = 0 then some (false, s1)
    else rsxgl_sync_cpu_wait gpu index value timeout_interval fuel (usleep gpu s1)
      (remaining_timeout - timeout_interval)

/-! ## sync.cc: allocation, index mapping, token counter -/

/-- The function rsxgl_sync_object_really_allocate: the name allocated (0 when
none), whether its rsxgl_assert held, and the registry afterwards. -/
def rsxgl_sync_object_really_allocate (cfg : Config) (st : storage_type) :
    Nat × Bool × storage_type :=
  let r := st.create_name cfg.RSXGL_MAX_SYNC_OBJECTS cfg.create_name_sentinel
  let name := r.1
  if name > cfg.RSXGL_MAX_SYNC_OBJECTS then
    (0, true, r.2.destroy cfg.RSXGL_MAX_SYNC_OBJECTS name)
  else
    (name, decide (name > 0), r.2.create_object cfg.RSXGL_MAX_SYNC_OBJECTS name)

/-- The function rsxgl_sync_object_really_free: whether its rsxgl_assert held,
and the registry afterwards. -/
def rsxgl_sync_object_really_free (cfg : Config) (st : storage_type) (name : Nat) :
    Bool × storage_type :=
  if st.is_name cfg.RSXGL_MAX_SYNC_OBJECTS name then
    (st.is_object cfg.RSXGL_MAX_SYNC_OBJECTS name, st.destroy cfg.RSXGL_MAX_SYNC_OBJECTS name)
  else
    (true, st)

/-- The function rsxgl_sync_name_to_rsx_index: the value (name - 1) + 64
narrowed to uint8_t, and whether the rsxgl_assert on the name held. The
remainder modulo 256 of (name - 1) + 64 is the same in every integer type the
sum may be computed in. -/
def rsxgl_sync_name_to_rsx_index (cfg : Config) (name : Nat) : Nat × Bool :=
  ((((name : Int) - 1 + 64) % 256).toNat,
    decide (name > 0) && decide (name ≤ cfg.RSXGL_MAX_SYNC_OBJECTS))

/-- The function rsxgl_rsx_index_to_sync_name: the value (index - 64) + 1,
computed in int and converted to the unsigned name_type, and whether the
rsxgl_assert on the index held. -/
def rsxgl_rsx_index_to_sync_name (cfg : Config) (index : Nat) : Nat × Bool :=
  ((((index : Int) - 64 + 1) % ((2 ^ cfg.name_type_bits : Nat) : Int)).toNat,
    decide (index ≥ 64) && decide (index < 64 + cfg.RSXGL_MAX_SYNC_OBJECTS))

/-- The function rsxgl_sync_object_allocate: returns the hardware index of a
newly allocated name, or 0. -/
def rsxgl_sync_object_allocate (cfg : Config) (s : State) : Outcome Nat :=
  let r := rsxgl_sync_object_really_allocate cfg s.storage
  let name := r.1
  let s1 := { s with storage := r.2.2 }
  if name = 0 then
    { ret := 0, error := none, asserts := r.2.1, state := s1 }
  else
    let i := rsxgl_sync_name_to_rsx_index cfg name
    { ret := i.1, error := none, asserts := r.2.1 && i.2, state := s1 }

/-- The function rsxgl_sync_object_free. -/
def rsxgl_sync_object_free (cfg : Config) (s : State) (index : Nat) : Outcome Unit :=
  if index ≥ 64 then
    let n := rsxgl_rsx_index_to_sync_name cfg index
    let r := rsxgl_sync_object_really_free cfg s.storage n.1
    { ret := (), error := none, asserts := n.2 && r.1, state := { s with storage := r.2 } }
  else
    { ret := (), error := none, asserts := true, state := s }

/-- The constant rsxgl_sync_token_max = (1 << 23). -/
def rsxgl_sync_token_max : Nat := 1 <<< 23

/-- The constant RSXGL_SYNC_UNSIGNALED_TOKEN = (1 << 24). -/
def RSXGL_SYNC_UNSIGNALED_TOKEN : Nat := 1 <<< 24

/-- The function rsxgl_sync_token: assigns
(_rsxgl_sync_token + 1) & rsxgl_sync_token_max to the counter, in uint32_t
arithmetic, and returns it. -/
def rsxgl_sync_token (s : State) : Nat × State :=
  let t := ((s._rsxgl_sync_token + 1) % 2 ^ 32) &&& rsxgl_sync_token_max
  (t, { s with _rsxgl_sync_token := t })

/-! ## sync.cc: the GL entry points -/

/-- The entry point glFenceSync. -/
def glFenceSync (cfg : Config) (s : State) (condition flags : Nat) : Outcome GLsync :=
  if condition ≠ GL_SYNC_GPU_COMMANDS_COMPLETE then
    RSXGL_ERROR GL_INVALID_ENUM none true s
  else if flags ≠ 0 then
    RSXGL_ERROR GL_INVALID_VALUE none true s
  else
    let r := rsxgl_sync_object_really_allocate cfg s.storage
    let name := r.1
    let s1 := { s with storage := r.2.2 }
    if name = 0 then
      RSXGL_ERROR GL_OUT_OF_MEMORY none r.2.1 s1
    else
      let a := s1.storage.is_object cfg.RSXGL_MAX_SYNC_OBJECTS name
      let i := rsxgl_sync_name_to_rsx_index cfg name
      let index := i.1
      let t := rsxgl_sync_token s1
      let token := t.1
      let s2 := t.2
      let sync_object : rsxgl_sync_object_t :=
        { status := bitfield 1 0, index := bitfield 8 index, value := bitfield 23 token }
      let s3 := { s2 with storage :=
        { s2.storage with contents := assign s2.storage.contents name sync_object } }
      let s4 := rsxgl_sync_cpu_signal s3 index RSXGL_SYNC_UNSIGNALED_TOKEN
      let s5 := rsxgl_emit_sync_gpu_signal_read s4 (s4.storage.object_at name).index token
      RSXGL_NOERROR (some name) (r.2.1 && a && i.2) s5

/-- The entry point glIsSync. -/
def glIsSync (cfg : Config) (s : State) (sync : GLsync) : Outcome Nat :=
  match sync with
  | none => { ret := GL_FALSE, error := none, asserts := true, state := s }
  | some p =>
    let n := rsxgl_rsx_index_to_sync_name cfg (s.storage.contents p).index
    if s.storage.is_name cfg.RSXGL_MAX_SYNC_OBJECTS n.1 then
      { ret := GL_TRUE, error := none,
        asserts := n.2 && s.storage.is_object cfg.RSXGL_MAX_SYNC_OBJECTS n.1, state := s }
    else
      { ret := GL_FALSE, error := none, asserts := n.2, state := s }

/-- The entry point glDeleteSync. -/
def glDeleteSync (cfg : Config) (s : State) (sync : GLsync) : Outcome Unit :=
  match sync with
  | none => RSXGL_ERROR GL_INVALID_VALUE () true s
  | some p =>
    let n := rsxgl_rsx_index_to_sync_name cfg (s.storage.contents p).index
    if !s.storage.is_name cfg.RSXGL_MAX_SYNC_OBJECTS n.1 then
      RSXGL_ERROR GL_INVALID_VALUE () n.2 s
    else
      let name := n.1
      { ret := (), error := none,
        asserts := n.2 && s.storage.is_object cfg.RSXGL_MAX_SYNC_OBJECTS name,
        state := { s with storage := s.storage.destroy cfg.RSXGL_MAX_SYNC_OBJECTS name } }

/-- The value ~valid_flags of glClientWaitSync, a 32-bit GLbitfield. -/
def not_valid_flags : Nat := (2 ^ 32 - 1) ^^^ GL_SYNC_FLUSH_COMMANDS_BIT

/-- The entry point glClientWaitSync. The GPU and the bound on the number of
reads are those of rsxgl_sync_cpu_wait; the result is none when the poll loop
is still running after that many reads. -/
def glClientWaitSync (cfg : Config) (gpu : Gpu) (fuel : Nat) (s : State) (sync : GLsync)
    (flags timeout : Nat) : Option (Outcome Nat) :=
  match sync with
  | none => some (RSXGL_ERROR GL_INVALID_VALUE GL_WAIT_FAILED true s)
  | some p =>
    let n := rsxgl_rsx_index_to_sync_name cfg (s.storage.contents p).index
    if !s.storage.is_name cfg.RSXGL_MAX_SYNC_OBJECTS n.1 then
      some (RSXGL_ERROR GL_INVALID_VALUE GL_WAIT_FAILED n.2 s)
    else if flags &&& not_valid_flags ≠ 0 then
      some (RSXGL_ERROR GL_INVALID_VALUE GL_WAIT_FAILED n.2 s)
    else
      let a := n.2 && s.storage.is_object cfg.RSXGL_MAX_SYNC_OBJECTS n.1
      let s1 := if flags &&& GL_SYNC_FLUSH_COMMANDS_BIT ≠ 0 then rsxgl_flush s else s
      if (s1.storage.contents p).status ≠ 0 then
        some (RSXGL_NOERROR GL_ALREADY_SIGNALED a s1)
      else
        let timeout_usec := (timeout / 1000) % 2 ^ cfg.useconds_t_bits
        match rsxgl_sync_cpu_wait gpu (s1.storage.contents p).index (s1.storage.contents p).value
            cfg.RSXGL_SYNC_SLEEP_INTERVAL fuel s1 timeout_usec with
        | none => none
        | some (true, s2) =>
          let sync_object := s2.storage.contents p
          let signaled := { sync_object with status := bitfield 1 1 }
          some (RSXGL_NOERROR GL_CONDITION_SATISFIED a
            { s2 with storage :=
              { s2.storage with contents := assign s2.storage.contents p signaled } })
        | some (false, s2) => some (RSXGL_NOERROR GL_TIMEOUT_EXPIRED a s2)

/-- The entry point glWaitSync. -/
def glWaitSync (cfg : Config) (s : State) (sync : GLsync) (flags timeout : Nat) :
    Outcome Unit :=
  match sync with
  | none => RSXGL_ERROR GL_INVALID_VALUE () true s
  | some p =>
    let n := rsxgl_rsx_index_to_sync_name cfg (s.storage.contents p).index
    if !s.storage.is_name cfg.RSXGL_MAX_SYNC_OBJECTS n.1 then
      RSXGL_ERROR GL_INVALID_VALUE () n.2 s
    else if flags ≠ 0 ∨ timeout ≠ GL_TIMEOUT_IGNORED then
      RSXGL_ERROR GL_INVALID_VALUE () n.2 s
    else
      RSXGL_NOERROR () (n.2 && s.storage.is_object cfg.RSXGL_MAX_SYNC_OBJECTS n.1) s

/-- What glGetSynciv stores through its pointer arguments: the value written to
length (none when nothing is written) and the value written to values. -/
structure Written where
  length : Option Nat
  values : Option Nat
deriving DecidableEq

/-- The entry point glGetSynciv; has_length says whether the length pointer is
non-null. -/
def glGetSynciv (cfg : Config) (s : State) (sync : GLsync) (pname : Nat) (bufSize : Int)
    (has_length : Bool) : Outcome Written :=
  match sync with
  | none => RSXGL_ERROR GL_INVALID_VALUE { length := none, values := none } true s
  | some p =>
    let n := rsxgl_rsx_index_to_sync_name cfg (s.storage.contents p).index
    if !s.storage.is_name cfg.RSXGL_MAX_SYNC_OBJECTS n.1 then
      RSXGL_ERROR GL_INVALID_VALUE { length := none, values := none } n.2 s
    else
      let a := n.2 && s.storage.is_object cfg.RSXGL_MAX_SYNC_OBJECTS n.1
      if bufSize < 1 then
        RSXGL_NOERROR { length := if has_length then some 0 else none, values := none } a s
      else
        let len := if has_length then some 1 else none
        if pname = GL_OBJECT_TYPE then
          RSXGL_NOERROR { length := len, values := some GL_SYNC_FENCE } a s
        else if pname = GL_SYNC_STATUS then
          let v := if (s.storage.contents p).status ≠ 0 then GL_SIGNALED else GL_UNSIGNALED
          RSXGL_NOERROR { length := len, values := some v } a s
        else if pname = GL_SYNC_CONDITION then
          RSXGL_NOERROR { length := len, values := some GL_SYNC_GPU_COMMANDS_COMPLETE } a s
        else if pname = GL_SYNC_FLAGS then
          RSXGL_NOERROR { length := len, values := some 0 } a s
        else
          RSXGL_ERROR GL_INVALID_ENUM { length := none, values := none } a s

/-! ## sync.cc: glFinish -/

/-- Modelled from the spec: rsxgl_emit_set_ref of gl_fifo.h emits into the
command stream an instruction that makes the GPU write the value to the ref of
the control register when it reaches this point of the stream. -/
def rsxgl_emit_set_ref (s : State) (ref : Nat) : State :=
  { s with fifo := s.fifo ++ [Command.set_ref ref] }

/-- A turn of a polling loop that does not sleep: the GPU runs meanwhile, and no
call to usleep is counted. -/
def spin (gpu : Gpu) (s : State) : State :=
  { s with hw := gpu s.sleeps s.hw }

/-- The first loop of glFinish,
while(control -> ref != ref && remaining_timeout > 0), with the subtraction
remaining_timeout -= timeout_interval in the unsigned type useconds_t. Each test
of the loop condition reads the control register once. The result is the state
and remaining_timeout at the exit of the loop; the first numeric argument bounds
the number of reads, and none means the loop is still running after that
many. -/
def glFinish_wait_interval (cfg : Config) (gpu : Gpu) (ref timeout_interval : Nat) :
    Nat → State → Nat → Option (State × Nat)
  | 0, _, _ => none
  | fuel + 1, s, remaining_timeout =>
    let s1 := { s with polls := s.polls + 1 }
    if s1.hw.control_ref ≠ ref ∧ remaining_timeout > 0 then
      if timeout_interval > 0 then
        glFinish_wait_interval cfg gpu ref timeout_interval fuel (usleep gpu s1)
          ((remaining_timeout + 2 ^ cfg.useconds_t_bits - timeout_interval)
            % 2 ^ cfg.useconds_t_bits)
      else
        glFinish_wait_interval cfg gpu ref timeout_interval fuel (spin gpu s1)
          remaining_timeout
    else some (s1, remaining_timeout)

/-- The second loop of glFinish, while(control -> ref != ref). The result is the
state at the exit of the loop; none means the loop is still running after the
given number of reads. -/
def glFinish_wait_forever (gpu : Gpu) (ref timeout_interval : Nat) :
    Nat → State → Option State
  | 0, _ => none
  | fuel + 1, s =>
    let s1 := { s with polls := s.polls + 1 }
    if s1.hw.control_ref ≠ ref then
      glFinish_wait_forever gpu ref timeout_interval fuel
        (if timeout_interval > 0 then usleep gpu s1 else spin gpu s1)
    else some s1

/-- The timeout of glFinish: RSXGL_SYNC_SLEEP_INTERVAL *
RSXGL_FINISH_SLEEP_ITERATIONS as a useconds_t. -/
def glFinish_timeout (cfg : Config) : Nat :=
  (cfg.RSXGL_SYNC_SLEEP_INTERVAL * cfg.RSXGL_FINISH_SLEEP_ITERATIONS) % 2 ^ cfg.useconds_t_bits

/-- The timeout_interval of glFinish: RSXGL_SYNC_SLEEP_INTERVAL as a
useconds_t. -/
def glFinish_timeout_interval (cfg : Config) : Nat :=
  cfg.RSXGL_SYNC_SLEEP_INTERVAL % 2 ^ cfg.useconds_t_bits

/-- The entry point glFinish. The counter ref of the context and the local ref
are uint32_t; the result is none when the loop is still running after the given
number of reads of the control register. -/
def glFinish (cfg : Config) (gpu : Gpu) (fuel : Nat) (s : State) : Option (Outcome Unit) :=
  let ref := s.ref % 2 ^ 32
  let s1 := { s with ref := (s.ref + 1) % 2 ^ 32 }
  let s2 := rsxgl_emit_set_ref s1 ref
  let s3 := rsxgl_flush s2
  let timeout := glFinish_timeout cfg
  let timeout_interval := glFinish_timeout_interval cfg
  if timeout > 0 then
    match glFinish_wait_interval cfg gpu ref timeout_interval fuel s3 timeout with
    | none => none
    | some r => some (RSXGL_NOERROR () true r.1)
  else
    match glFinish_wait_forever gpu ref timeout_interval fuel s3 with
    | none => none
    | some s4 => some (RSXGL_NOERROR () true s4)

/-! ## Sequences of calls -/

/-- One step of a client of sync.cc: a call to an entry point or to one of the
two allocation functions the rest of the library uses, or any other activity
(the GPU writing a semaphore, glFlush, glFinish, emission of other commands),
which may change everything except the sync registry and the token counter. -/
inductive Op where
  | fenceSync (condition flags : Nat)
  | isSync (sync : GLsync)
  | deleteSync (sync : GLsync)
  | clientWaitSync (gpu : Gpu) (fuel : Nat) (sync : GLsync) (flags timeout : Nat)
  | waitSync (sync : GLsync) (flags timeout : Nat)
  | getSynciv (sync : GLsync) (pname : Nat) (bufSize : Int) (has_length : Bool)
  | allocate
  | free (index : Nat)
  | other (t : State)

/-- The state after one step. A glClientWaitSync that does not return has no
later state; the step then leaves the state as it is. The argument of
rsxgl_sync_object_free is a uint8_t. -/
def step (cfg : Config) (s : State) : Op → State
  | Op.fenceSync condition flags => (glFenceSync cfg s condition flags).state
  | Op.isSync sync => (glIsSync cfg s sync).state
  | Op.deleteSync sync => (glDeleteSync cfg s sync).state
  | Op.clientWaitSync gpu fuel sync flags timeout =>
    match glClientWaitSync cfg gpu fuel s sync flags timeout with
    | some o => o.state
    | none => s
  | Op.waitSync sync flags timeout => (glWaitSync cfg s sync flags timeout).state
  | Op.getSynciv sync pname bufSize has_length =>
    (glGetSynciv cfg s sync pname bufSize has_length).state
  | Op.allocate => (rsxgl_sync_object_allocate cfg s).state
  | Op.free index => (rsxgl_sync_object_free cfg s (index % 256)).state
  | Op.other t => { t with storage := s.storage, _rsxgl_sync_token := s._rsxgl_sync_token }

/-- The state after a sequence of steps. -/
def run (cfg : Config) (s : State) : List Op → State
  | [] => s
  | op :: ops => run cfg (step cfg s op) ops

/-- The state at program start: the registry is empty and the static counter
_rsxgl_sync_token is 0; memory and hardware are arbitrary. -/
def State.is_initial (s : State) : Prop :=
  (∀ n, s.storage.names n = false) ∧ (∀ n, s.storage.objects n = false) ∧
    s._rsxgl_sync_token = 0

/-- The states the program can be in: those a sequence of steps reaches from a
state at program start. -/
def Reachable (cfg : Config) (s : State) : Prop :=
  ∃ s0 ops, s0.is_initial ∧ run cfg s0 ops = s

/-- The name a handle refers to: rsxgl_rsx_index_to_sync_name of the index field
read through the pointer. -/
def name_of (cfg : Config) (s : State) (p : Nat) : Nat :=
  (rsxgl_rsx_index_to_sync_name cfg (s.storage.contents p).index).1

/-- How one step changes the sync registry: not at all; by reserving and
constructing a free name m, whose object storage is rewritten; by destroying a
reserved name n; or by setting the status bit of the object a valid pointer p
refers to. -/
inductive Effect (cfg : Config) (st st1 : storage_type) : Prop where
  | same (h : st1 = st)
  | create (m : Nat) (obj : rsxgl_sync_object_t) (h1 : 1 ≤ m)
      (h2 : m ≤ cfg.RSXGL_MAX_SYNC_OBJECTS) (hfree : st.names m = false)
      (h : st1 = { names := assign st.names m true, objects := assign st.objects m true,
                   contents := assign st.contents m obj })
  | destroy (n : Nat) (hn : st.is_name cfg.RSXGL_MAX_SYNC_OBJECTS n = true)
      (h : st1 = st.destroy cfg.RSXGL_MAX_SYNC_OBJECTS n)
  | signal (p : Nat)
      (hp : st.is_name cfg.RSXGL_MAX_SYNC_OBJECTS
        (rsxgl_rsx_index_to_sync_name cfg (st.contents p).index).1 = true)
      (h : st1 = { names := st.names, objects := st.objects,
                   contents := assign st.contents p
                    (rsxgl_sync_object_t.mk (bitfield 1 1) (st.contents p).index
                      (st.contents p).value) })

/-- A property holds in a state and in every state a sequence of steps passes
through from it, the last one included. -/
def always (P : State → Prop) (cfg : Config) : State → List Op → Prop
  | s, [] => P s
  | s, op :: ops => P s ∧ always P cfg (step cfg s op) ops

/-! ## A concrete configuration and start state -/

/-- A configuration with 64 sync objects and 32-bit name_type and useconds_t,
whose create_name reports exhaustion by the out-of-range name 65. -/
def config64 : Config :=
  { RSXGL_MAX_SYNC_OBJECTS := 64, RSXGL_SYNC_SLEEP_INTERVAL := 100,
    RSXGL_FINISH_SLEEP_ITERATIONS := 10000, name_type_bits := 32, useconds_t_bits := 32,
    create_name_sentinel := 65 }

/-- A start state: empty registry, zeroed memory and hardware. -/
def start : State :=
  { storage := { names := fun _ => false, objects := fun _ => false,
                 contents := fun _ => rsxgl_sync_object_t.ctor },
    _rsxgl_sync_token := 0, ref := 0,
    hw := { sem := fun _ => 0, control_ref := 0 },
    fifo := [], flushes := 0, polls := 0, sleeps := 0 }

/-- A GPU that writes nothing. -/
def idle : Gpu := fun _ h => h

/-- The start state after one successful glFenceSync. -/
def fenced : State := (glFenceSync config64 start GL_SYNC_GPU_COMMANDS_COMPLETE 0).state

/-- The state fenced once the GPU has executed the write-back command of the
fence: every semaphore reads 0, the token emitted. -/
def written : State := { fenced with hw := { sem := fun _ => 0, control_ref := 0 } }

/-- The state written after glClientWaitSync on the fence, which returns
GL_CONDITION_SATISFIED there. -/
def signaled : State :=
  step config64 written
    (Op.clientWaitSync idle 1 (some 1) GL_SYNC_FLUSH_COMMANDS_BIT 1000000000)

/-- The outcome of that glClientWaitSync. -/
def satisfied : Outcome Nat :=
  { ret := GL_CONDITION_SATISFIED, error := some GL_NO_ERROR, asserts := true,
    state := signaled }

/-- The state fenced after glDeleteSync on the fence. -/
def deleted : State := (glDeleteSync config64 fenced (some 1)).state

/-- The state deleted after a second glFenceSync, which reuses name 1. -/
def refenced : State := (glFenceSync config64 deleted GL_SYNC_GPU_COMMANDS_COMPLETE 0).state

/-- The state deleted after rsxgl_sync_object_allocate, which reuses name 1 and
leaves the index field of its object 0. -/
def reallocated : State := (rsxgl_sync_object_allocate config64 deleted).state

/-- A configuration with two sync objects whose create_name reports exhaustion
by 0. -/
def config2 : Config :=
  { RSXGL_MAX_SYNC_OBJECTS := 2, RSXGL_SYNC_SLEEP_INTERVAL := 100,
    RSXGL_FINISH_SLEEP_ITERATIONS := 10000, name_type_bits := 8, useconds_t_bits := 32,
    create_name_sentinel := 0 }

/-- The start state after two successful calls to glFenceSync under config2:
the registry is full. -/
def full2 : State :=
  run config2 start [Op.fenceSync GL_SYNC_GPU_COMMANDS_COMPLETE 0,
    Op.fenceSync GL_SYNC_GPU_COMMANDS_COMPLETE 0]

/-- A configuration like config64 whose glFinish waits three sleep quanta. -/
def config_short : Config :=
  { RSXGL_MAX_SYNC_OBJECTS := 64, RSXGL_SYNC_SLEEP_INTERVAL := 100,
    RSXGL_FINISH_SLEEP_ITERATIONS := 3, name_type_bits := 32, useconds_t_bits := 32,
    create_name_sentinel := 65 }

/-- The start state with the ref of the control register at 7: the GPU has not
reached the value 0 that the first glFinish emits. -/
def behind : State := { start with hw := { sem := fun _ => 0, control_ref := 7 } }

/-- The state behind after a glFinish under config_short with a GPU that writes
nothing: the three quanta have elapsed. -/
def late : State :=
  match glFinish config_short idle 4 behind with
  | some o => o.state
  | none => behind

/-- The outcome of that glFinish. -/
def expired : Outcome Unit :=
  { ret := (), error := some GL_NO_ERROR, asserts := true, state := late }

/-- A configuration like config64 whose product of the two glFinish constants
does not fit the 32-bit useconds_t: 3 * 1431655766 = 2 ^ 32 + 2. -/
def config_wrap : Config :=
  { RSXGL_MAX_SYNC_OBJECTS := 64, RSXGL_SYNC_SLEEP_INTERVAL := 3,
    RSXGL_FINISH_SLEEP_ITERATIONS := 1431655766, name_type_bits := 32, useconds_t_bits := 32,
    create_name_sentinel := 65 }

/-- A GPU that writes 0 to the ref of the control register during every sleep of
the CPU. -/
def prompt : Gpu := fun _ h => { h with control_ref := 0 }

/-! ## The index mapping -/

theorem two_pow_name_bits (cfg : Config) (hbits : 8 ≤ cfg.name_type_bits) :
    256 ≤ 2 ^ cfg.name_type_bits :=
  calc 256 = 2 ^ 8 := by norm_num
    _ ≤ 2 ^ cfg.name_type_bits := Nat.pow_le_pow_right (by norm_num) hbits

/-- The name computed from an index of the reserved range is index - 63. -/
theorem index_to_name_in_range (cfg : Config) (hbits : 8 ≤ cfg.name_type_bits) (i : Nat)
    (hlo : 64 ≤ i) (hhi : i < 256) :
    (rsxgl_rsx_index_to_sync_name cfg i).1 = i - 63 := by
  have hM := two_pow_name_bits cfg hbits
  simp only [rsxgl_rsx_index_to_sync_name]
  have h : ((i : Int) - 64 + 1) % ((2 ^ cfg.name_type_bits : Nat) : Int) = (i : Int) - 64 + 1 := by
    apply Int.emod_eq_of_lt <;> omega
  rw [h]
  omega

/-- The name computed from an index below the reserved range is 0 or wraps to
the top of name_type. -/
theorem index_to_name_below (cfg : Config) (hbits : 8 ≤ cfg.name_type_bits) (i : Nat)
    (hi : i < 64) :
    (rsxgl_rsx_index_to_sync_name cfg i).1 = 0 ∨
      2 ^ cfg.name_type_bits - 63 ≤ (rsxgl_rsx_index_to_sync_name cfg i).1 := by
  have hM := two_pow_name_bits cfg hbits
  simp only [rsxgl_rsx_index_to_sync_name]
  by_cases h63 : i = 63
  · left
    subst h63
    simp
  · right
    have h : ((i : Int) - 64 + 1) % ((2 ^ cfg.name_type_bits : Nat) : Int)
        = (i : Int) - 64 + 1 + ((2 ^ cfg.name_type_bits : Nat) : Int) := by
      rw [← Int.add_emod_self]
      apply Int.emod_eq_of_lt <;> omega
    rw [h]
    omega

/-- The index computed from a name of [1, 192] is name + 63. -/
theorem name_to_index_in_range (cfg : Config) (n : Nat) (hlo : 1 ≤ n) (hhi : n ≤ 192) :
    (rsxgl_sync_name_to_rsx_index cfg n).1 = n + 63 := by
  simp only [rsxgl_sync_name_to_rsx_index]
  omega

/-- A name the registry reports as reserved lies in [1, N]. -/
theorem is_name_range (capacity : Nat) (st : storage_type) (n : Nat)
    (h : st.is_name capacity n = true) : 1 ≤ n ∧ n ≤ capacity ∧ st.names n = true := by
  simp only [storage_type.is_name, has_slot, Bool.and_eq_true, decide_eq_true_eq] at h
  exact ⟨h.1.1, h.1.2, h.2⟩

/-- An index outside [64, 64 + N) never maps to a reserved name. -/
theorem is_name_out_of_range (cfg : Config) (hN : 64 + cfg.RSXGL_MAX_SYNC_OBJECTS ≤ 256)
    (hbits : 8 ≤ cfg.name_type_bits) (st : storage_type) (i : Nat) (hi : i < 256)
    (hout : i < 64 ∨ 64 + cfg.RSXGL_MAX_SYNC_OBJECTS ≤ i) :
    st.is_name cfg.RSXGL_MAX_SYNC_OBJECTS (rsxgl_rsx_index_to_sync_name cfg i).1 = false := by
  have hM := two_pow_name_bits cfg hbits
  cases hb : st.is_name cfg.RSXGL_MAX_SYNC_OBJECTS (rsxgl_rsx_index_to_sync_name cfg i).1 with
  | false => rfl
  | true =>
    exfalso
    have hr := is_name_range _ _ _ hb
    by_cases h64 : i < 64
    · rcases index_to_name_below cfg hbits i h64 with h0 | hw <;> omega
    · have := index_to_name_in_range cfg hbits i (by omega) hi
      omega

/-! ## The registry -/

theorem assign_same {α : Type} (f : Nat → α) (k : Nat) (v : α) : assign f k v k = v := by
  simp [assign]

theorem assign_other {α : Type} (f : Nat → α) (k m : Nat) (v : α) (h : m ≠ k) :
    assign f k v m = f m := by
  simp [assign, h]

/-- Either every name of [1, capacity] is reserved and create_name returns the
sentinel, changing nothing, or it returns and reserves the smallest free name. -/
theorem create_name_cases (capacity sentinel : Nat) (st : storage_type) :
    ((∀ n, 1 ≤ n → n ≤ capacity → st.names n = true) ∧
        st.create_name capacity sentinel = (sentinel, st)) ∨
    (∃ m, 1 ≤ m ∧ m ≤ capacity ∧ st.names m = false ∧
        (∀ k, 1 ≤ k → k < m → st.names k = true) ∧
        st.create_name capacity sentinel =
          (m, { st with names := assign st.names m true })) := by
  unfold storage_type.create_name
  cases h : (List.range' 1 capacity).find? (fun n => !st.names n) with
  | none =>
    left
    rw [List.find?_range'_eq_none] at h
    refine ⟨?_, rfl⟩
    intro n h1 h2
    have := h n h1 (by omega)
    simpa using this
  | some m =>
    right
    rw [List.find?_range'_eq_some] at h
    obtain ⟨hp, hm, hmin⟩ := h
    rw [List.mem_range'_1] at hm
    refine ⟨m, hm.1, by omega, by simpa using hp, ?_, rfl⟩
    intro k h1 h2
    have := hmin k h1 h2
    simpa using this

/-- The two outcomes of rsxgl_sync_object_really_allocate when the sentinel of
create_name is 0 or out of range: on exhaustion it returns 0, and the registry
is as before by the value the total definitions of destroy and create_object
give outside their preconditions; otherwise it returns the smallest free name m,
reserved and constructed. -/
theorem really_allocate_cases (cfg : Config)
    (hs : cfg.create_name_sentinel = 0 ∨ cfg.RSXGL_MAX_SYNC_OBJECTS < cfg.create_name_sentinel)
    (st : storage_type) :
    ((∀ n, 1 ≤ n → n ≤ cfg.RSXGL_MAX_SYNC_OBJECTS → st.names n = true) ∧
        (rsxgl_sync_object_really_allocate cfg st).1 = 0 ∧
        (rsxgl_sync_object_really_allocate cfg st).2.2 = st) ∨
    (∃ m, 1 ≤ m ∧ m ≤ cfg.RSXGL_MAX_SYNC_OBJECTS ∧ st.names m = false ∧
        (∀ k, 1 ≤ k → k < m → st.names k = true) ∧
        rsxgl_sync_object_really_allocate cfg st =
          (m, true, { names := assign st.names m true,
                      objects := assign st.objects m true,
                      contents := assign st.contents m rsxgl_sync_object_t.ctor })) := by
  rcases create_name_cases cfg.RSXGL_MAX_SYNC_OBJECTS cfg.create_name_sentinel st with
    ⟨hfull, hc⟩ | ⟨m, h1, h2, hfree, hmin, hc⟩
  · left
    refine ⟨hfull, ?_, ?_⟩
    · unfold rsxgl_sync_object_really_allocate
      rw [hc]
      rcases hs with h0 | hgt
      · simp [h0]
      · simp [hgt]
    · unfold rsxgl_sync_object_really_allocate
      rw [hc]
      rcases hs with h0 | hgt
      · simp [h0, storage_type.create_object, has_slot]
      · have hslot : has_slot cfg.RSXGL_MAX_SYNC_OBJECTS cfg.create_name_sentinel = false := by
          simp [has_slot]
          omega
        simp [hgt, storage_type.destroy, hslot]
  · right
    refine ⟨m, h1, h2, hfree, hmin, ?_⟩
    unfold rsxgl_sync_object_really_allocate
    rw [hc]
    have hslot : has_slot cfg.RSXGL_MAX_SYNC_OBJECTS m = true := by
      simp [has_slot]
      omega
    have hle : ¬ m > cfg.RSXGL_MAX_SYNC_OBJECTS := by omega
    simp [hle, storage_type.create_object, hslot]
    omega

theorem State.eta_storage (s : State) : { s with storage := s.storage } = s := by
  cases s
  rfl

/-- What a glFenceSync with valid arguments does once
rsxgl_sync_object_really_allocate has returned the name m. -/
theorem glFenceSync_of_allocate (cfg : Config) (s : State) (m : Nat) (ok : Bool)
    (st : storage_type) (hm : m ≠ 0)
    (hra : rsxgl_sync_object_really_allocate cfg s.storage = (m, ok, st)) :
    glFenceSync cfg s GL_SYNC_GPU_COMMANDS_COMPLETE 0 =
      { ret := some m, error := some GL_NO_ERROR,
        asserts := ok && st.is_object cfg.RSXGL_MAX_SYNC_OBJECTS m &&
          (rsxgl_sync_name_to_rsx_index cfg m).2,
        state :=
          { s with
            storage :=
              { st with
                contents :=
                  assign st.contents m
                    (rsxgl_sync_object_t.mk 0 (bitfield 8 (rsxgl_sync_name_to_rsx_index cfg m).1)
                      (bitfield 23 (rsxgl_sync_token s).1)) },
            _rsxgl_sync_token := (rsxgl_sync_token s).1,
            hw :=
              { s.hw with
                sem :=
                  assign s.hw.sem (rsxgl_sync_name_to_rsx_index cfg m).1
                    RSXGL_SYNC_UNSIGNALED_TOKEN },
            fifo :=
              s.fifo ++ [Command.sync_gpu_signal_read
                (bitfield 8 (rsxgl_sync_name_to_rsx_index cfg m).1)
                (rsxgl_sync_token s).1] } } := by
  simp [glFenceSync, hra, hm, RSXGL_NOERROR, rsxgl_sync_cpu_signal,
    rsxgl_emit_sync_gpu_signal_read, rsxgl_sync_token, storage_type.object_at, assign_same,
    bitfield]

theorem glIsSync_ret (cfg : Config) (s : State) (p : Nat) :
    (glIsSync cfg s (some p)).ret =
      if s.storage.is_name cfg.RSXGL_MAX_SYNC_OBJECTS (name_of cfg s p) then GL_TRUE
      else GL_FALSE := by
  simp only [glIsSync, name_of]
  split <;> rfl

theorem glIsSync_true_iff (cfg : Config) (s : State) (p : Nat) :
    (glIsSync cfg s (some p)).ret = GL_TRUE ↔
      s.storage.is_name cfg.RSXGL_MAX_SYNC_OBJECTS (name_of cfg s p) = true := by
  rw [glIsSync_ret]
  split <;> simp_all [GL_TRUE, GL_FALSE]

theorem glIsSync_false_iff (cfg : Config) (s : State) (p : Nat) :
    (glIsSync cfg s (some p)).ret = GL_FALSE ↔
      s.storage.is_name cfg.RSXGL_MAX_SYNC_OBJECTS (name_of cfg s p) = false := by
  rw [glIsSync_ret]
  split <;> simp_all [GL_TRUE, GL_FALSE]

theorem glIsSync_null (cfg : Config) (s : State) : (glIsSync cfg s none).ret = GL_FALSE := rfl

/-- A glFenceSync whose arguments are rejected leaves the state as it was. -/
theorem glFenceSync_rejected_state (cfg : Config) (s : State) (condition flags : Nat)
    (h : condition ≠ GL_SYNC_GPU_COMMANDS_COMPLETE ∨ flags ≠ 0) :
    (glFenceSync cfg s condition flags).state = s := by
  unfold glFenceSync
  by_cases hc : condition ≠ GL_SYNC_GPU_COMMANDS_COMPLETE
  · simp [hc, RSXGL_ERROR]
  · have hf : flags ≠ 0 := by
      rcases h with h | h
      · exact absurd h hc
      · exact h
    simp [hc, hf, RSXGL_ERROR]

/-- What glFenceSync does when rsxgl_sync_object_really_allocate returns 0 and
has left the registry as it was. -/
theorem glFenceSync_of_no_name (cfg : Config) (s : State)
    (h0 : (rsxgl_sync_object_really_allocate cfg s.storage).1 = 0)
    (hst : (rsxgl_sync_object_really_allocate cfg s.storage).2.2 = s.storage) :
    (glFenceSync cfg s GL_SYNC_GPU_COMMANDS_COMPLETE 0).ret = none ∧
    (glFenceSync cfg s GL_SYNC_GPU_COMMANDS_COMPLETE 0).error = some GL_OUT_OF_MEMORY ∧
    (glFenceSync cfg s GL_SYNC_GPU_COMMANDS_COMPLETE 0).state = s := by
  unfold glFenceSync
  simp only [h0, hst, ne_eq, not_true_eq_false, if_false, if_true, RSXGL_ERROR,
    State.eta_storage, and_self]

/-- C3: glFenceSync validates before allocating. For every state and every
(condition, flags) with condition different from GL_SYNC_GPU_COMMANDS_COMPLETE
or flags different from 0, glFenceSync returns the null handle, reports
GL_INVALID_ENUM when the condition is unsupported and otherwise
GL_INVALID_VALUE, and leaves the whole state (registry, token counter, hardware
semaphores, command stream) as it was. -/
theorem glFenceSync_validates_before_allocating (cfg : Config) (s : State)
    (condition flags : Nat)
    (h : condition ≠ GL_SYNC_GPU_COMMANDS_COMPLETE ∨ flags ≠ 0) :
    (glFenceSync cfg s condition flags).ret = none ∧
    (glFenceSync cfg s condition flags).error =
      some (if condition ≠ GL_SYNC_GPU_COMMANDS_COMPLETE then GL_INVALID_ENUM
            else GL_INVALID_VALUE) ∧
    (glFenceSync cfg s condition flags).state = s := by
  unfold glFenceSync
  by_cases hc : condition ≠ GL_SYNC_GPU_COMMANDS_COMPLETE
  · simp [hc, RSXGL_ERROR]
  · have hf : flags ≠ 0 := by
      rcases h with h | h
      · exact absurd h hc
      · exact h
    simp [hc, hf, RSXGL_ERROR]

theorem glFenceSync_validates_before_allocating_witness :
    (GL_SYNC_FENCE ≠ GL_SYNC_GPU_COMMANDS_COMPLETE ∨ 1 ≠ 0) ∧
    (glFenceSync config64 start GL_SYNC_FENCE 1).ret = none ∧
    (glFenceSync config64 start GL_SYNC_FENCE 1).error = some GL_INVALID_ENUM ∧
    (glFenceSync config64 start GL_SYNC_FENCE 1).state = start :=
  ⟨by decide,
    glFenceSync_validates_before_allocating config64 start GL_SYNC_FENCE 1 (by decide)⟩

/-- C6: the index mapping is a bijection between names and reserved hardware
indices. With 64 + N at most 256 (and name_type at least a byte wide), for
every name n of [1, N] rsxgl_rsx_index_to_sync_name gives n back from
rsxgl_sync_name_to_rsx_index n, which lies in [64, 64 + N); and for every index
i of [64, 64 + N) rsxgl_sync_name_to_rsx_index gives i back from
rsxgl_rsx_index_to_sync_name i. The assertions of both functions hold on these
arguments. -/
theorem rsx_index_mapping_bijection (cfg : Config)
    (hN : 64 + cfg.RSXGL_MAX_SYNC_OBJECTS ≤ 256) (hbits : 8 ≤ cfg.name_type_bits) :
    (∀ n, 1 ≤ n → n ≤ cfg.RSXGL_MAX_SYNC_OBJECTS →
      (rsxgl_rsx_index_to_sync_name cfg (rsxgl_sync_name_to_rsx_index cfg n).1).1 = n ∧
      64 ≤ (rsxgl_sync_name_to_rsx_index cfg n).1 ∧
      (rsxgl_sync_name_to_rsx_index cfg n).1 < 64 + cfg.RSXGL_MAX_SYNC_OBJECTS ∧
      (rsxgl_sync_name_to_rsx_index cfg n).2 = true ∧
      (rsxgl_rsx_index_to_sync_name cfg (rsxgl_sync_name_to_rsx_index cfg n).1).2 = true) ∧
    (∀ i, 64 ≤ i → i < 64 + cfg.RSXGL_MAX_SYNC_OBJECTS →
      (rsxgl_sync_name_to_rsx_index cfg (rsxgl_rsx_index_to_sync_name cfg i).1).1 = i ∧
      (rsxgl_rsx_index_to_sync_name cfg i).2 = true ∧
      (rsxgl_sync_name_to_rsx_index cfg (rsxgl_rsx_index_to_sync_name cfg i).1).2 = true) := by
  constructor
  · intro n h1 h2
    have hi := name_to_index_in_range cfg n h1 (by omega)
    have hn := index_to_name_in_range cfg hbits (n + 63) (by omega) (by omega)
    rw [hi, hn]
    refine ⟨by omega, by omega, by omega, ?_, ?_⟩
    · simp [rsxgl_sync_name_to_rsx_index]
      omega
    · simp [rsxgl_rsx_index_to_sync_name]
      omega
  · intro i h1 h2
    have hn := index_to_name_in_range cfg hbits i h1 (by omega)
    have hi := name_to_index_in_range cfg (i - 63) (by omega) (by omega)
    rw [hn, hi]
    refine ⟨by omega, ?_, ?_⟩
    · simp [rsxgl_rsx_index_to_sync_name]
      omega
    · simp [rsxgl_sync_name_to_rsx_index]
      omega

theorem rsx_index_mapping_bijection_witness :
    (64 + config64.RSXGL_MAX_SYNC_OBJECTS ≤ 256 ∧ 8 ≤ config64.name_type_bits) ∧
    (rsxgl_rsx_index_to_sync_name config64 (rsxgl_sync_name_to_rsx_index config64 64).1).1 = 64 ∧
    (rsxgl_sync_name_to_rsx_index config64 (rsxgl_rsx_index_to_sync_name config64 127).1).1
      = 127 :=
  ⟨by decide,
    ((rsx_index_mapping_bijection config64 (by decide) (by decide)).1 64
      (by decide) (by decide)).1,
    ((rsx_index_mapping_bijection config64 (by decide) (by decide)).2 127
      (by decide) (by decide)).1⟩

theorem is_name_destroy (capacity : Nat) (st : storage_type) (n m : Nat) :
    (st.destroy capacity n).is_name capacity m =
      (decide (m ≠ n) && st.is_name capacity m) := by
  unfold storage_type.destroy
  by_cases hslot : has_slot capacity n = true
  · by_cases hmn : m = n
    · subst hmn
      simp [hslot, storage_type.is_name, assign]
    · simp [hslot, storage_type.is_name, assign, hmn]
  · by_cases hmn : m = n
    · subst hmn
      simp [hslot, storage_type.is_name]
    · simp [hslot, hmn]

theorem is_object_destroy (capacity : Nat) (st : storage_type) (n m : Nat) :
    (st.destroy capacity n).is_object capacity m =
      (decide (m ≠ n) && st.is_object capacity m) := by
  unfold storage_type.destroy
  by_cases hslot : has_slot capacity n = true
  · by_cases hmn : m = n
    · subst hmn
      simp [hslot, storage_type.is_object, assign]
    · simp [hslot, storage_type.is_object, assign, hmn]
  · by_cases hmn : m = n
    · subst hmn
      simp [hslot, storage_type.is_object]
    · simp [hslot, hmn]

theorem contents_destroy (capacity : Nat) (st : storage_type) (n : Nat) :
    (st.destroy capacity n).contents = st.contents := by
  unfold storage_type.destroy
  split <;> rfl

/-- What glDeleteSync does on a handle glIsSync accepts. -/
theorem glDeleteSync_valid (cfg : Config) (s : State) (p : Nat)
    (hv : s.storage.is_name cfg.RSXGL_MAX_SYNC_OBJECTS (name_of cfg s p) = true) :
    (glDeleteSync cfg s (some p)).error = none ∧
    (glDeleteSync cfg s (some p)).state =
      { s with storage := s.storage.destroy cfg.RSXGL_MAX_SYNC_OBJECTS (name_of cfg s p) } := by
  unfold name_of at hv
  simp [glDeleteSync, hv, name_of]

/-- What glDeleteSync does on a handle glIsSync rejects. -/
theorem glDeleteSync_invalid (cfg : Config) (s : State) (h : GLsync)
    (hv : (glIsSync cfg s h).ret = GL_FALSE) :
    (glDeleteSync cfg s h).error = some GL_INVALID_VALUE ∧
    (glDeleteSync cfg s h).state = s := by
  cases h with
  | none => simp [glDeleteSync, RSXGL_ERROR]
  | some p =>
    rw [glIsSync_false_iff] at hv
    unfold name_of at hv
    simp [glDeleteSync, hv, RSXGL_ERROR]

/-- A glFenceSync with valid arguments succeeds when some name is free. -/
theorem glFenceSync_succeeds (cfg : Config)
    (hs : cfg.create_name_sentinel = 0 ∨ cfg.RSXGL_MAX_SYNC_OBJECTS < cfg.create_name_sentinel)
    (s : State) (n : Nat) (h1 : 1 ≤ n) (h2 : n ≤ cfg.RSXGL_MAX_SYNC_OBJECTS)
    (hfree : s.storage.names n = false) :
    ∃ m, 1 ≤ m ∧ m ≤ n ∧ s.storage.names m = false ∧
      rsxgl_sync_object_really_allocate cfg s.storage =
          (m, true, { names := assign s.storage.names m true,
                      objects := assign s.storage.objects m true,
                      contents := assign s.storage.contents m rsxgl_sync_object_t.ctor }) ∧
      (glFenceSync cfg s GL_SYNC_GPU_COMMANDS_COMPLETE 0).ret = some m ∧
      (glFenceSync cfg s GL_SYNC_GPU_COMMANDS_COMPLETE 0).error = some GL_NO_ERROR := by
  rcases really_allocate_cases cfg hs s.storage with
    ⟨hfull, _, _⟩ | ⟨m, hm1, hm2, hmfree, hmin, hra⟩
  · have := hfull n h1 h2
    rw [hfree] at this
    exact absurd this (by decide)
  · refine ⟨m, hm1, ?_, hmfree, hra, ?_, ?_⟩
    · by_contra hlt
      have := hmin n h1 (by omega)
      rw [hfree] at this
      exact absurd this (by decide)
    · rw [glFenceSync_of_allocate cfg s m true _ (by omega) hra]
    · rw [glFenceSync_of_allocate cfg s m true _ (by omega) hra]

/-- C5: destroy frees exactly one slot. For every state and every handle that
glIsSync accepts, glDeleteSync reports no error; afterwards the name of the
handle is no longer reserved, every other name keeps its liveness bits, every
sync object keeps its status, index and value, every other handle that was
valid and refers to another name is still valid, and the next
glFenceSync(GL_SYNC_GPU_COMMANDS_COMPLETE, 0) succeeds (in particular when the
registry was full before the destroy). glDeleteSync on a handle that glIsSync
rejects (null or not live) fails with GL_INVALID_VALUE and changes nothing. -/
theorem glDeleteSync_frees_exactly_one_slot (cfg : Config)
    (hs : cfg.create_name_sentinel = 0 ∨ cfg.RSXGL_MAX_SYNC_OBJECTS < cfg.create_name_sentinel)
    (s : State) :
    (∀ p, (glIsSync cfg s (some p)).ret = GL_TRUE →
      (glDeleteSync cfg s (some p)).error = none ∧
      (glDeleteSync cfg s (some p)).state.storage.is_name cfg.RSXGL_MAX_SYNC_OBJECTS
        (name_of cfg s p) = false ∧
      (∀ m, m ≠ name_of cfg s p →
        (glDeleteSync cfg s (some p)).state.storage.is_name cfg.RSXGL_MAX_SYNC_OBJECTS m =
          s.storage.is_name cfg.RSXGL_MAX_SYNC_OBJECTS m ∧
        (glDeleteSync cfg s (some p)).state.storage.is_object cfg.RSXGL_MAX_SYNC_OBJECTS m =
          s.storage.is_object cfg.RSXGL_MAX_SYNC_OBJECTS m) ∧
      (∀ q, (glDeleteSync cfg s (some p)).state.storage.contents q = s.storage.contents q) ∧
      (∀ q, (glIsSync cfg s (some q)).ret = GL_TRUE → name_of cfg s q ≠ name_of cfg s p →
        (glIsSync cfg (glDeleteSync cfg s (some p)).state (some q)).ret = GL_TRUE) ∧
      (∃ m, (glFenceSync cfg (glDeleteSync cfg s (some p)).state
              GL_SYNC_GPU_COMMANDS_COMPLETE 0).ret = some m ∧
            (glFenceSync cfg (glDeleteSync cfg s (some p)).state
              GL_SYNC_GPU_COMMANDS_COMPLETE 0).error = some GL_NO_ERROR)) ∧
    (∀ h, (glIsSync cfg s h).ret = GL_FALSE →
      (glDeleteSync cfg s h).error = some GL_INVALID_VALUE ∧
      (glDeleteSync cfg s h).state = s) := by
  refine ⟨?_, fun h hv => glDeleteSync_invalid cfg s h hv⟩
  intro p hp
  rw [glIsSync_true_iff] at hp
  obtain ⟨herr, hst⟩ := glDeleteSync_valid cfg s p hp
  have hr := is_name_range _ _ _ hp
  refine ⟨herr, ?_, ?_, ?_, ?_, ?_⟩
  · rw [hst]
    simp [is_name_destroy]
  · intro m hm
    rw [hst]
    simp [is_name_destroy, is_object_destroy, hm]
  · intro q
    rw [hst]
    simp [contents_destroy]
  · intro q hq hne
    rw [glIsSync_true_iff] at hq ⊢
    have hname : name_of cfg (glDeleteSync cfg s (some p)).state q = name_of cfg s q := by
      rw [hst]
      simp [name_of, contents_destroy]
    rw [hname, hst]
    simp [is_name_destroy, hne, hq]
  · have hfree : (glDeleteSync cfg s (some p)).state.storage.names (name_of cfg s p) = false := by
      rw [hst]
      have hslot : has_slot cfg.RSXGL_MAX_SYNC_OBJECTS (name_of cfg s p) = true := by
        simp [has_slot]
        omega
      simp [storage_type.destroy, hslot, assign]
    obtain ⟨m, _, _, _, _, hret, herr2⟩ :=
      glFenceSync_succeeds cfg hs _ (name_of cfg s p) hr.1 hr.2.1 hfree
    exact ⟨m, hret, herr2⟩

theorem glDeleteSync_frees_exactly_one_slot_witness :
    (config2.create_name_sentinel = 0 ∨
      config2.RSXGL_MAX_SYNC_OBJECTS < config2.create_name_sentinel) ∧
    (glIsSync config2 full2 (some 1)).ret = GL_TRUE ∧
    (glDeleteSync config2 full2 (some 1)).error = none ∧
    (glDeleteSync config2 full2 (some 1)).state.storage.is_name config2.RSXGL_MAX_SYNC_OBJECTS
      (name_of config2 full2 1) = false ∧
    (glIsSync config2 full2 none).ret = GL_FALSE ∧
    (glDeleteSync config2 full2 none).error = some GL_INVALID_VALUE ∧
    (glDeleteSync config2 full2 none).state = full2 :=
  ⟨by decide, by decide,
    ((glDeleteSync_frees_exactly_one_slot config2 (by decide) full2).1 1 (by decide)).1,
    ((glDeleteSync_frees_exactly_one_slot config2 (by decide) full2).1 1 (by decide)).2.1,
    by decide,
    (glDeleteSync_frees_exactly_one_slot config2 (by decide) full2).2 none (by decide)⟩


/-! ## Frame lemmas -/

/-- The poll loop touches only the hardware and the counters of reads and
sleeps, and reports a match only when the semaphore holds the value. -/
theorem cpu_wait_frame (gpu : Gpu) (index value interval : Nat) :
    ∀ (fuel : Nat) (s : State) (remaining : Nat) (r : Bool) (s1 : State),
      rsxgl_sync_cpu_wait gpu index value interval fuel s remaining = some (r, s1) →
      s1.storage = s.storage ∧ s1._rsxgl_sync_token = s._rsxgl_sync_token ∧
      s1.fifo = s.fifo ∧ s1.flushes = s.flushes ∧ s1.ref = s.ref ∧
      (r = true → s1.hw.sem index = value) := by
  intro fuel
  induction fuel with
  | zero =>
    intro s remaining r s1 h
    simp [rsxgl_sync_cpu_wait] at h
  | succ k ih =>
    intro s remaining r s1 h
    simp only [rsxgl_sync_cpu_wait] at h
    split at h
    · rename_i hm
      simp only [Option.some.injEq, Prod.mk.injEq] at h
      obtain ⟨hr, hs⟩ := h
      subst hs
      exact ⟨rfl, rfl, rfl, rfl, rfl, fun _ => hm⟩
    · split at h
      · simp only [Option.some.injEq, Prod.mk.injEq] at h
        obtain ⟨hr, hs⟩ := h
        subst hs
        subst hr
        exact ⟨rfl, rfl, rfl, rfl, rfl, fun h => absurd h (by decide)⟩
      · have := ih _ _ _ _ h
        simpa [usleep] using this

/-- The poll loop returns at its first read when the semaphore already holds
the value. -/
theorem cpu_wait_immediate (gpu : Gpu) (index value interval fuel : Nat) (s : State)
    (remaining : Nat) (h : s.hw.sem index = value) :
    rsxgl_sync_cpu_wait gpu index value interval (fuel + 1) s remaining =
      some (true, { s with polls := s.polls + 1 }) := by
  simp [rsxgl_sync_cpu_wait, h]


theorem really_allocate_effect (cfg : Config)
    (hs : cfg.create_name_sentinel = 0 ∨ cfg.RSXGL_MAX_SYNC_OBJECTS < cfg.create_name_sentinel)
    (st : storage_type) :
    Effect cfg st (rsxgl_sync_object_really_allocate cfg st).2.2 := by
  rcases really_allocate_cases cfg hs st with ⟨_, _, hst⟩ | ⟨m, h1, h2, hfree, _, hra⟩
  · exact Effect.same hst
  · rw [hra]
    exact Effect.create m rsxgl_sync_object_t.ctor h1 h2 hfree rfl

theorem glFenceSync_effect (cfg : Config)
    (hs : cfg.create_name_sentinel = 0 ∨ cfg.RSXGL_MAX_SYNC_OBJECTS < cfg.create_name_sentinel)
    (s : State) (condition flags : Nat) :
    Effect cfg s.storage (glFenceSync cfg s condition flags).state.storage ∧
    ((glFenceSync cfg s condition flags).state._rsxgl_sync_token = s._rsxgl_sync_token ∨
     (glFenceSync cfg s condition flags).state._rsxgl_sync_token = (rsxgl_sync_token s).1) := by
  by_cases hv : condition ≠ GL_SYNC_GPU_COMMANDS_COMPLETE ∨ flags ≠ 0
  · have := glFenceSync_rejected_state cfg s condition flags hv
    rw [this]
    exact ⟨Effect.same rfl, Or.inl rfl⟩
  · have hc : condition = GL_SYNC_GPU_COMMANDS_COMPLETE := by
      by_contra h
      exact hv (Or.inl h)
    have hf : flags = 0 := by
      by_contra h
      exact hv (Or.inr h)
    subst hc
    subst hf
    rcases really_allocate_cases cfg hs s.storage with hfull | ⟨m, h1, h2, hfree, _, hra⟩
    · have := (glFenceSync_of_no_name cfg s hfull.2.1 hfull.2.2).2.2
      rw [this]
      exact ⟨Effect.same rfl, Or.inl rfl⟩
    · rw [glFenceSync_of_allocate cfg s m true _ (by omega) hra]
      refine ⟨?_, Or.inr rfl⟩
      refine Effect.create m
        (rsxgl_sync_object_t.mk 0 (bitfield 8 (rsxgl_sync_name_to_rsx_index cfg m).1)
          (bitfield 23 (rsxgl_sync_token s).1)) h1 h2 hfree ?_
      simp only [storage_type.mk.injEq, true_and]
      funext q
      simp only [assign]
      split <;> rfl

theorem glDeleteSync_effect (cfg : Config) (s : State) (sync : GLsync) :
    Effect cfg s.storage (glDeleteSync cfg s sync).state.storage ∧
    (glDeleteSync cfg s sync).state._rsxgl_sync_token = s._rsxgl_sync_token := by
  cases sync with
  | none => exact ⟨Effect.same rfl, rfl⟩
  | some p =>
    by_cases hv : s.storage.is_name cfg.RSXGL_MAX_SYNC_OBJECTS (name_of cfg s p) = true
    · rw [(glDeleteSync_valid cfg s p hv).2]
      exact ⟨Effect.destroy _ hv rfl, rfl⟩
    · have hf : (glIsSync cfg s (some p)).ret = GL_FALSE := by
        rw [glIsSync_false_iff]
        simpa using hv
      rw [(glDeleteSync_invalid cfg s (some p) hf).2]
      exact ⟨Effect.same rfl, rfl⟩

theorem really_free_effect (cfg : Config) (st : storage_type) (name : Nat) :
    Effect cfg st (rsxgl_sync_object_really_free cfg st name).2 := by
  unfold rsxgl_sync_object_really_free
  split
  · rename_i h
    exact Effect.destroy name h rfl
  · exact Effect.same rfl

theorem flush_if_frame (b : Prop) [Decidable b] (s : State) :
    (if b then rsxgl_flush s else s).storage = s.storage ∧
    (if b then rsxgl_flush s else s)._rsxgl_sync_token = s._rsxgl_sync_token ∧
    (if b then rsxgl_flush s else s).hw = s.hw ∧
    (if b then rsxgl_flush s else s).fifo = s.fifo ∧
    (if b then rsxgl_flush s else s).polls = s.polls ∧
    (if b then rsxgl_flush s else s).sleeps = s.sleeps ∧
    (if b then rsxgl_flush s else s).ref = s.ref := by
  split <;> exact ⟨rfl, rfl, rfl, rfl, rfl, rfl, rfl⟩

/-- The three ways glClientWaitSync returns on a pointer: the handle or the
flags are rejected; the object is already signaled; or the poll loop ran. -/
theorem glClientWaitSync_cases (cfg : Config) (gpu : Gpu) (fuel : Nat) (s : State)
    (p flags timeout : Nat) (o : Outcome Nat)
    (h : glClientWaitSync cfg gpu fuel s (some p) flags timeout = some o) :
    ((s.storage.is_name cfg.RSXGL_MAX_SYNC_OBJECTS (name_of cfg s p) = false ∨
        flags &&& not_valid_flags ≠ 0) ∧
      o.ret = GL_WAIT_FAILED ∧ o.error = some GL_INVALID_VALUE ∧ o.state = s) ∨
    (s.storage.is_name cfg.RSXGL_MAX_SYNC_OBJECTS (name_of cfg s p) = true ∧
      flags &&& not_valid_flags = 0 ∧ (s.storage.contents p).status ≠ 0 ∧
      o.ret = GL_ALREADY_SIGNALED ∧ o.error = some GL_NO_ERROR ∧
      o.state = if flags &&& GL_SYNC_FLUSH_COMMANDS_BIT ≠ 0 then rsxgl_flush s else s) ∨
    (s.storage.is_name cfg.RSXGL_MAX_SYNC_OBJECTS (name_of cfg s p) = true ∧
      flags &&& not_valid_flags = 0 ∧ (s.storage.contents p).status = 0 ∧
      o.error = some GL_NO_ERROR ∧
      ∃ r s2,
        rsxgl_sync_cpu_wait gpu (s.storage.contents p).index (s.storage.contents p).value
          cfg.RSXGL_SYNC_SLEEP_INTERVAL fuel
          (if flags &&& GL_SYNC_FLUSH_COMMANDS_BIT ≠ 0 then rsxgl_flush s else s)
          ((timeout / 1000) % 2 ^ cfg.useconds_t_bits) = some (r, s2) ∧
        ((r = true ∧ o.ret = GL_CONDITION_SATISFIED ∧
          o.state = { s2 with storage :=
            { names := s2.storage.names, objects := s2.storage.objects,
              contents := assign s2.storage.contents p
                (rsxgl_sync_object_t.mk (bitfield 1 1) (s2.storage.contents p).index
                  (s2.storage.contents p).value) } }) ∨
         (r = false ∧ o.ret = GL_TIMEOUT_EXPIRED ∧ o.state = s2))) := by
  simp only [glClientWaitSync] at h
  have hfl := flush_if_frame (flags &&& GL_SYNC_FLUSH_COMMANDS_BIT ≠ 0) s
  generalize hs1 : (if flags &&& GL_SYNC_FLUSH_COMMANDS_BIT ≠ 0 then rsxgl_flush s else s) = s1
    at h hfl
  by_cases hname : s.storage.is_name cfg.RSXGL_MAX_SYNC_OBJECTS (name_of cfg s p) = true
  · have hname1 := hname
    unfold name_of at hname1
    by_cases hflags : flags &&& not_valid_flags ≠ 0
    · left
      simp only [hname1, hflags, RSXGL_ERROR, Bool.not_true, Bool.false_eq_true, if_false,
        if_true, ne_eq, not_false_eq_true, Option.some.injEq] at h
      subst h
      exact ⟨Or.inr hflags, rfl, rfl, rfl⟩
    · right
      have hflags0 : flags &&& not_valid_flags = 0 := by
        by_contra hc
        exact hflags hc
      simp only [hname1, hflags0, Bool.not_true, Bool.false_eq_true, if_false, ne_eq,
        not_true_eq_false] at h
      by_cases hst : (s1.storage.contents p).status ≠ 0
      · left
        simp only [ne_eq, hst, not_false_eq_true, if_true, RSXGL_NOERROR,
          Option.some.injEq] at h
        subst h
        rw [hfl.1] at hst
        exact ⟨hname, hflags0, hst, rfl, rfl, rfl⟩
      · right
        have hst0 : (s1.storage.contents p).status = 0 := by
          by_contra hc
          exact hst hc
        simp only [ne_eq, hst0, not_true_eq_false, if_false] at h
        have hst0s : (s.storage.contents p).status = 0 := by
          rw [← hfl.1]
          exact hst0
        rw [hfl.1] at h
        cases hw : rsxgl_sync_cpu_wait gpu (s.storage.contents p).index
            (s.storage.contents p).value cfg.RSXGL_SYNC_SLEEP_INTERVAL fuel s1
            ((timeout / 1000) % 2 ^ cfg.useconds_t_bits) with
        | none =>
          rw [hw] at h
          exact absurd h (by simp)
        | some rs =>
          obtain ⟨r, s2⟩ := rs
          rw [hw] at h
          cases r with
          | true =>
            simp only [RSXGL_NOERROR, Option.some.injEq] at h
            subst h
            exact ⟨hname, hflags0, hst0s, rfl, true, s2, rfl, Or.inl ⟨rfl, rfl, rfl⟩⟩
          | false =>
            simp only [RSXGL_NOERROR, Option.some.injEq] at h
            subst h
            exact ⟨hname, hflags0, hst0s, rfl, false, s2, rfl, Or.inr ⟨rfl, rfl, rfl⟩⟩
  · left
    have hname0 : s.storage.is_name cfg.RSXGL_MAX_SYNC_OBJECTS (name_of cfg s p) = false := by
      simpa using hname
    have hname1 := hname0
    unfold name_of at hname1
    simp only [hname1, Bool.not_false, if_true, RSXGL_ERROR, Option.some.injEq] at h
    subst h
    exact ⟨Or.inl hname0, rfl, rfl, rfl⟩

theorem glClientWaitSync_effect (cfg : Config) (gpu : Gpu) (fuel : Nat) (s : State)
    (sync : GLsync) (flags timeout : Nat) (o : Outcome Nat)
    (h : glClientWaitSync cfg gpu fuel s sync flags timeout = some o) :
    Effect cfg s.storage o.state.storage ∧
    o.state._rsxgl_sync_token = s._rsxgl_sync_token := by
  cases sync with
  | none =>
    simp only [glClientWaitSync, RSXGL_ERROR, Option.some.injEq] at h
    subst h
    exact ⟨Effect.same rfl, rfl⟩
  | some p =>
    have hfl := flush_if_frame (flags &&& GL_SYNC_FLUSH_COMMANDS_BIT ≠ 0) s
    rcases glClientWaitSync_cases cfg gpu fuel s p flags timeout o h with
      ⟨_, _, _, hst⟩ | ⟨_, _, _, _, _, hst⟩ | ⟨hname, _, _, _, r, s2, hw, hres⟩
    · rw [hst]
      exact ⟨Effect.same rfl, rfl⟩
    · rw [hst]
      exact ⟨Effect.same hfl.1, hfl.2.1⟩
    · have hfr := cpu_wait_frame _ _ _ _ _ _ _ _ _ hw
      rcases hres with ⟨_, _, hst⟩ | ⟨_, _, hst⟩
      · rw [hst]
        refine ⟨Effect.signal p hname ?_, ?_⟩
        · simp only [hfr.1, hfl.1]
        · simp only [hfr.2.1, hfl.2.1]
      · rw [hst]
        exact ⟨Effect.same (by rw [hfr.1, hfl.1]), by rw [hfr.2.1, hfl.2.1]⟩

theorem glWaitSync_state (cfg : Config) (s : State) (sync : GLsync) (flags timeout : Nat) :
    (glWaitSync cfg s sync flags timeout).state = s := by
  unfold glWaitSync
  cases sync with
  | none => rfl
  | some p =>
    simp only
    split
    · rfl
    · split <;> rfl

theorem glGetSynciv_state (cfg : Config) (s : State) (sync : GLsync) (pname : Nat)
    (bufSize : Int) (has_length : Bool) :
    (glGetSynciv cfg s sync pname bufSize has_length).state = s := by
  unfold glGetSynciv
  cases sync with
  | none => rfl
  | some p =>
    simp only
    repeat (first | rfl | split)

theorem glIsSync_state (cfg : Config) (s : State) (sync : GLsync) :
    (glIsSync cfg s sync).state = s := by
  unfold glIsSync
  cases sync with
  | none => rfl
  | some p =>
    simp only
    split <;> rfl

/-- Every step changes the registry by one of the four effects, and leaves the
token counter alone or advances it by rsxgl_sync_token. -/
theorem step_effect (cfg : Config)
    (hs : cfg.create_name_sentinel = 0 ∨ cfg.RSXGL_MAX_SYNC_OBJECTS < cfg.create_name_sentinel)
    (s : State) (op : Op) :
    Effect cfg s.storage (step cfg s op).storage ∧
    ((step cfg s op)._rsxgl_sync_token = s._rsxgl_sync_token ∨
     (step cfg s op)._rsxgl_sync_token = (rsxgl_sync_token s).1) := by
  cases op with
  | fenceSync condition flags => exact glFenceSync_effect cfg hs s condition flags
  | isSync sync =>
    have h := glIsSync_state cfg s sync
    simp only [step]
    rw [h]
    exact ⟨Effect.same rfl, Or.inl rfl⟩
  | deleteSync sync =>
    exact ⟨(glDeleteSync_effect cfg s sync).1, Or.inl (glDeleteSync_effect cfg s sync).2⟩
  | clientWaitSync gpu fuel sync flags timeout =>
    simp only [step]
    cases h : glClientWaitSync cfg gpu fuel s sync flags timeout with
    | none => exact ⟨Effect.same rfl, Or.inl rfl⟩
    | some o =>
      have := glClientWaitSync_effect cfg gpu fuel s sync flags timeout o h
      exact ⟨this.1, Or.inl this.2⟩
  | waitSync sync flags timeout =>
    have h := glWaitSync_state cfg s sync flags timeout
    simp only [step]
    rw [h]
    exact ⟨Effect.same rfl, Or.inl rfl⟩
  | getSynciv sync pname bufSize has_length =>
    have h := glGetSynciv_state cfg s sync pname bufSize has_length
    simp only [step]
    rw [h]
    exact ⟨Effect.same rfl, Or.inl rfl⟩
  | allocate =>
    simp only [step, rsxgl_sync_object_allocate]
    refine ⟨?_, Or.inl ?_⟩
    · split <;> exact really_allocate_effect cfg hs s.storage
    · split <;> rfl
  | free index =>
    simp only [step, rsxgl_sync_object_free]
    split
    · exact ⟨really_free_effect cfg s.storage _, Or.inl rfl⟩
    · exact ⟨Effect.same rfl, Or.inl rfl⟩
  | other t => exact ⟨Effect.same rfl, Or.inl rfl⟩


/-! ## Invariants of the reachable states -/

/-- From counter 0 the function rsxgl_sync_token returns 0. -/
theorem rsxgl_sync_token_of_zero (s : State) (h : s._rsxgl_sync_token = 0) :
    (rsxgl_sync_token s).1 = 0 := by
  simp only [rsxgl_sync_token, h]
  decide

/-- The value of rsxgl_sync_token is the single bit 23 of the counter plus one:
it is 0 or 1 << 23. -/
theorem rsxgl_sync_token_values (s : State) :
    (rsxgl_sync_token s).1 = 0 ∨ (rsxgl_sync_token s).1 = 2 ^ 23 := by
  simp only [rsxgl_sync_token, rsxgl_sync_token_max, Nat.one_shiftLeft]
  generalize (s._rsxgl_sync_token + 1) % 2 ^ 32 = x
  cases hb : x.testBit 23 with
  | false =>
    left
    apply Nat.eq_of_testBit_eq
    intro i
    rw [Nat.testBit_and, Nat.testBit_two_pow, Nat.zero_testBit]
    by_cases hi : 23 = i
    · subst hi
      simp [hb]
    · simp [hi]
  | true =>
    right
    apply Nat.eq_of_testBit_eq
    intro i
    rw [Nat.testBit_and, Nat.testBit_two_pow]
    by_cases hi : 23 = i
    · subst hi
      simp [hb]
    · simp [hi]

/-- Every effect keeps each reserved name constructed. -/
theorem effect_keeps_constructed (cfg : Config) (st st1 : storage_type)
    (he : Effect cfg st st1)
    (hinv : ∀ n, st.is_name cfg.RSXGL_MAX_SYNC_OBJECTS n = true →
      st.is_object cfg.RSXGL_MAX_SYNC_OBJECTS n = true) :
    ∀ n, st1.is_name cfg.RSXGL_MAX_SYNC_OBJECTS n = true →
      st1.is_object cfg.RSXGL_MAX_SYNC_OBJECTS n = true := by
  intro n hn
  cases he with
  | same h =>
    rw [h] at hn ⊢
    exact hinv n hn
  | create m obj h1 h2 hfree h =>
    rw [h] at hn ⊢
    by_cases hnm : n = m
    · subst hnm
      simp only [storage_type.is_name, Bool.and_eq_true] at hn
      simp [storage_type.is_object, hn.1, assign]
    · have h0 : st.is_name cfg.RSXGL_MAX_SYNC_OBJECTS n = true := by
        simpa [storage_type.is_name, assign, hnm] using hn
      have h3 := hinv n h0
      simpa [storage_type.is_object, assign, hnm] using h3
  | destroy k hk h =>
    rw [h] at hn ⊢
    rw [is_name_destroy] at hn
    rw [is_object_destroy]
    simp only [Bool.and_eq_true, decide_eq_true_eq] at hn ⊢
    exact ⟨hn.1, hinv n hn.2⟩
  | signal p hp h =>
    rw [h] at hn ⊢
    exact hinv n hn

/-- The invariant of the reachable states: the token counter is 0 and every
reserved name is constructed. -/
theorem run_invariant (cfg : Config)
    (hs : cfg.create_name_sentinel = 0 ∨ cfg.RSXGL_MAX_SYNC_OBJECTS < cfg.create_name_sentinel)
    (ops : List Op) :
    ∀ s : State,
      (s._rsxgl_sync_token = 0 ∧
        ∀ n, s.storage.is_name cfg.RSXGL_MAX_SYNC_OBJECTS n = true →
          s.storage.is_object cfg.RSXGL_MAX_SYNC_OBJECTS n = true) →
      ((run cfg s ops)._rsxgl_sync_token = 0 ∧
        ∀ n, (run cfg s ops).storage.is_name cfg.RSXGL_MAX_SYNC_OBJECTS n = true →
          (run cfg s ops).storage.is_object cfg.RSXGL_MAX_SYNC_OBJECTS n = true) := by
  induction ops with
  | nil =>
    intro s h
    exact h
  | cons op ops ih =>
    intro s h
    simp only [run]
    apply ih
    obtain ⟨he, ht⟩ := step_effect cfg hs s op
    refine ⟨?_, effect_keeps_constructed cfg _ _ he h.2⟩
    rcases ht with ht | ht
    · rw [ht]
      exact h.1
    · rw [ht]
      exact rsxgl_sync_token_of_zero s h.1

theorem reachable_invariant (cfg : Config)
    (hs : cfg.create_name_sentinel = 0 ∨ cfg.RSXGL_MAX_SYNC_OBJECTS < cfg.create_name_sentinel)
    (s : State) (hr : Reachable cfg s) :
    s._rsxgl_sync_token = 0 ∧
      ∀ n, s.storage.is_name cfg.RSXGL_MAX_SYNC_OBJECTS n = true →
        s.storage.is_object cfg.RSXGL_MAX_SYNC_OBJECTS n = true := by
  obtain ⟨s0, ops, hinit, hrun⟩ := hr
  rw [← hrun]
  apply run_invariant cfg hs ops s0
  refine ⟨hinit.2.2, ?_⟩
  intro n hn
  have := (is_name_range _ _ _ hn).2.2
  rw [hinit.1 n] at this
  exact absurd this (by decide)

theorem start_is_initial : start.is_initial :=
  ⟨fun _ => rfl, fun _ => rfl, rfl⟩

theorem reachable_run_start (cfg : Config) (ops : List Op) : Reachable cfg (run cfg start ops) :=
  ⟨start, ops, start_is_initial, rfl⟩

/-- C8: the validity check. In every reachable state (reached from program start
through glFenceSync, glDeleteSync, rsxgl_sync_object_allocate,
rsxgl_sync_object_free and the other steps), glIsSync(h) returns GL_TRUE if and
only if h is non-null and the name computed from its index is both reserved
(is_name) and constructed (is_object); otherwise it returns GL_FALSE. The test
of is_name alone never accepts a name that is reserved but not constructed:
every reserved name is constructed. -/
theorem glIsSync_iff_reserved_and_constructed (cfg : Config)
    (hs : cfg.create_name_sentinel = 0 ∨ cfg.RSXGL_MAX_SYNC_OBJECTS < cfg.create_name_sentinel)
    (s : State) (hr : Reachable cfg s) (h : GLsync) :
    ((glIsSync cfg s h).ret = GL_TRUE ↔
      ∃ p, h = some p ∧
        s.storage.is_name cfg.RSXGL_MAX_SYNC_OBJECTS
          (rsxgl_rsx_index_to_sync_name cfg (s.storage.contents p).index).1 = true ∧
        s.storage.is_object cfg.RSXGL_MAX_SYNC_OBJECTS
          (rsxgl_rsx_index_to_sync_name cfg (s.storage.contents p).index).1 = true) ∧
    ((glIsSync cfg s h).ret = GL_TRUE ∨ (glIsSync cfg s h).ret = GL_FALSE) ∧
    (∀ n, s.storage.is_name cfg.RSXGL_MAX_SYNC_OBJECTS n = true →
      s.storage.is_object cfg.RSXGL_MAX_SYNC_OBJECTS n = true) := by
  have hinv := (reachable_invariant cfg hs s hr).2
  refine ⟨?_, ?_, hinv⟩
  · cases h with
    | none =>
      rw [glIsSync_null]
      constructor
      · intro h
        exact absurd h (by decide)
      · rintro ⟨p, hp, _⟩
        exact absurd hp (by simp)
    | some p =>
      rw [glIsSync_true_iff]
      unfold name_of
      constructor
      · intro hn
        exact ⟨p, rfl, hn, hinv _ hn⟩
      · rintro ⟨q, hq, hn, _⟩
        simp only [Option.some.injEq] at hq
        subst hq
        exact hn
  · cases h with
    | none => exact Or.inr rfl
    | some p =>
      rw [glIsSync_ret]
      split
      · exact Or.inl rfl
      · exact Or.inr rfl

theorem glIsSync_iff_reserved_and_constructed_witness :
    (config64.create_name_sentinel = 0 ∨
      config64.RSXGL_MAX_SYNC_OBJECTS < config64.create_name_sentinel) ∧
    Reachable config64 fenced ∧
    ((glIsSync config64 fenced (some 1)).ret = GL_TRUE ↔
      ∃ p, some 1 = some p ∧
        fenced.storage.is_name config64.RSXGL_MAX_SYNC_OBJECTS
          (rsxgl_rsx_index_to_sync_name config64 (fenced.storage.contents p).index).1 = true ∧
        fenced.storage.is_object config64.RSXGL_MAX_SYNC_OBJECTS
          (rsxgl_rsx_index_to_sync_name config64 (fenced.storage.contents p).index).1 = true) :=
  ⟨by decide, reachable_run_start config64 [Op.fenceSync GL_SYNC_GPU_COMMANDS_COMPLETE 0],
    (glIsSync_iff_reserved_and_constructed config64 (by decide) fenced
      (reachable_run_start config64 [Op.fenceSync GL_SYNC_GPU_COMMANDS_COMPLETE 0])
      (some 1)).1⟩

/-- C10: the code at the initial counter. For every state whose counter
_rsxgl_sync_token is 0, rsxgl_sync_token returns 0, not 1, and stores 0 as the
new counter, so the next call returns 0 again: two consecutively created fences
are given the same token. -/
theorem rsxgl_sync_token_stuck_at_zero (s : State) :
    (rsxgl_sync_token { s with _rsxgl_sync_token := 0 }).1 = 0 ∧
    (rsxgl_sync_token { s with _rsxgl_sync_token := 0 }).2._rsxgl_sync_token = 0 ∧
    (rsxgl_sync_token (rsxgl_sync_token { s with _rsxgl_sync_token := 0 }).2).1 =
      (rsxgl_sync_token { s with _rsxgl_sync_token := 0 }).1 := by
  have h0 : ((0 + 1) % 2 ^ 32) &&& rsxgl_sync_token_max = 0 := by decide
  simp only [rsxgl_sync_token, h0, and_self]


/-! ## Waiting on a valid handle -/

/-- On a valid handle with accepted flags whose object is already signaled,
glClientWaitSync returns GL_ALREADY_SIGNALED after the optional flush, whatever
the timeout, the GPU and the bound on reads. -/
theorem glClientWaitSync_already (cfg : Config) (gpu : Gpu) (fuel : Nat) (s : State)
    (p flags timeout : Nat)
    (hname : s.storage.is_name cfg.RSXGL_MAX_SYNC_OBJECTS (name_of cfg s p) = true)
    (hflags : flags &&& not_valid_flags = 0)
    (hst : (s.storage.contents p).status ≠ 0) :
    glClientWaitSync cfg gpu fuel s (some p) flags timeout =
      some { ret := GL_ALREADY_SIGNALED, error := some GL_NO_ERROR,
             asserts := (rsxgl_rsx_index_to_sync_name cfg (s.storage.contents p).index).2 &&
               s.storage.is_object cfg.RSXGL_MAX_SYNC_OBJECTS (name_of cfg s p),
             state := if flags &&& GL_SYNC_FLUSH_COMMANDS_BIT ≠ 0 then rsxgl_flush s else s } := by
  unfold name_of at hname ⊢
  have hfl := (flush_if_frame (flags &&& GL_SYNC_FLUSH_COMMANDS_BIT ≠ 0) s).1
  simp only [glClientWaitSync, hname, hflags, hfl, hst, RSXGL_NOERROR, Bool.not_true,
    Bool.false_eq_true, if_false, ne_eq, not_true_eq_false, not_false_eq_true, if_true]

/-- On a valid handle with accepted flags whose object is unsignaled,
glClientWaitSync returns GL_CONDITION_SATISFIED at the first read when the
semaphore at the index of the object holds the value of the object, and sets
the status bit. -/
theorem glClientWaitSync_satisfied (cfg : Config) (gpu : Gpu) (fuel : Nat) (s : State)
    (p flags timeout : Nat)
    (hname : s.storage.is_name cfg.RSXGL_MAX_SYNC_OBJECTS (name_of cfg s p) = true)
    (hflags : flags &&& not_valid_flags = 0)
    (hst : (s.storage.contents p).status = 0)
    (hsem : s.hw.sem (s.storage.contents p).index = (s.storage.contents p).value) :
    ∃ s3, glClientWaitSync cfg gpu (fuel + 1) s (some p) flags timeout =
      some { ret := GL_CONDITION_SATISFIED, error := some GL_NO_ERROR,
             asserts := (rsxgl_rsx_index_to_sync_name cfg (s.storage.contents p).index).2 &&
               s.storage.is_object cfg.RSXGL_MAX_SYNC_OBJECTS (name_of cfg s p),
             state := s3 } ∧
      s3.storage.names = s.storage.names ∧ s3.storage.objects = s.storage.objects ∧
      s3.storage.contents = assign s.storage.contents p
        (rsxgl_sync_object_t.mk 1 (s.storage.contents p).index (s.storage.contents p).value) ∧
      s3._rsxgl_sync_token = s._rsxgl_sync_token ∧ s3.hw = s.hw ∧ s3.fifo = s.fifo ∧
      s3.polls = s.polls + 1 ∧ s3.sleeps = s.sleeps ∧
      s3.flushes = if flags &&& GL_SYNC_FLUSH_COMMANDS_BIT ≠ 0 then s.flushes + 1
        else s.flushes := by
  unfold name_of at hname ⊢
  have hfl := flush_if_frame (flags &&& GL_SYNC_FLUSH_COMMANDS_BIT ≠ 0) s
  have hflush : (if flags &&& GL_SYNC_FLUSH_COMMANDS_BIT ≠ 0 then rsxgl_flush s else s).flushes =
      if flags &&& GL_SYNC_FLUSH_COMMANDS_BIT ≠ 0 then s.flushes + 1 else s.flushes := by
    split <;> rfl
  generalize hs1 : (if flags &&& GL_SYNC_FLUSH_COMMANDS_BIT ≠ 0 then rsxgl_flush s else s) = s1
    at hfl hflush
  have hsem1 : s1.hw.sem (s.storage.contents p).index = (s.storage.contents p).value := by
    rw [hfl.2.2.1]
    exact hsem
  have hw := cpu_wait_immediate gpu (s.storage.contents p).index (s.storage.contents p).value
    cfg.RSXGL_SYNC_SLEEP_INTERVAL fuel s1 ((timeout / 1000) % 2 ^ cfg.useconds_t_bits) hsem1
  refine ⟨{ storage :=
              { names := s1.storage.names,
                objects := s1.storage.objects,
                contents :=
                  assign s1.storage.contents p
                    (rsxgl_sync_object_t.mk (bitfield 1 1) (s1.storage.contents p).index
                      (s1.storage.contents p).value) },
            _rsxgl_sync_token := s1._rsxgl_sync_token,
            ref := s1.ref,
            hw := s1.hw,
            fifo := s1.fifo,
            flushes := s1.flushes,
            polls := s1.polls + 1,
            sleeps := s1.sleeps }, ?_, ?_⟩
  · simp only [glClientWaitSync, hname, hflags, hs1, hfl.1, hst, hw, RSXGL_NOERROR,
      Bool.not_true, Bool.false_eq_true, if_false, ne_eq, not_true_eq_false]
  · simp only [hfl.1, hfl.2.1, hfl.2.2.1, hfl.2.2.2.1, hfl.2.2.2.2.1, hfl.2.2.2.2.2.1, hflush,
      bitfield]
    simp

/-- A status query on a valid handle. -/
theorem glGetSynciv_status (cfg : Config) (s : State) (p : Nat) (bufSize : Int)
    (has_length : Bool)
    (hname : s.storage.is_name cfg.RSXGL_MAX_SYNC_OBJECTS (name_of cfg s p) = true)
    (hbuf : 1 ≤ bufSize) :
    glGetSynciv cfg s (some p) GL_SYNC_STATUS bufSize has_length =
      { ret := { length := if has_length then some 1 else none,
                 values := some (if (s.storage.contents p).status ≠ 0 then GL_SIGNALED
                                 else GL_UNSIGNALED) },
        error := some GL_NO_ERROR,
        asserts := (rsxgl_rsx_index_to_sync_name cfg (s.storage.contents p).index).2 &&
          s.storage.is_object cfg.RSXGL_MAX_SYNC_OBJECTS (name_of cfg s p),
        state := s } := by
  unfold name_of at hname ⊢
  have hb : ¬ bufSize < 1 := by omega
  have h1 : ¬ GL_SYNC_STATUS = GL_OBJECT_TYPE := by decide
  simp only [glGetSynciv, hname, hb, h1, RSXGL_NOERROR, Bool.not_true, Bool.false_eq_true,
    if_false, if_true]


/-- The facts about a successful glFenceSync in a state whose token counter is
0: it returns the pointer to the slot of the new name m, all assertions hold,
the object is unsignaled with index m + 63 and value 0, the name is reserved and
constructed, and the command emitted carries that index and the token 0. -/
theorem glFenceSync_fresh (cfg : Config) (hcfg : cfg.wf) (s : State)
    (htok : s._rsxgl_sync_token = 0) (m : Nat) (hm1 : 1 ≤ m)
    (hm2 : m ≤ cfg.RSXGL_MAX_SYNC_OBJECTS)
    (hra : rsxgl_sync_object_really_allocate cfg s.storage =
          (m, true, { names := assign s.storage.names m true,
                      objects := assign s.storage.objects m true,
                      contents := assign s.storage.contents m rsxgl_sync_object_t.ctor })) :
    (glFenceSync cfg s GL_SYNC_GPU_COMMANDS_COMPLETE 0).ret = some m ∧
    (glFenceSync cfg s GL_SYNC_GPU_COMMANDS_COMPLETE 0).error = some GL_NO_ERROR ∧
    (glFenceSync cfg s GL_SYNC_GPU_COMMANDS_COMPLETE 0).asserts = true ∧
    (glFenceSync cfg s GL_SYNC_GPU_COMMANDS_COMPLETE 0).state.storage.contents m =
      rsxgl_sync_object_t.mk 0 (m + 63) 0 ∧
    (glFenceSync cfg s GL_SYNC_GPU_COMMANDS_COMPLETE 0).state.storage.is_name
      cfg.RSXGL_MAX_SYNC_OBJECTS m = true ∧
    (glFenceSync cfg s GL_SYNC_GPU_COMMANDS_COMPLETE 0).state.storage.is_object
      cfg.RSXGL_MAX_SYNC_OBJECTS m = true ∧
    (glFenceSync cfg s GL_SYNC_GPU_COMMANDS_COMPLETE 0).state.fifo =
      s.fifo ++ [Command.sync_gpu_signal_read (m + 63) 0] ∧
    (glFenceSync cfg s GL_SYNC_GPU_COMMANDS_COMPLETE 0).state.hw.sem (m + 63) =
      RSXGL_SYNC_UNSIGNALED_TOKEN := by
  obtain ⟨hN, hbits, hs⟩ := hcfg
  have hF := glFenceSync_of_allocate cfg s m true _ (by omega) hra
  have htok0 := rsxgl_sync_token_of_zero s htok
  have hidx := name_to_index_in_range cfg m hm1 (by omega)
  have hb8 : (m + 63) % 2 ^ 8 = m + 63 := by
    apply Nat.mod_eq_of_lt
    omega
  have hslot : has_slot cfg.RSXGL_MAX_SYNC_OBJECTS m = true := by
    simp [has_slot]
    omega
  have hassert : (rsxgl_sync_name_to_rsx_index cfg m).2 = true := by
    simp [rsxgl_sync_name_to_rsx_index]
    omega
  rw [hF]
  simp only [htok0, hidx, hb8, hassert, storage_type.is_name, storage_type.is_object, hslot,
    assign_same, bitfield, Bool.and_self, Nat.zero_mod, and_self]

/-- The handle a successful glFenceSync returns is the address of the slot of the
new name, the object stored there carries the index of that name, and the name
is reserved: the handle refers to its own name. -/
theorem glFenceSync_handle_names_itself (cfg : Config) (hcfg : cfg.wf) (s : State)
    (condition flags p : Nat)
    (hret : (glFenceSync cfg s condition flags).ret = some p) :
    name_of cfg (glFenceSync cfg s condition flags).state p = p ∧
    (glFenceSync cfg s condition flags).state.storage.is_name cfg.RSXGL_MAX_SYNC_OBJECTS p
      = true := by
  obtain ⟨hN, hbits, hs⟩ := hcfg
  by_cases hv : condition ≠ GL_SYNC_GPU_COMMANDS_COMPLETE ∨ flags ≠ 0
  · exfalso
    unfold glFenceSync at hret
    by_cases hc : condition ≠ GL_SYNC_GPU_COMMANDS_COMPLETE
    · simp [hc, RSXGL_ERROR] at hret
    · have hf : flags ≠ 0 := by
        rcases hv with h | h
        · exact absurd h hc
        · exact h
      simp [hc, hf, RSXGL_ERROR] at hret
  · have hc : condition = GL_SYNC_GPU_COMMANDS_COMPLETE := by
      by_contra h
      exact hv (Or.inl h)
    have hf : flags = 0 := by
      by_contra h
      exact hv (Or.inr h)
    subst hc
    subst hf
    rcases really_allocate_cases cfg hs s.storage with hfull | ⟨m, h1, h2, hfree, _, hra⟩
    · have := (glFenceSync_of_no_name cfg s hfull.2.1 hfull.2.2).1
      rw [this] at hret
      exact absurd hret (by simp)
    · have hF := glFenceSync_of_allocate cfg s m true _ (by omega) hra
      rw [hF] at hret ⊢
      simp only [Option.some.injEq] at hret
      subst hret
      have hidx := name_to_index_in_range cfg m h1 (by omega)
      have hb8 : (m + 63) % 2 ^ 8 = m + 63 := by
        apply Nat.mod_eq_of_lt
        omega
      have hname_idx : (rsxgl_rsx_index_to_sync_name cfg (m + 63)).1 = m := by
        rw [index_to_name_in_range cfg hbits (m + 63) (by omega) (by omega)]
        omega
      have hslot : has_slot cfg.RSXGL_MAX_SYNC_OBJECTS m = true := by
        simp [has_slot]
        omega
      simp only [name_of, assign_same, hidx, bitfield, hb8, hname_idx, storage_type.is_name,
        hslot, Bool.and_self, and_self]

/-- C1: end-to-end wait. For every reachable state with a free registry slot
(and constants meeting Config.wf), F = glFenceSync(GL_SYNC_GPU_COMMANDS_COMPLETE,
0) succeeds and emits a write-back command carrying the index of F and a token;
a GL_SYNC_STATUS query on F then gives GL_UNSIGNALED. In every later state with
the same registry in which the hardware semaphore at the index of F holds that
token, glClientWaitSync(F, GL_SYNC_FLUSH_COMMANDS_BIT, 1e9) returns
GL_CONDITION_SATISFIED (for every GPU behaviour, at the first read) and sets the
status of F to signaled, which a status query reports as GL_SIGNALED; and a
second identical call returns GL_ALREADY_SIGNALED. No assertion is violated. -/
theorem fence_then_client_wait (cfg : Config) (hcfg : cfg.wf) (s : State)
    (hr : Reachable cfg s) (n : Nat) (hn1 : 1 ≤ n) (hn2 : n ≤ cfg.RSXGL_MAX_SYNC_OBJECTS)
    (hfree : s.storage.is_name cfg.RSXGL_MAX_SYNC_OBJECTS n = false) :
    ∃ p token s1,
      glFenceSync cfg s GL_SYNC_GPU_COMMANDS_COMPLETE 0 =
        { ret := some p, error := some GL_NO_ERROR, asserts := true, state := s1 } ∧
      s1.fifo = s.fifo ++ [Command.sync_gpu_signal_read (s1.storage.contents p).index token] ∧
      (∀ has_length, glGetSynciv cfg s1 (some p) GL_SYNC_STATUS 1 has_length =
        { ret := { length := if has_length then some 1 else none,
                   values := some GL_UNSIGNALED },
          error := some GL_NO_ERROR, asserts := true, state := s1 }) ∧
      ∀ (s2 : State) (gpu : Gpu) (fuel : Nat),
        s2.storage = s1.storage →
        s2.hw.sem (s1.storage.contents p).index = token →
        ∃ s3,
          glClientWaitSync cfg gpu (fuel + 1) s2 (some p) GL_SYNC_FLUSH_COMMANDS_BIT 1000000000 =
            some { ret := GL_CONDITION_SATISFIED, error := some GL_NO_ERROR, asserts := true,
                   state := s3 } ∧
          (s3.storage.contents p).status = 1 ∧
          (glGetSynciv cfg s3 (some p) GL_SYNC_STATUS 1 true).ret.values = some GL_SIGNALED ∧
          ∀ (gpu2 : Gpu) (fuel2 : Nat), ∃ s4,
            glClientWaitSync cfg gpu2 fuel2 s3 (some p) GL_SYNC_FLUSH_COMMANDS_BIT 1000000000 =
              some { ret := GL_ALREADY_SIGNALED, error := some GL_NO_ERROR, asserts := true,
                     state := s4 } := by
  have hcfg0 := hcfg
  obtain ⟨hN, hbits, hs⟩ := hcfg
  have htok := (reachable_invariant cfg hs s hr).1
  have hfree1 : s.storage.names n = false := by
    have hslot : has_slot cfg.RSXGL_MAX_SYNC_OBJECTS n = true := by
      simp [has_slot]
      omega
    simpa [storage_type.is_name, hslot] using hfree
  obtain ⟨m, hm1, hmn, _, hra, _, _⟩ := glFenceSync_succeeds cfg hs s n hn1 hn2 hfree1
  obtain ⟨hret, herr, hass, hc, hnm, hob, hfifo, _⟩ :=
    glFenceSync_fresh cfg hcfg0 s htok m hm1 (by omega) hra
  generalize hs1 : (glFenceSync cfg s GL_SYNC_GPU_COMMANDS_COMPLETE 0).state = s1
    at hc hnm hob hfifo
  have hname_idx : (rsxgl_rsx_index_to_sync_name cfg (m + 63)).1 = m := by
    rw [index_to_name_in_range cfg hbits (m + 63) (by omega) (by omega)]
    omega
  have hrange : (rsxgl_rsx_index_to_sync_name cfg (m + 63)).2 = true := by
    simp [rsxgl_rsx_index_to_sync_name]
    omega
  have hflags : GL_SYNC_FLUSH_COMMANDS_BIT &&& not_valid_flags = 0 := by decide
  have hflush : GL_SYNC_FLUSH_COMMANDS_BIT &&& GL_SYNC_FLUSH_COMMANDS_BIT ≠ 0 := by decide
  refine ⟨m, 0, s1, ?_, ?_, ?_, ?_⟩
  · rw [← hs1, ← hret, ← herr, ← hass]
  · rw [hfifo, hc]
  · intro has_length
    have hname1 : s1.storage.is_name cfg.RSXGL_MAX_SYNC_OBJECTS (name_of cfg s1 m) = true := by
      simp only [name_of, hc, hname_idx, hnm]
    rw [glGetSynciv_status cfg s1 m 1 has_length hname1 (by omega)]
    simp only [name_of, hc, hname_idx, hrange, hob, Bool.and_self, ne_eq, not_true_eq_false,
      if_false]
  · intro s2 gpu fuel hst2 hsem
    have hc2 : s2.storage.contents m = rsxgl_sync_object_t.mk 0 (m + 63) 0 := by
      rw [hst2, hc]
    have hname2 : s2.storage.is_name cfg.RSXGL_MAX_SYNC_OBJECTS (name_of cfg s2 m) = true := by
      simp only [name_of, hst2, hc, hname_idx, hnm]
    have hsem2 : s2.hw.sem (s2.storage.contents m).index = (s2.storage.contents m).value := by
      rw [hc2]
      rw [hc] at hsem
      exact hsem
    obtain ⟨s3, hw3, hn3, ho3, hc3, _⟩ :=
      glClientWaitSync_satisfied cfg gpu fuel s2 m GL_SYNC_FLUSH_COMMANDS_BIT 1000000000
        hname2 hflags (by rw [hc2]) hsem2
    have hc3m : s3.storage.contents m = rsxgl_sync_object_t.mk 1 (m + 63) 0 := by
      rw [hc3, assign_same, hc2]
    have hname3 : s3.storage.is_name cfg.RSXGL_MAX_SYNC_OBJECTS (name_of cfg s3 m) = true := by
      simp only [name_of, hc3m, hname_idx, storage_type.is_name, hn3]
      rw [hst2]
      exact hnm
    have hob3 : s3.storage.is_object cfg.RSXGL_MAX_SYNC_OBJECTS m = true := by
      simp only [storage_type.is_object, ho3]
      rw [hst2]
      exact hob
    refine ⟨s3, ?_, ?_, ?_, ?_⟩
    · rw [hw3]
      simp only [name_of, hst2, hc, hname_idx, hrange, hob, Bool.and_self]
    · rw [hc3m]
    · rw [glGetSynciv_status cfg s3 m 1 true hname3 (by omega)]
      simp [hc3m]
    · intro gpu2 fuel2
      refine ⟨if GL_SYNC_FLUSH_COMMANDS_BIT &&& GL_SYNC_FLUSH_COMMANDS_BIT ≠ 0
        then rsxgl_flush s3 else s3, ?_⟩
      rw [glClientWaitSync_already cfg gpu2 fuel2 s3 m GL_SYNC_FLUSH_COMMANDS_BIT 1000000000
        hname3 hflags (by rw [hc3m]; exact Nat.one_ne_zero)]
      simp only [name_of, hc3m, hname_idx, hrange, hob3, Bool.and_self]


theorem fence_then_client_wait_witness :
    config64.wf ∧ Reachable config64 start ∧ 1 ≤ 1 ∧ 1 ≤ config64.RSXGL_MAX_SYNC_OBJECTS ∧
    start.storage.is_name config64.RSXGL_MAX_SYNC_OBJECTS 1 = false ∧
    ∃ p token s1,
      glFenceSync config64 start GL_SYNC_GPU_COMMANDS_COMPLETE 0 =
        { ret := some p, error := some GL_NO_ERROR, asserts := true, state := s1 } ∧
      s1.fifo =
        start.fifo ++ [Command.sync_gpu_signal_read (s1.storage.contents p).index token] ∧
      (∀ has_length, glGetSynciv config64 s1 (some p) GL_SYNC_STATUS 1 has_length =
        { ret := { length := if has_length then some 1 else none,
                   values := some GL_UNSIGNALED },
          error := some GL_NO_ERROR, asserts := true, state := s1 }) ∧
      ∀ (s2 : State) (gpu : Gpu) (fuel : Nat),
        s2.storage = s1.storage →
        s2.hw.sem (s1.storage.contents p).index = token →
        ∃ s3,
          glClientWaitSync config64 gpu (fuel + 1) s2 (some p) GL_SYNC_FLUSH_COMMANDS_BIT
              1000000000 =
            some { ret := GL_CONDITION_SATISFIED, error := some GL_NO_ERROR, asserts := true,
                   state := s3 } ∧
          (s3.storage.contents p).status = 1 ∧
          (glGetSynciv config64 s3 (some p) GL_SYNC_STATUS 1 true).ret.values =
            some GL_SIGNALED ∧
          ∀ (gpu2 : Gpu) (fuel2 : Nat), ∃ s4,
            glClientWaitSync config64 gpu2 fuel2 s3 (some p) GL_SYNC_FLUSH_COMMANDS_BIT
                1000000000 =
              some { ret := GL_ALREADY_SIGNALED, error := some GL_NO_ERROR, asserts := true,
                     state := s4 } :=
  ⟨by decide, reachable_run_start config64 [], by decide, by decide, by decide,
    fence_then_client_wait config64 (by decide) start (reachable_run_start config64 []) 1
      (by decide) (by decide) (by decide)⟩

/-! ## Handles across later steps -/

/-- While the name p is reserved, no effect changes the index or the value of
the object at address p, and none clears its status bit. -/
theorem effect_keeps_object (cfg : Config) (st st1 : storage_type) (p : Nat)
    (he : Effect cfg st st1)
    (hlive : st.is_name cfg.RSXGL_MAX_SYNC_OBJECTS p = true) :
    (st1.contents p).index = (st.contents p).index ∧
    (st1.contents p).value = (st.contents p).value ∧
    ((st.contents p).status ≠ 0 → (st1.contents p).status ≠ 0) := by
  cases he with
  | same h =>
    rw [h]
    exact ⟨rfl, rfl, fun h => h⟩
  | create m obj h1 h2 hfree h =>
    have hpm : p ≠ m := by
      intro hpm
      subst hpm
      have := (is_name_range _ _ _ hlive).2.2
      rw [hfree] at this
      exact absurd this (by decide)
    rw [h]
    simp only [assign, hpm, if_false]
    exact ⟨trivial, trivial, fun h => h⟩
  | destroy k hk h =>
    rw [h, contents_destroy]
    exact ⟨rfl, rfl, fun h => h⟩
  | signal q hq h =>
    rw [h]
    by_cases hpq : p = q
    · subst hpq
      simp only [assign, if_true, bitfield]
      exact ⟨trivial, trivial, fun _ => by decide⟩
    · simp only [assign, hpq, if_false]
      exact ⟨trivial, trivial, fun h => h⟩

/-- While the name p stays unreserved and the object at address p refers to the
name p, no effect changes the index of that object. -/
theorem effect_keeps_stale (cfg : Config) (st st1 : storage_type) (p : Nat)
    (he : Effect cfg st st1)
    (hgen : (rsxgl_rsx_index_to_sync_name cfg (st.contents p).index).1 = p)
    (hfree : st.is_name cfg.RSXGL_MAX_SYNC_OBJECTS p = false)
    (hfree1 : st1.is_name cfg.RSXGL_MAX_SYNC_OBJECTS p = false) :
    (st1.contents p).index = (st.contents p).index := by
  cases he with
  | same h => rw [h]
  | create m obj h1 h2 hm h =>
    have hpm : p ≠ m := by
      intro hpm
      subst hpm
      rw [h] at hfree1
      have hslot : has_slot cfg.RSXGL_MAX_SYNC_OBJECTS p = true := by
        simp [has_slot]
        omega
      simp [storage_type.is_name, hslot, assign] at hfree1
    rw [h]
    simp only [assign, hpm, if_false]
  | destroy k hk h => rw [h, contents_destroy]
  | signal q hq h =>
    have hpq : p ≠ q := by
      intro hpq
      subst hpq
      rw [hgen, hfree] at hq
      exact absurd hq (by decide)
    rw [h]
    simp only [assign, hpq, if_false]

/-- A signaled object whose name stays reserved is still signaled, with the same
index, after any sequence of steps. -/
theorem run_keeps_signaled (cfg : Config)
    (hs : cfg.create_name_sentinel = 0 ∨ cfg.RSXGL_MAX_SYNC_OBJECTS < cfg.create_name_sentinel)
    (p : Nat) (ops : List Op) :
    ∀ s : State,
      always (fun t => t.storage.is_name cfg.RSXGL_MAX_SYNC_OBJECTS p = true) cfg s ops →
      (s.storage.contents p).status ≠ 0 →
      ((run cfg s ops).storage.contents p).index = (s.storage.contents p).index ∧
      ((run cfg s ops).storage.contents p).status ≠ 0 ∧
      (run cfg s ops).storage.is_name cfg.RSXGL_MAX_SYNC_OBJECTS p = true := by
  induction ops with
  | nil =>
    intro s hal hst
    exact ⟨rfl, hst, hal⟩
  | cons op ops ih =>
    intro s hal hst
    simp only [always] at hal
    simp only [run]
    have hk := effect_keeps_object cfg _ _ p (step_effect cfg hs s op).1 hal.1
    obtain ⟨h1, h2, h3⟩ := ih (step cfg s op) hal.2 (hk.2.2 hst)
    exact ⟨by rw [h1, hk.1], h2, h3⟩

/-- A destroyed handle whose name stays unreserved keeps its index field through
any sequence of steps. -/
theorem run_keeps_stale (cfg : Config)
    (hs : cfg.create_name_sentinel = 0 ∨ cfg.RSXGL_MAX_SYNC_OBJECTS < cfg.create_name_sentinel)
    (p : Nat) (ops : List Op) :
    ∀ s : State,
      always (fun t => t.storage.is_name cfg.RSXGL_MAX_SYNC_OBJECTS p = false) cfg s ops →
      name_of cfg s p = p →
      name_of cfg (run cfg s ops) p = p ∧
      (run cfg s ops).storage.is_name cfg.RSXGL_MAX_SYNC_OBJECTS p = false := by
  induction ops with
  | nil =>
    intro s hal hgen
    exact ⟨hgen, hal⟩
  | cons op ops ih =>
    intro s hal hgen
    simp only [always] at hal
    simp only [run]
    have hnext : (step cfg s op).storage.is_name cfg.RSXGL_MAX_SYNC_OBJECTS p = false := by
      cases ops with
      | nil => exact hal.2
      | cons op2 ops2 => exact hal.2.1
    have hk := effect_keeps_stale cfg _ _ p (step_effect cfg hs s op).1 hgen hal.1 hnext
    apply ih (step cfg s op) hal.2
    unfold name_of at hgen ⊢
    rw [hk]
    exact hgen


/-- On a handle glIsSync rejects, the four other entry points fail with
GL_INVALID_VALUE and leave the state as it was. -/
theorem invalid_handle_rejected (cfg : Config) (s : State) (p : Nat)
    (hname : s.storage.is_name cfg.RSXGL_MAX_SYNC_OBJECTS (name_of cfg s p) = false) :
    (glIsSync cfg s (some p)).ret = GL_FALSE ∧
    glDeleteSync cfg s (some p) =
      { ret := (), error := some GL_INVALID_VALUE,
        asserts := (rsxgl_rsx_index_to_sync_name cfg (s.storage.contents p).index).2,
        state := s } ∧
    (∀ (gpu : Gpu) (fuel flags timeout : Nat),
      glClientWaitSync cfg gpu fuel s (some p) flags timeout =
        some { ret := GL_WAIT_FAILED, error := some GL_INVALID_VALUE,
               asserts := (rsxgl_rsx_index_to_sync_name cfg (s.storage.contents p).index).2,
               state := s }) ∧
    (∀ flags timeout : Nat,
      glWaitSync cfg s (some p) flags timeout =
        { ret := (), error := some GL_INVALID_VALUE,
          asserts := (rsxgl_rsx_index_to_sync_name cfg (s.storage.contents p).index).2,
          state := s }) ∧
    (∀ (pname : Nat) (bufSize : Int) (has_length : Bool),
      glGetSynciv cfg s (some p) pname bufSize has_length =
        { ret := { length := none, values := none }, error := some GL_INVALID_VALUE,
          asserts := (rsxgl_rsx_index_to_sync_name cfg (s.storage.contents p).index).2,
          state := s }) := by
  refine ⟨(glIsSync_false_iff cfg s p).2 hname, ?_, ?_, ?_, ?_⟩
  · unfold name_of at hname
    simp only [glDeleteSync, hname, Bool.not_false, if_true, RSXGL_ERROR]
  · intro gpu fuel flags timeout
    unfold name_of at hname
    simp only [glClientWaitSync, hname, Bool.not_false, if_true, RSXGL_ERROR]
  · intro flags timeout
    unfold name_of at hname
    simp only [glWaitSync, hname, Bool.not_false, if_true, RSXGL_ERROR]
  · intro pname bufSize has_length
    unfold name_of at hname
    simp only [glGetSynciv, hname, Bool.not_false, if_true, RSXGL_ERROR]

/-- On a valid handle, glClientWaitSync rejects flags with a bit other than
GL_SYNC_FLUSH_COMMANDS_BIT before anything else is done. -/
theorem glClientWaitSync_bad_flags (cfg : Config) (gpu : Gpu) (fuel : Nat) (s : State)
    (p flags timeout : Nat)
    (hname : s.storage.is_name cfg.RSXGL_MAX_SYNC_OBJECTS (name_of cfg s p) = true)
    (hflags : flags &&& not_valid_flags ≠ 0) :
    glClientWaitSync cfg gpu fuel s (some p) flags timeout =
      some { ret := GL_WAIT_FAILED, error := some GL_INVALID_VALUE,
             asserts := (rsxgl_rsx_index_to_sync_name cfg (s.storage.contents p).index).2,
             state := s } := by
  unfold name_of at hname
  simp only [glClientWaitSync, hname, hflags, Bool.not_true, Bool.false_eq_true, if_false,
    ne_eq, not_false_eq_true, if_true, RSXGL_ERROR]

/-- C2 (as stated, refuted): in the state signaled, whose fence has been waited
on with result GL_CONDITION_SATISFIED and not destroyed, a further
glClientWaitSync with the flush bit returns GL_ALREADY_SIGNALED but calls
rsxgl_gcm_flush once more (the count of flushes goes from 1 to 2), and one with
flags = 2 returns GL_WAIT_FAILED with GL_INVALID_VALUE, not
GL_ALREADY_SIGNALED. -/
theorem signaled_wait_flushes_or_fails :
    (glClientWaitSync config64 idle 1 written (some 1) GL_SYNC_FLUSH_COMMANDS_BIT
      1000000000).map (fun o => o.ret) = some GL_CONDITION_SATISFIED ∧
    signaled.flushes = 1 ∧
    (glClientWaitSync config64 idle 1 signaled (some 1) GL_SYNC_FLUSH_COMMANDS_BIT 0).map
      (fun o => (o.ret, o.state.flushes)) = some (GL_ALREADY_SIGNALED, 2) ∧
    (glClientWaitSync config64 idle 1 signaled (some 1) 2 0).map
      (fun o => (o.ret, o.error)) = some (GL_WAIT_FAILED, some GL_INVALID_VALUE) := by
  decide

/-- C2 (amended): idempotence of waiting. Let h be a fence handle, that is, the
pointer glFenceSync returned for its name (the object at address p carries the
index of name p, see glFenceSync_handle_names_itself), and let some
glClientWaitSync on h have returned GL_CONDITION_SATISFIED. After any
sequence of steps during which the name stays reserved (the fence is not
destroyed), every glClientWaitSync on h whose flags have no bit other than
GL_SYNC_FLUSH_COMMANDS_BIT returns GL_ALREADY_SIGNALED with no error, for every
timeout, GPU and bound on reads; it does not poll and changes nothing except
that it calls rsxgl_gcm_flush (once) exactly when the flush bit is set. A call
whose flags have another bit set fails with GL_WAIT_FAILED and
GL_INVALID_VALUE and changes nothing. -/
theorem signaled_wait_is_idempotent (cfg : Config)
    (hs : cfg.create_name_sentinel = 0 ∨ cfg.RSXGL_MAX_SYNC_OBJECTS < cfg.create_name_sentinel)
    (s : State) (p : Nat) (gpu : Gpu) (fuel flags timeout : Nat) (o : Outcome Nat)
    (hgen : name_of cfg s p = p)
    (hsat : glClientWaitSync cfg gpu fuel s (some p) flags timeout = some o)
    (hret : o.ret = GL_CONDITION_SATISFIED)
    (ops : List Op)
    (hlive : always (fun t => t.storage.is_name cfg.RSXGL_MAX_SYNC_OBJECTS p = true) cfg
      o.state ops)
    (gpu2 : Gpu) (fuel2 flags2 timeout2 : Nat) :
    (flags2 &&& not_valid_flags = 0 →
      ∃ a, glClientWaitSync cfg gpu2 fuel2 (run cfg o.state ops) (some p) flags2 timeout2 =
        some { ret := GL_ALREADY_SIGNALED, error := some GL_NO_ERROR, asserts := a,
               state := if flags2 &&& GL_SYNC_FLUSH_COMMANDS_BIT ≠ 0
                 then rsxgl_flush (run cfg o.state ops) else run cfg o.state ops }) ∧
    (flags2 &&& not_valid_flags ≠ 0 →
      ∃ a, glClientWaitSync cfg gpu2 fuel2 (run cfg o.state ops) (some p) flags2 timeout2 =
        some { ret := GL_WAIT_FAILED, error := some GL_INVALID_VALUE, asserts := a,
               state := run cfg o.state ops }) := by
  have hfl := flush_if_frame (flags &&& GL_SYNC_FLUSH_COMMANDS_BIT ≠ 0) s
  have hobj : (o.state.storage.contents p).index = (s.storage.contents p).index ∧
      (o.state.storage.contents p).status ≠ 0 := by
    rcases glClientWaitSync_cases cfg gpu fuel s p flags timeout o hsat with
      ⟨_, hr, _⟩ | ⟨_, _, _, hr, _⟩ | ⟨_, _, _, _, r, s2, hw, hres⟩
    · rw [hr] at hret
      exact absurd hret (by decide)
    · rw [hr] at hret
      exact absurd hret (by decide)
    · have hfr := cpu_wait_frame _ _ _ _ _ _ _ _ _ hw
      rcases hres with ⟨_, _, hst⟩ | ⟨_, hr, _⟩
      · rw [hst]
        simp only [assign, if_true, bitfield, hfr.1, hfl.1]
        exact ⟨trivial, by decide⟩
      · rw [hr] at hret
        exact absurd hret (by decide)
  obtain ⟨hidx, hstatus, hname⟩ := run_keeps_signaled cfg hs p ops o.state hlive hobj.2
  have hname2 : (run cfg o.state ops).storage.is_name cfg.RSXGL_MAX_SYNC_OBJECTS
      (name_of cfg (run cfg o.state ops) p) = true := by
    have : name_of cfg (run cfg o.state ops) p = p := by
      unfold name_of at hgen ⊢
      rw [hidx, hobj.1]
      exact hgen
    rw [this]
    exact hname
  constructor
  · intro hflags2
    exact ⟨_, glClientWaitSync_already cfg gpu2 fuel2 _ p flags2 timeout2 hname2 hflags2 hstatus⟩
  · intro hflags2
    exact ⟨_, glClientWaitSync_bad_flags cfg gpu2 fuel2 _ p flags2 timeout2 hname2 hflags2⟩

/-- C9 (as stated, refuted): from the start state, glFenceSync returns the
handle 1; after glDeleteSync on it glIsSync rejects it; the next glFenceSync
reuses the freed slot and returns the same handle, and from then on glIsSync
accepts the destroyed handle again, a query on it succeeds and glDeleteSync on
it destroys the new fence. -/
theorem destroyed_handle_accepted_after_reuse :
    (glFenceSync config64 start GL_SYNC_GPU_COMMANDS_COMPLETE 0).ret = some 1 ∧
    (glDeleteSync config64 fenced (some 1)).error = none ∧
    (glIsSync config64 deleted (some 1)).ret = GL_FALSE ∧
    (glFenceSync config64 deleted GL_SYNC_GPU_COMMANDS_COMPLETE 0).ret = some 1 ∧
    (glIsSync config64 refenced (some 1)).ret = GL_TRUE ∧
    (glGetSynciv config64 refenced (some 1) GL_SYNC_STATUS 1 true).error = some GL_NO_ERROR ∧
    (glDeleteSync config64 refenced (some 1)).error = none ∧
    (glIsSync config64 (glDeleteSync config64 refenced (some 1)).state (some 1)).ret
      = GL_FALSE := by
  decide

/-- C9 (amended): stale handles are rejected until the name is reissued. Let h
be a fence handle, that is, the pointer glFenceSync returned for its name (see
glFenceSync_handle_names_itself), valid in a state s. After
glDeleteSync(h), and after any further sequence of steps during which the
registry does not reserve the name of h again (no glFenceSync or
rsxgl_sync_object_allocate reuses the freed slot), glIsSync(h) returns GL_FALSE
and glDeleteSync, glClientWaitSync, glWaitSync and glGetSynciv on h fail with
GL_INVALID_VALUE (glClientWaitSync returning GL_WAIT_FAILED), leaving the state
as it was and writing nothing. -/
theorem destroyed_handle_rejected_until_reissued (cfg : Config)
    (hs : cfg.create_name_sentinel = 0 ∨ cfg.RSXGL_MAX_SYNC_OBJECTS < cfg.create_name_sentinel)
    (s : State) (p : Nat)
    (hvalid : (glIsSync cfg s (some p)).ret = GL_TRUE)
    (hgen : name_of cfg s p = p)
    (ops : List Op)
    (hfree : always (fun t => t.storage.is_name cfg.RSXGL_MAX_SYNC_OBJECTS p = false) cfg
      (glDeleteSync cfg s (some p)).state ops) :
    (glDeleteSync cfg s (some p)).error = none ∧
    (glIsSync cfg (run cfg (glDeleteSync cfg s (some p)).state ops) (some p)).ret = GL_FALSE ∧
    (glDeleteSync cfg (run cfg (glDeleteSync cfg s (some p)).state ops) (some p)).error =
      some GL_INVALID_VALUE ∧
    (∀ (gpu : Gpu) (fuel flags timeout : Nat), ∃ a,
      glClientWaitSync cfg gpu fuel (run cfg (glDeleteSync cfg s (some p)).state ops) (some p)
          flags timeout =
        some { ret := GL_WAIT_FAILED, error := some GL_INVALID_VALUE, asserts := a,
               state := run cfg (glDeleteSync cfg s (some p)).state ops }) ∧
    (∀ flags timeout : Nat,
      (glWaitSync cfg (run cfg (glDeleteSync cfg s (some p)).state ops) (some p)
        flags timeout).error = some GL_INVALID_VALUE) ∧
    (∀ (pname : Nat) (bufSize : Int) (has_length : Bool), ∃ a,
      glGetSynciv cfg (run cfg (glDeleteSync cfg s (some p)).state ops) (some p)
          pname bufSize has_length =
        { ret := { length := none, values := none }, error := some GL_INVALID_VALUE,
          asserts := a, state := run cfg (glDeleteSync cfg s (some p)).state ops }) := by
  rw [glIsSync_true_iff] at hvalid
  obtain ⟨herr, hst⟩ := glDeleteSync_valid cfg s p hvalid
  have hgen1 : name_of cfg (glDeleteSync cfg s (some p)).state p = p := by
    rw [hst]
    simp only [name_of, contents_destroy]
    exact hgen
  obtain ⟨hgen2, hfree2⟩ := run_keeps_stale cfg hs p ops _ hfree hgen1
  have hname : (run cfg (glDeleteSync cfg s (some p)).state ops).storage.is_name
      cfg.RSXGL_MAX_SYNC_OBJECTS
      (name_of cfg (run cfg (glDeleteSync cfg s (some p)).state ops) p) = false := by
    rw [hgen2]
    exact hfree2
  obtain ⟨h1, h2, h3, h4, h5⟩ := invalid_handle_rejected cfg _ p hname
  refine ⟨herr, h1, ?_, ?_, ?_, ?_⟩
  · rw [h2]
  · intro gpu fuel flags timeout
    exact ⟨_, h3 gpu fuel flags timeout⟩
  · intro flags timeout
    rw [h4]
  · intro pname bufSize has_length
    exact ⟨_, h5 pname bufSize has_length⟩


theorem signaled_wait_is_idempotent_witness :
    (config64.create_name_sentinel = 0 ∨
      config64.RSXGL_MAX_SYNC_OBJECTS < config64.create_name_sentinel) ∧
    name_of config64 written 1 = 1 ∧
    glClientWaitSync config64 idle 1 written (some 1) GL_SYNC_FLUSH_COMMANDS_BIT 1000000000 =
      some satisfied ∧
    satisfied.ret = GL_CONDITION_SATISFIED ∧
    always (fun t => t.storage.is_name config64.RSXGL_MAX_SYNC_OBJECTS 1 = true) config64
      satisfied.state [Op.fenceSync GL_SYNC_GPU_COMMANDS_COMPLETE 0, Op.isSync (some 1)] ∧
    GL_SYNC_FLUSH_COMMANDS_BIT &&& not_valid_flags = 0 ∧
    ∃ a, glClientWaitSync config64 idle 0
        (run config64 satisfied.state
          [Op.fenceSync GL_SYNC_GPU_COMMANDS_COMPLETE 0, Op.isSync (some 1)])
        (some 1) GL_SYNC_FLUSH_COMMANDS_BIT 0 =
      some { ret := GL_ALREADY_SIGNALED, error := some GL_NO_ERROR, asserts := a,
             state := if GL_SYNC_FLUSH_COMMANDS_BIT &&& GL_SYNC_FLUSH_COMMANDS_BIT ≠ 0
               then rsxgl_flush (run config64 satisfied.state
                 [Op.fenceSync GL_SYNC_GPU_COMMANDS_COMPLETE 0, Op.isSync (some 1)])
               else run config64 satisfied.state
                 [Op.fenceSync GL_SYNC_GPU_COMMANDS_COMPLETE 0, Op.isSync (some 1)] } :=
  have hlive : always (fun t => t.storage.is_name config64.RSXGL_MAX_SYNC_OBJECTS 1 = true)
      config64 satisfied.state
      [Op.fenceSync GL_SYNC_GPU_COMMANDS_COMPLETE 0, Op.isSync (some 1)] :=
    ⟨by decide, by decide, by unfold always; decide⟩
  ⟨by decide, by decide, rfl, rfl, hlive, by decide,
    (signaled_wait_is_idempotent config64 (by decide) written 1 idle 1
      GL_SYNC_FLUSH_COMMANDS_BIT 1000000000 satisfied (by decide) rfl rfl
      [Op.fenceSync GL_SYNC_GPU_COMMANDS_COMPLETE 0, Op.isSync (some 1)] hlive
      idle 0 GL_SYNC_FLUSH_COMMANDS_BIT 0).1 (by decide)⟩

theorem destroyed_handle_rejected_until_reissued_witness :
    (config64.create_name_sentinel = 0 ∨
      config64.RSXGL_MAX_SYNC_OBJECTS < config64.create_name_sentinel) ∧
    (glIsSync config64 fenced (some 1)).ret = GL_TRUE ∧
    name_of config64 fenced 1 = 1 ∧
    always (fun t => t.storage.is_name config64.RSXGL_MAX_SYNC_OBJECTS 1 = false) config64
      (glDeleteSync config64 fenced (some 1)).state
      [Op.getSynciv (some 1) GL_SYNC_STATUS 1 true, Op.waitSync (some 1) 0 GL_TIMEOUT_IGNORED] ∧
    (glDeleteSync config64 fenced (some 1)).error = none ∧
    (glIsSync config64 (run config64 (glDeleteSync config64 fenced (some 1)).state
      [Op.getSynciv (some 1) GL_SYNC_STATUS 1 true, Op.waitSync (some 1) 0 GL_TIMEOUT_IGNORED])
      (some 1)).ret = GL_FALSE ∧
    (glDeleteSync config64 (run config64 (glDeleteSync config64 fenced (some 1)).state
      [Op.getSynciv (some 1) GL_SYNC_STATUS 1 true, Op.waitSync (some 1) 0 GL_TIMEOUT_IGNORED])
      (some 1)).error = some GL_INVALID_VALUE :=
  have hfree : always (fun t => t.storage.is_name config64.RSXGL_MAX_SYNC_OBJECTS 1 = false)
      config64 (glDeleteSync config64 fenced (some 1)).state
      [Op.getSynciv (some 1) GL_SYNC_STATUS 1 true,
        Op.waitSync (some 1) 0 GL_TIMEOUT_IGNORED] :=
    ⟨by decide, by decide, by unfold always; decide⟩
  ⟨by decide, by decide, by decide, hfree,
    (destroyed_handle_rejected_until_reissued config64 (by decide) fenced 1 (by decide)
      (by decide) _ hfree).1,
    (destroyed_handle_rejected_until_reissued config64 (by decide) fenced 1 (by decide)
      (by decide) _ hfree).2.1,
    (destroyed_handle_rejected_until_reissued config64 (by decide) fenced 1 (by decide)
      (by decide) _ hfree).2.2.1⟩

/-- C7: what the code does on an out-of-range index. For every non-null handle
whose 8-bit index field lies outside [64, 64 + N), the computed name is not a
live name, glIsSync returns GL_FALSE, and glDeleteSync, glClientWaitSync,
glWaitSync and glGetSynciv fail with GL_INVALID_VALUE leaving the state as it
was; but in each of the five entry points the range assertion of
rsxgl_rsx_index_to_sync_name is violated (the assertion outcome is false),
because the function is called on the index before any range check. -/
theorem out_of_range_index_violates_assertion (cfg : Config)
    (hN : 64 + cfg.RSXGL_MAX_SYNC_OBJECTS ≤ 256) (hbits : 8 ≤ cfg.name_type_bits)
    (s : State) (p : Nat) (hi : (s.storage.contents p).index < 256)
    (hout : (s.storage.contents p).index < 64 ∨
      64 + cfg.RSXGL_MAX_SYNC_OBJECTS ≤ (s.storage.contents p).index) :
    s.storage.is_name cfg.RSXGL_MAX_SYNC_OBJECTS
      (rsxgl_rsx_index_to_sync_name cfg (s.storage.contents p).index).1 = false ∧
    glIsSync cfg s (some p) =
      { ret := GL_FALSE, error := none, asserts := false, state := s } ∧
    glDeleteSync cfg s (some p) =
      { ret := (), error := some GL_INVALID_VALUE, asserts := false, state := s } ∧
    (∀ (gpu : Gpu) (fuel flags timeout : Nat),
      glClientWaitSync cfg gpu fuel s (some p) flags timeout =
        some { ret := GL_WAIT_FAILED, error := some GL_INVALID_VALUE, asserts := false,
               state := s }) ∧
    (∀ flags timeout : Nat,
      glWaitSync cfg s (some p) flags timeout =
        { ret := (), error := some GL_INVALID_VALUE, asserts := false, state := s }) ∧
    (∀ (pname : Nat) (bufSize : Int) (has_length : Bool),
      glGetSynciv cfg s (some p) pname bufSize has_length =
        { ret := { length := none, values := none }, error := some GL_INVALID_VALUE,
          asserts := false, state := s }) := by
  have hname := is_name_out_of_range cfg hN hbits s.storage _ hi hout
  have hassert : (rsxgl_rsx_index_to_sync_name cfg (s.storage.contents p).index).2 = false := by
    simp only [rsxgl_rsx_index_to_sync_name, ge_iff_le, Bool.and_eq_false_imp,
      decide_eq_true_eq, decide_eq_false_iff_not, not_lt]
    omega
  obtain ⟨_, h2, h3, h4, h5⟩ := invalid_handle_rejected cfg s p hname
  rw [hassert] at h2 h3 h4 h5
  refine ⟨hname, ?_, h2, h3, h4, h5⟩
  simp only [glIsSync, hname, hassert, Bool.false_eq_true, if_false]

theorem out_of_range_index_violates_assertion_witness :
    (64 + config64.RSXGL_MAX_SYNC_OBJECTS ≤ 256 ∧ 8 ≤ config64.name_type_bits) ∧
    (reallocated.storage.contents 1).index = 0 ∧
    reallocated.storage.is_name config64.RSXGL_MAX_SYNC_OBJECTS 1 = true ∧
    glIsSync config64 reallocated (some 1) =
      { ret := GL_FALSE, error := none, asserts := false, state := reallocated } ∧
    glDeleteSync config64 reallocated (some 1) =
      { ret := (), error := some GL_INVALID_VALUE, asserts := false, state := reallocated } :=
  ⟨by decide, by decide, by decide,
    (out_of_range_index_violates_assertion config64 (by decide) (by decide) reallocated 1
      (by decide) (by decide)).2.1,
    (out_of_range_index_violates_assertion config64 (by decide) (by decide) reallocated 1
      (by decide) (by decide)).2.2.1⟩


/-! ## Tokens, queries and argument checks -/

/-- What a glFenceSync that returns a handle has done: the handle is the address
of the slot of a name of [1, N] that was free; the object stored there is
unsignaled, carries the index of the name and the 23 low bits of the token drawn
from the counter; the semaphore at that index holds
RSXGL_SYNC_UNSIGNALED_TOKEN; and the command emitted carries the index and the
whole token. -/
theorem glFenceSync_returns (cfg : Config)
    (hs : cfg.create_name_sentinel = 0 ∨ cfg.RSXGL_MAX_SYNC_OBJECTS < cfg.create_name_sentinel)
    (s : State) (condition flags p : Nat)
    (hret : (glFenceSync cfg s condition flags).ret = some p) :
    1 ≤ p ∧ p ≤ cfg.RSXGL_MAX_SYNC_OBJECTS ∧ s.storage.names p = false ∧
    (glFenceSync cfg s condition flags).error = some GL_NO_ERROR ∧
    (glFenceSync cfg s condition flags).state.storage.contents p =
      rsxgl_sync_object_t.mk 0 (bitfield 8 (rsxgl_sync_name_to_rsx_index cfg p).1)
        (bitfield 23 (rsxgl_sync_token s).1) ∧
    (glFenceSync cfg s condition flags).state.hw.sem (rsxgl_sync_name_to_rsx_index cfg p).1 =
      RSXGL_SYNC_UNSIGNALED_TOKEN ∧
    (glFenceSync cfg s condition flags).state.fifo =
      s.fifo ++ [Command.sync_gpu_signal_read
        (bitfield 8 (rsxgl_sync_name_to_rsx_index cfg p).1) (rsxgl_sync_token s).1] ∧
    (glFenceSync cfg s condition flags).state.storage.is_name cfg.RSXGL_MAX_SYNC_OBJECTS p
      = true ∧
    (glFenceSync cfg s condition flags).state.storage.is_object cfg.RSXGL_MAX_SYNC_OBJECTS p
      = true := by
  by_cases hv : condition ≠ GL_SYNC_GPU_COMMANDS_COMPLETE ∨ flags ≠ 0
  · exfalso
    unfold glFenceSync at hret
    by_cases hc : condition ≠ GL_SYNC_GPU_COMMANDS_COMPLETE
    · simp [hc, RSXGL_ERROR] at hret
    · have hf : flags ≠ 0 := by
        rcases hv with h | h
        · exact absurd h hc
        · exact h
      simp [hc, hf, RSXGL_ERROR] at hret
  · have hc : condition = GL_SYNC_GPU_COMMANDS_COMPLETE := by
      by_contra h
      exact hv (Or.inl h)
    have hf : flags = 0 := by
      by_contra h
      exact hv (Or.inr h)
    subst hc
    subst hf
    rcases really_allocate_cases cfg hs s.storage with hfull | ⟨m, h1, h2, hfree, _, hra⟩
    · have := (glFenceSync_of_no_name cfg s hfull.2.1 hfull.2.2).1
      rw [this] at hret
      exact absurd hret (by simp)
    · have hF := glFenceSync_of_allocate cfg s m true _ (by omega) hra
      rw [hF] at hret ⊢
      simp only [Option.some.injEq] at hret
      subst hret
      have hslot : has_slot cfg.RSXGL_MAX_SYNC_OBJECTS m = true := by
        simp [has_slot]
        omega
      simp only [assign_same, storage_type.is_name, storage_type.is_object, hslot,
        Bool.and_self, and_self, and_true]
      exact ⟨h1, h2, hfree⟩

/-- C11: the unsignaled sentinel is not a token. For every state of the counter
the value rsxgl_sync_token returns differs from RSXGL_SYNC_UNSIGNALED_TOKEN
(1 << 24), and so does every value a 23-bit value field can hold; hence right
after a glFenceSync that returns a handle, the semaphore at the index of the new
object holds the sentinel and differs from the value the object expects. -/
theorem unsignaled_token_is_not_a_token :
    (∀ s : State, (rsxgl_sync_token s).1 ≠ RSXGL_SYNC_UNSIGNALED_TOKEN) ∧
    (∀ v : Nat, bitfield 23 v ≠ RSXGL_SYNC_UNSIGNALED_TOKEN) ∧
    (∀ (cfg : Config) (s : State) (condition flags p : Nat),
      (cfg.create_name_sentinel = 0 ∨
        cfg.RSXGL_MAX_SYNC_OBJECTS < cfg.create_name_sentinel) →
      (glFenceSync cfg s condition flags).ret = some p →
      (glFenceSync cfg s condition flags).state.hw.sem
          ((glFenceSync cfg s condition flags).state.storage.contents p).index =
        RSXGL_SYNC_UNSIGNALED_TOKEN ∧
      ((glFenceSync cfg s condition flags).state.storage.contents p).value ≠
        (glFenceSync cfg s condition flags).state.hw.sem
          ((glFenceSync cfg s condition flags).state.storage.contents p).index) := by
  have hU : RSXGL_SYNC_UNSIGNALED_TOKEN = 2 ^ 24 := by decide
  have hbit : ∀ v : Nat, bitfield 23 v ≠ RSXGL_SYNC_UNSIGNALED_TOKEN := by
    intro v
    have hlt : v % 2 ^ 23 < 2 ^ 23 := Nat.mod_lt _ (by norm_num)
    rw [hU]
    unfold bitfield
    omega
  refine ⟨?_, hbit, ?_⟩
  · intro s
    rw [hU]
    rcases rsxgl_sync_token_values s with h | h <;> rw [h] <;> norm_num
  · intro cfg s condition flags p hs hret
    obtain ⟨_, _, _, _, hc, hsem, _⟩ := glFenceSync_returns cfg hs s condition flags p hret
    have hidx : bitfield 8 (rsxgl_sync_name_to_rsx_index cfg p).1 =
        (rsxgl_sync_name_to_rsx_index cfg p).1 := by
      unfold bitfield
      apply Nat.mod_eq_of_lt
      simp only [rsxgl_sync_name_to_rsx_index]
      omega
    have hsem2 : (glFenceSync cfg s condition flags).state.hw.sem
        ((glFenceSync cfg s condition flags).state.storage.contents p).index =
        RSXGL_SYNC_UNSIGNALED_TOKEN := by
      rw [hc]
      simp only [hidx]
      exact hsem
    refine ⟨hsem2, ?_⟩
    rw [hsem2, hc]
    exact hbit _

theorem unsignaled_token_is_not_a_token_witness :
    (config64.create_name_sentinel = 0 ∨
      config64.RSXGL_MAX_SYNC_OBJECTS < config64.create_name_sentinel) ∧
    (glFenceSync config64 start GL_SYNC_GPU_COMMANDS_COMPLETE 0).ret = some 1 ∧
    (glFenceSync config64 start GL_SYNC_GPU_COMMANDS_COMPLETE 0).state.hw.sem
        ((glFenceSync config64 start GL_SYNC_GPU_COMMANDS_COMPLETE 0).state.storage.contents
          1).index = RSXGL_SYNC_UNSIGNALED_TOKEN ∧
    ((glFenceSync config64 start GL_SYNC_GPU_COMMANDS_COMPLETE 0).state.storage.contents 1).value
      ≠ (glFenceSync config64 start GL_SYNC_GPU_COMMANDS_COMPLETE 0).state.hw.sem
        ((glFenceSync config64 start GL_SYNC_GPU_COMMANDS_COMPLETE 0).state.storage.contents
          1).index :=
  ⟨by decide, by decide,
    unsignaled_token_is_not_a_token.2.2 config64 start GL_SYNC_GPU_COMMANDS_COMPLETE 0 1
      (by decide) (by decide)⟩

/-- A flags value with a bit other than bit 0 set among its 32 bits fails the
test of glClientWaitSync against ~valid_flags. -/
theorem other_flag_bit_is_rejected (flags i : Nat) (h0 : i ≠ 0) (h32 : i < 32)
    (hbit : flags.testBit i = true) : flags &&& not_valid_flags ≠ 0 := by
  intro hz
  have h1 : (flags &&& not_valid_flags).testBit i = true := by
    rw [Nat.testBit_and, hbit]
    have : not_valid_flags.testBit i = true := by
      interval_cases i <;> first | exact absurd rfl h0 | decide
    rw [this]
    rfl
  rw [hz, Nat.zero_testBit] at h1
  exact absurd h1 (by decide)

/-- C15: wait validation precedes every side effect. For every state,
glClientWaitSync called with a handle glIsSync rejects (null included), or with
a flags value that has any of its bits 1 to 31 set (any bit other than
GL_SYNC_FLUSH_COMMANDS_BIT, whether or not the flush bit is set as well),
returns GL_WAIT_FAILED with error GL_INVALID_VALUE and leaves the state as it
was: no flush, no poll, no sleep, no change to any sync object. This holds for
every timeout, every GPU behaviour and every bound on reads. -/
theorem glClientWaitSync_validates_first (cfg : Config) (gpu : Gpu) (fuel : Nat)
    (s : State) (h : GLsync) (flags timeout : Nat)
    (hbad : (glIsSync cfg s h).ret = GL_FALSE ∨
      ∃ i, i ≠ 0 ∧ i < 32 ∧ flags.testBit i = true) :
    ∃ a, glClientWaitSync cfg gpu fuel s h flags timeout =
      some { ret := GL_WAIT_FAILED, error := some GL_INVALID_VALUE, asserts := a,
             state := s } := by
  cases h with
  | none => exact ⟨true, rfl⟩
  | some p =>
    by_cases hname : s.storage.is_name cfg.RSXGL_MAX_SYNC_OBJECTS (name_of cfg s p) = true
    · rcases hbad with hinv | ⟨i, h0, h32, hbit⟩
      · rw [glIsSync_false_iff, hname] at hinv
        exact absurd hinv (by decide)
      · exact ⟨_, glClientWaitSync_bad_flags cfg gpu fuel s p flags timeout hname
          (other_flag_bit_is_rejected flags i h0 h32 hbit)⟩
    · have hname0 : s.storage.is_name cfg.RSXGL_MAX_SYNC_OBJECTS (name_of cfg s p) = false := by
        simpa using hname
      exact ⟨_, (invalid_handle_rejected cfg s p hname0).2.2.1 gpu fuel flags timeout⟩

theorem glClientWaitSync_validates_first_witness :
    ((glIsSync config64 fenced (some 1)).ret = GL_FALSE ∨
      ∃ i, i ≠ 0 ∧ i < 32 ∧ (3 : Nat).testBit i = true) ∧
    ∃ a, glClientWaitSync config64 idle 5 fenced (some 1) 3 0 =
      some { ret := GL_WAIT_FAILED, error := some GL_INVALID_VALUE, asserts := a,
             state := fenced } :=
  ⟨Or.inr ⟨1, by decide, by decide, by decide⟩,
    glClientWaitSync_validates_first config64 idle 5 fenced (some 1) 3 0
      (Or.inr ⟨1, by decide, by decide, by decide⟩)⟩

/-- C18: the GPU-side wait accepts only flags = 0 with timeout =
GL_TIMEOUT_IGNORED. For every state and arguments, glWaitSync reports
GL_INVALID_VALUE if and only if glIsSync rejects the handle, flags is not 0, or
timeout is not GL_TIMEOUT_IGNORED; otherwise it reports no error; and in every
case it leaves the whole state (sync objects, registry, counters, hardware,
command stream) as it was. -/
theorem glWaitSync_accepts_only_ignored (cfg : Config) (s : State) (h : GLsync)
    (flags timeout : Nat) :
    ((glWaitSync cfg s h flags timeout).error = some GL_INVALID_VALUE ↔
      ((glIsSync cfg s h).ret = GL_FALSE ∨ flags ≠ 0 ∨ timeout ≠ GL_TIMEOUT_IGNORED)) ∧
    ((glWaitSync cfg s h flags timeout).error = some GL_INVALID_VALUE ∨
      (glWaitSync cfg s h flags timeout).error = some GL_NO_ERROR) ∧
    (glWaitSync cfg s h flags timeout).state = s := by
  have hne : some GL_NO_ERROR ≠ some GL_INVALID_VALUE := by decide
  refine ⟨?_, ?_, glWaitSync_state cfg s h flags timeout⟩
  · cases h with
    | none =>
      simp only [glWaitSync, RSXGL_ERROR, glIsSync_null, true_or]
    | some p =>
      by_cases hname : s.storage.is_name cfg.RSXGL_MAX_SYNC_OBJECTS (name_of cfg s p) = true
      · have hname1 := hname
        unfold name_of at hname1
        have hf : ¬ (glIsSync cfg s (some p)).ret = GL_FALSE := by
          rw [glIsSync_false_iff, hname]
          decide
        by_cases hargs : flags ≠ 0 ∨ timeout ≠ GL_TIMEOUT_IGNORED
        · have herr : (glWaitSync cfg s (some p) flags timeout).error =
              some GL_INVALID_VALUE := by
            simp only [glWaitSync, hname1, hargs, RSXGL_ERROR, Bool.not_true,
              Bool.false_eq_true, if_false, if_true]
          rw [herr]
          exact ⟨fun _ => Or.inr hargs, fun _ => rfl⟩
        · have herr : (glWaitSync cfg s (some p) flags timeout).error =
              some GL_NO_ERROR := by
            simp only [glWaitSync, hname1, hargs, RSXGL_NOERROR, Bool.not_true,
              Bool.false_eq_true, if_false]
          rw [herr]
          constructor
          · intro h
            exact absurd h hne
          · intro h
            rcases h with h | h
            · exact absurd h hf
            · exact absurd h hargs
      · have hname0 :
            s.storage.is_name cfg.RSXGL_MAX_SYNC_OBJECTS (name_of cfg s p) = false := by
          simpa using hname
        have h4 := (invalid_handle_rejected cfg s p hname0).2.2.2.1 flags timeout
        rw [h4]
        simp only [true_iff]
        exact Or.inl ((glIsSync_false_iff cfg s p).2 hname0)
  · cases h with
    | none => exact Or.inl rfl
    | some p =>
      simp only [glWaitSync]
      split
      · exact Or.inl rfl
      · split
        · exact Or.inl rfl
        · exact Or.inr rfl


/-- A query on a valid handle with a buffer size below 1: the first thing
glGetSynciv does after validating the handle. -/
theorem glGetSynciv_small_buffer (cfg : Config) (s : State) (p pname : Nat) (bufSize : Int)
    (has_length : Bool)
    (hname : s.storage.is_name cfg.RSXGL_MAX_SYNC_OBJECTS (name_of cfg s p) = true)
    (hbuf : bufSize < 1) :
    glGetSynciv cfg s (some p) pname bufSize has_length =
      { ret := { length := if has_length then some 0 else none, values := none },
        error := some GL_NO_ERROR,
        asserts := (rsxgl_rsx_index_to_sync_name cfg (s.storage.contents p).index).2 &&
          s.storage.is_object cfg.RSXGL_MAX_SYNC_OBJECTS (name_of cfg s p),
        state := s } := by
  unfold name_of at hname ⊢
  simp only [glGetSynciv, hname, hbuf, RSXGL_NOERROR, Bool.not_true, Bool.false_eq_true,
    if_false, if_true]

/-- A query on a valid handle with a buffer size of at least 1. -/
theorem glGetSynciv_valid (cfg : Config) (s : State) (p pname : Nat) (bufSize : Int)
    (has_length : Bool)
    (hname : s.storage.is_name cfg.RSXGL_MAX_SYNC_OBJECTS (name_of cfg s p) = true)
    (hbuf : 1 ≤ bufSize) :
    (glGetSynciv cfg s (some p) pname bufSize has_length).state = s ∧
    (pname = GL_OBJECT_TYPE →
      (glGetSynciv cfg s (some p) pname bufSize has_length).error = some GL_NO_ERROR ∧
      (glGetSynciv cfg s (some p) pname bufSize has_length).ret =
        { length := if has_length then some 1 else none, values := some GL_SYNC_FENCE }) ∧
    (pname = GL_SYNC_STATUS →
      (glGetSynciv cfg s (some p) pname bufSize has_length).error = some GL_NO_ERROR ∧
      (glGetSynciv cfg s (some p) pname bufSize has_length).ret =
        { length := if has_length then some 1 else none,
          values := some (if (s.storage.contents p).status ≠ 0 then GL_SIGNALED
                          else GL_UNSIGNALED) }) ∧
    (pname = GL_SYNC_CONDITION →
      (glGetSynciv cfg s (some p) pname bufSize has_length).error = some GL_NO_ERROR ∧
      (glGetSynciv cfg s (some p) pname bufSize has_length).ret =
        { length := if has_length then some 1 else none,
          values := some GL_SYNC_GPU_COMMANDS_COMPLETE }) ∧
    (pname = GL_SYNC_FLAGS →
      (glGetSynciv cfg s (some p) pname bufSize has_length).error = some GL_NO_ERROR ∧
      (glGetSynciv cfg s (some p) pname bufSize has_length).ret =
        { length := if has_length then some 1 else none, values := some 0 }) ∧
    (pname ≠ GL_OBJECT_TYPE → pname ≠ GL_SYNC_STATUS → pname ≠ GL_SYNC_CONDITION →
      pname ≠ GL_SYNC_FLAGS →
      (glGetSynciv cfg s (some p) pname bufSize has_length).error = some GL_INVALID_ENUM ∧
      (glGetSynciv cfg s (some p) pname bufSize has_length).ret =
        { length := none, values := none }) := by
  unfold name_of at hname
  have hb : ¬ bufSize < 1 := by omega
  refine ⟨glGetSynciv_state cfg s (some p) pname bufSize has_length, ?_, ?_, ?_, ?_, ?_⟩
  · intro h
    subst h
    simp only [glGetSynciv, hname, hb, RSXGL_NOERROR, Bool.not_true, Bool.false_eq_true,
      if_false, if_true, and_self]
  · intro h
    subst h
    have h1 : ¬ GL_SYNC_STATUS = GL_OBJECT_TYPE := by decide
    simp only [glGetSynciv, hname, hb, h1, RSXGL_NOERROR, Bool.not_true, Bool.false_eq_true,
      if_false, if_true, and_self]
  · intro h
    subst h
    have h1 : ¬ GL_SYNC_CONDITION = GL_OBJECT_TYPE := by decide
    have h2 : ¬ GL_SYNC_CONDITION = GL_SYNC_STATUS := by decide
    simp only [glGetSynciv, hname, hb, h1, h2, RSXGL_NOERROR, Bool.not_true,
      Bool.false_eq_true, if_false, if_true, and_self]
  · intro h
    subst h
    have h1 : ¬ GL_SYNC_FLAGS = GL_OBJECT_TYPE := by decide
    have h2 : ¬ GL_SYNC_FLAGS = GL_SYNC_STATUS := by decide
    have h3 : ¬ GL_SYNC_FLAGS = GL_SYNC_CONDITION := by decide
    simp only [glGetSynciv, hname, hb, h1, h2, h3, RSXGL_NOERROR, Bool.not_true,
      Bool.false_eq_true, if_false, if_true, and_self]
  · intro h1 h2 h3 h4
    simp only [glGetSynciv, hname, hb, h1, h2, h3, h4, RSXGL_ERROR, Bool.not_true,
      Bool.false_eq_true, if_false, and_self]

/-- C13 (as stated, refuted): on the valid handle of the state fenced, a query
of the unrecognized property 0 with bufSize = 0 reports no error, where the
statement requires GL_INVALID_ENUM; with bufSize = 1 the same query does fail
with GL_INVALID_ENUM. -/
theorem unrecognized_property_small_buffer_no_error :
    (glIsSync config64 fenced (some 1)).ret = GL_TRUE ∧
    (glGetSynciv config64 fenced (some 1) 0 0 true).error = some GL_NO_ERROR ∧
    (glGetSynciv config64 fenced (some 1) 0 1 true).error = some GL_INVALID_ENUM := by
  decide

/-- C13 (amended): the query fails exactly on bad input when the buffer holds a
value. For every state, handle, property and has_length: on a handle glIsSync
rejects glGetSynciv fails with GL_INVALID_VALUE for every bufSize; on a valid
handle with bufSize at least 1 it reports no error when the property is one of
GL_OBJECT_TYPE, GL_SYNC_STATUS, GL_SYNC_CONDITION, GL_SYNC_FLAGS and fails with
GL_INVALID_ENUM otherwise; on a valid handle with bufSize below 1 it reports no
error whatever the property. -/
theorem glGetSynciv_fails_exactly_on_bad_input (cfg : Config) (s : State) (h : GLsync)
    (pname : Nat) (bufSize : Int) (has_length : Bool) :
    ((glIsSync cfg s h).ret = GL_FALSE →
      (glGetSynciv cfg s h pname bufSize has_length).error = some GL_INVALID_VALUE) ∧
    ((glIsSync cfg s h).ret = GL_TRUE → 1 ≤ bufSize →
      ((pname = GL_OBJECT_TYPE ∨ pname = GL_SYNC_STATUS ∨ pname = GL_SYNC_CONDITION ∨
          pname = GL_SYNC_FLAGS) →
        (glGetSynciv cfg s h pname bufSize has_length).error = some GL_NO_ERROR) ∧
      (¬ (pname = GL_OBJECT_TYPE ∨ pname = GL_SYNC_STATUS ∨ pname = GL_SYNC_CONDITION ∨
          pname = GL_SYNC_FLAGS) →
        (glGetSynciv cfg s h pname bufSize has_length).error = some GL_INVALID_ENUM)) ∧
    ((glIsSync cfg s h).ret = GL_TRUE → bufSize < 1 →
      (glGetSynciv cfg s h pname bufSize has_length).error = some GL_NO_ERROR) := by
  cases h with
  | none =>
    refine ⟨fun _ => rfl, ?_, ?_⟩
    · intro hv
      rw [glIsSync_null] at hv
      exact absurd hv (by decide)
    · intro hv
      rw [glIsSync_null] at hv
      exact absurd hv (by decide)
  | some p =>
    refine ⟨?_, ?_, ?_⟩
    · intro hv
      rw [glIsSync_false_iff] at hv
      rw [(invalid_handle_rejected cfg s p hv).2.2.2.2 pname bufSize has_length]
    · intro hv hbuf
      rw [glIsSync_true_iff] at hv
      obtain ⟨_, h1, h2, h3, h4, h5⟩ := glGetSynciv_valid cfg s p pname bufSize has_length hv hbuf
      constructor
      · intro hp
        rcases hp with hp | hp | hp | hp
        · exact (h1 hp).1
        · exact (h2 hp).1
        · exact (h3 hp).1
        · exact (h4 hp).1
      · intro hp
        exact (h5 (fun h => hp (Or.inl h)) (fun h => hp (Or.inr (Or.inl h)))
          (fun h => hp (Or.inr (Or.inr (Or.inl h))))
          (fun h => hp (Or.inr (Or.inr (Or.inr h))))).1
    · intro hv hbuf
      rw [glIsSync_true_iff] at hv
      rw [glGetSynciv_small_buffer cfg s p pname bufSize has_length hv hbuf]

theorem glGetSynciv_fails_exactly_on_bad_input_witness :
    (glIsSync config64 fenced (some 1)).ret = GL_TRUE ∧ (1 : Int) ≤ 1 ∧
    ¬ (7 = GL_OBJECT_TYPE ∨ 7 = GL_SYNC_STATUS ∨ 7 = GL_SYNC_CONDITION ∨ 7 = GL_SYNC_FLAGS) ∧
    (glGetSynciv config64 fenced (some 1) 7 1 true).error = some GL_INVALID_ENUM ∧
    (glIsSync config64 fenced (some 2)).ret = GL_FALSE ∧
    (glGetSynciv config64 fenced (some 2) 7 1 true).error = some GL_INVALID_VALUE ∧
    (0 : Int) < 1 ∧
    (glGetSynciv config64 fenced (some 1) 7 0 true).error = some GL_NO_ERROR :=
  ⟨by decide, by decide, by decide,
    ((glGetSynciv_fails_exactly_on_bad_input config64 fenced (some 1) 7 1 true).2.1
      (by decide) (by decide)).2 (by decide),
    by decide,
    (glGetSynciv_fails_exactly_on_bad_input config64 fenced (some 2) 7 1 true).1 (by decide),
    by decide,
    (glGetSynciv_fails_exactly_on_bad_input config64 fenced (some 1) 7 0 true).2.2
      (by decide) (by decide)⟩

/-- C14 (as stated, refuted): on the valid handle of the state fenced, a status
query with bufSize = 0, and one with bufSize = -3, report no error (not
GL_INVALID_VALUE); they write no value and set the length to 0. -/
theorem small_buffer_query_reports_no_error :
    (glIsSync config64 fenced (some 1)).ret = GL_TRUE ∧
    (glGetSynciv config64 fenced (some 1) GL_SYNC_STATUS 0 true).error = some GL_NO_ERROR ∧
    (glGetSynciv config64 fenced (some 1) GL_SYNC_STATUS 0 true).ret =
      { length := some 0, values := none } ∧
    (glGetSynciv config64 fenced (some 1) GL_SYNC_STATUS (-3) true).error =
      some GL_NO_ERROR := by
  decide

/-- C14 (amended): a zero or negative buffer size is not an error. For every
valid fence handle and every property, glGetSynciv called with bufSize below 1
reports no error, writes no value, sets the length to 0 when a length pointer
is given, and leaves the state as it was. -/
theorem glGetSynciv_small_buffer_writes_nothing (cfg : Config) (s : State) (p pname : Nat)
    (bufSize : Int) (has_length : Bool)
    (hvalid : (glIsSync cfg s (some p)).ret = GL_TRUE) (hbuf : bufSize < 1) :
    (glGetSynciv cfg s (some p) pname bufSize has_length).error = some GL_NO_ERROR ∧
    (glGetSynciv cfg s (some p) pname bufSize has_length).ret.values = none ∧
    (glGetSynciv cfg s (some p) pname bufSize has_length).ret.length =
      (if has_length then some 0 else none) ∧
    (glGetSynciv cfg s (some p) pname bufSize has_length).state = s := by
  rw [glIsSync_true_iff] at hvalid
  rw [glGetSynciv_small_buffer cfg s p pname bufSize has_length hvalid hbuf]
  exact ⟨rfl, rfl, rfl, rfl⟩

theorem glGetSynciv_small_buffer_writes_nothing_witness :
    (glIsSync config64 fenced (some 1)).ret = GL_TRUE ∧ (0 : Int) < 1 ∧
    (glGetSynciv config64 fenced (some 1) GL_OBJECT_TYPE 0 true).error = some GL_NO_ERROR ∧
    (glGetSynciv config64 fenced (some 1) GL_OBJECT_TYPE 0 true).ret.values = none ∧
    (glGetSynciv config64 fenced (some 1) GL_OBJECT_TYPE 0 true).ret.length =
      (if true then some 0 else none) ∧
    (glGetSynciv config64 fenced (some 1) GL_OBJECT_TYPE 0 true).state = fenced :=
  ⟨by decide, by decide,
    glGetSynciv_small_buffer_writes_nothing config64 fenced 1 GL_OBJECT_TYPE 0 true
      (by decide) (by decide)⟩


/-! ## A fence that has not been waited on -/

/-- The allocation of a name leaves the object of every reserved name alone. -/
theorem really_allocate_keeps_contents (cfg : Config)
    (hs : cfg.create_name_sentinel = 0 ∨ cfg.RSXGL_MAX_SYNC_OBJECTS < cfg.create_name_sentinel)
    (st : storage_type) (p : Nat)
    (hlive : st.is_name cfg.RSXGL_MAX_SYNC_OBJECTS p = true) :
    (rsxgl_sync_object_really_allocate cfg st).2.2.contents p = st.contents p := by
  rcases really_allocate_cases cfg hs st with ⟨_, _, hst⟩ | ⟨m, h1, h2, hfree, _, hra⟩
  · rw [hst]
  · have hpm : p ≠ m := by
      intro hpm
      subst hpm
      have := (is_name_range _ _ _ hlive).2.2
      rw [hfree] at this
      exact absurd this (by decide)
    rw [hra]
    simp only [assign, hpm, if_false]

/-- A step other than a glClientWaitSync on the pointer p leaves the object of
the reserved name p alone. -/
theorem step_keeps_contents (cfg : Config)
    (hs : cfg.create_name_sentinel = 0 ∨ cfg.RSXGL_MAX_SYNC_OBJECTS < cfg.create_name_sentinel)
    (s : State) (op : Op) (p : Nat)
    (hlive : s.storage.is_name cfg.RSXGL_MAX_SYNC_OBJECTS p = true)
    (hop : ∀ (gpu : Gpu) (fuel flags timeout : Nat),
      op ≠ Op.clientWaitSync gpu fuel (some p) flags timeout) :
    (step cfg s op).storage.contents p = s.storage.contents p := by
  cases op with
  | fenceSync condition flags =>
    simp only [step]
    cases hret : (glFenceSync cfg s condition flags).ret with
    | none =>
      by_cases hv : condition ≠ GL_SYNC_GPU_COMMANDS_COMPLETE ∨ flags ≠ 0
      · rw [glFenceSync_rejected_state cfg s condition flags hv]
      · have hc : condition = GL_SYNC_GPU_COMMANDS_COMPLETE := by
          by_contra h
          exact hv (Or.inl h)
        have hf : flags = 0 := by
          by_contra h
          exact hv (Or.inr h)
        subst hc
        subst hf
        rcases really_allocate_cases cfg hs s.storage with hfull | ⟨m, h1, _, _, _, hra⟩
        · rw [(glFenceSync_of_no_name cfg s hfull.2.1 hfull.2.2).2.2]
        · rw [glFenceSync_of_allocate cfg s m true _ (by omega) hra] at hret
          exact absurd hret (by simp)
    | some m =>
      obtain ⟨_, _, hfree, _⟩ := glFenceSync_returns cfg hs s condition flags m hret
      have hpm : p ≠ m := by
        intro hpm
        subst hpm
        have := (is_name_range _ _ _ hlive).2.2
        rw [hfree] at this
        exact absurd this (by decide)
      have hc : condition = GL_SYNC_GPU_COMMANDS_COMPLETE ∧ flags = 0 := by
        by_contra hv
        have hv2 : condition ≠ GL_SYNC_GPU_COMMANDS_COMPLETE ∨ flags ≠ 0 := by
          by_contra h
          apply hv
          constructor
          · by_contra hc
            exact h (Or.inl hc)
          · by_contra hf
            exact h (Or.inr hf)
        unfold glFenceSync at hret
        by_cases hc : condition ≠ GL_SYNC_GPU_COMMANDS_COMPLETE
        · simp [hc, RSXGL_ERROR] at hret
        · have hf : flags ≠ 0 := by
            rcases hv2 with h | h
            · exact absurd h hc
            · exact h
          simp [hc, hf, RSXGL_ERROR] at hret
      obtain ⟨hc1, hf1⟩ := hc
      subst hc1
      subst hf1
      rcases really_allocate_cases cfg hs s.storage with hfull | ⟨k, h1, _, _, _, hra⟩
      · rw [(glFenceSync_of_no_name cfg s hfull.2.1 hfull.2.2).1] at hret
        exact absurd hret (by simp)
      · have hF := glFenceSync_of_allocate cfg s k true _ (by omega) hra
        rw [hF] at hret ⊢
        simp only [Option.some.injEq] at hret
        subst hret
        simp only [assign, hpm, if_false]
  | isSync sync =>
    simp only [step]
    rw [glIsSync_state]
  | deleteSync sync =>
    simp only [step]
    cases sync with
    | none => rfl
    | some q =>
      by_cases hv : s.storage.is_name cfg.RSXGL_MAX_SYNC_OBJECTS (name_of cfg s q) = true
      · rw [(glDeleteSync_valid cfg s q hv).2]
        simp only [contents_destroy]
      · have hf : (glIsSync cfg s (some q)).ret = GL_FALSE := by
          rw [glIsSync_false_iff]
          simpa using hv
        rw [(glDeleteSync_invalid cfg s (some q) hf).2]
  | clientWaitSync gpu fuel sync flags timeout =>
    simp only [step]
    cases h : glClientWaitSync cfg gpu fuel s sync flags timeout with
    | none => rfl
    | some o =>
      show o.state.storage.contents p = s.storage.contents p
      cases sync with
      | none =>
        simp only [glClientWaitSync, RSXGL_ERROR, Option.some.injEq] at h
        subst h
        rfl
      | some q =>
        have hqp : p ≠ q := by
          intro hqp
          subst hqp
          exact hop gpu fuel flags timeout rfl
        have hfl := flush_if_frame (flags &&& GL_SYNC_FLUSH_COMMANDS_BIT ≠ 0) s
        rcases glClientWaitSync_cases cfg gpu fuel s q flags timeout o h with
          ⟨_, _, _, hst⟩ | ⟨_, _, _, _, _, hst⟩ | ⟨_, _, _, _, r, s2, hw, hres⟩
        · rw [hst]
        · rw [hst, hfl.1]
        · have hfr := cpu_wait_frame _ _ _ _ _ _ _ _ _ hw
          rcases hres with ⟨_, _, hst⟩ | ⟨_, _, hst⟩
          · rw [hst]
            simp only [assign, hqp, if_false, hfr.1, hfl.1]
          · rw [hst, hfr.1, hfl.1]
  | waitSync sync flags timeout =>
    simp only [step]
    rw [glWaitSync_state]
  | getSynciv sync pname bufSize has_length =>
    simp only [step]
    rw [glGetSynciv_state]
  | allocate =>
    simp only [step, rsxgl_sync_object_allocate]
    split <;> exact really_allocate_keeps_contents cfg hs s.storage p hlive
  | free index =>
    simp only [step, rsxgl_sync_object_free]
    split
    · simp only [rsxgl_sync_object_really_free]
      split
      · simp only [contents_destroy]
      · rfl
    · rfl
  | other t => rfl

/-- No step of the sequence is a glClientWaitSync on the pointer p. -/
theorem run_keeps_contents (cfg : Config)
    (hs : cfg.create_name_sentinel = 0 ∨ cfg.RSXGL_MAX_SYNC_OBJECTS < cfg.create_name_sentinel)
    (p : Nat) (ops : List Op) :
    ∀ s : State,
      always (fun t => t.storage.is_name cfg.RSXGL_MAX_SYNC_OBJECTS p = true) cfg s ops →
      (∀ op ∈ ops, ∀ (gpu : Gpu) (fuel flags timeout : Nat),
        op ≠ Op.clientWaitSync gpu fuel (some p) flags timeout) →
      (run cfg s ops).storage.contents p = s.storage.contents p ∧
      (run cfg s ops).storage.is_name cfg.RSXGL_MAX_SYNC_OBJECTS p = true := by
  induction ops with
  | nil =>
    intro s hal _
    exact ⟨rfl, hal⟩
  | cons op ops ih =>
    intro s hal hops
    simp only [always] at hal
    simp only [run]
    have hk := step_keeps_contents cfg hs s op p hal.1
      (hops op (List.mem_cons_self op ops))
    obtain ⟨h1, h2⟩ := ih (step cfg s op) hal.2
      (fun o ho => hops o (List.mem_cons_of_mem op ho))
    exact ⟨by rw [h1, hk], h2⟩


/-- C12: fresh-fence queries. Let glFenceSync return a handle (for constants
meeting Config.wf), and let t be any later state reached by steps that keep the
name reserved and include no glClientWaitSync on the handle (the fence is not
yet waited on). Then glGetSynciv on the handle with bufSize at least 1 writes
GL_SYNC_FENCE for GL_OBJECT_TYPE, GL_UNSIGNALED for GL_SYNC_STATUS,
GL_SYNC_GPU_COMMANDS_COMPLETE for GL_SYNC_CONDITION and 0 for GL_SYNC_FLAGS,
sets the length to 1 when a length pointer is given, reports no error, and
leaves the state (objects, registry, hardware) as it was. -/
theorem fresh_fence_queries (cfg : Config) (hcfg : cfg.wf) (s : State)
    (condition flags p : Nat)
    (hret : (glFenceSync cfg s condition flags).ret = some p)
    (ops : List Op)
    (hlive : always (fun t => t.storage.is_name cfg.RSXGL_MAX_SYNC_OBJECTS p = true) cfg
      (glFenceSync cfg s condition flags).state ops)
    (hnowait : ∀ op ∈ ops, ∀ (gpu : Gpu) (fuel fl timeout : Nat),
      op ≠ Op.clientWaitSync gpu fuel (some p) fl timeout)
    (t : State) (ht : t = run cfg (glFenceSync cfg s condition flags).state ops)
    (bufSize : Int) (hbuf : 1 ≤ bufSize) (has_length : Bool) :
    (glGetSynciv cfg t (some p) GL_OBJECT_TYPE bufSize has_length).ret =
      { length := if has_length then some 1 else none, values := some GL_SYNC_FENCE } ∧
    (glGetSynciv cfg t (some p) GL_SYNC_STATUS bufSize has_length).ret =
      { length := if has_length then some 1 else none, values := some GL_UNSIGNALED } ∧
    (glGetSynciv cfg t (some p) GL_SYNC_CONDITION bufSize has_length).ret =
      { length := if has_length then some 1 else none,
        values := some GL_SYNC_GPU_COMMANDS_COMPLETE } ∧
    (glGetSynciv cfg t (some p) GL_SYNC_FLAGS bufSize has_length).ret =
      { length := if has_length then some 1 else none, values := some 0 } ∧
    (glGetSynciv cfg t (some p) GL_OBJECT_TYPE bufSize has_length).error = some GL_NO_ERROR ∧
    (glGetSynciv cfg t (some p) GL_SYNC_STATUS bufSize has_length).error = some GL_NO_ERROR ∧
    (glGetSynciv cfg t (some p) GL_SYNC_CONDITION bufSize has_length).error =
      some GL_NO_ERROR ∧
    (glGetSynciv cfg t (some p) GL_SYNC_FLAGS bufSize has_length).error = some GL_NO_ERROR ∧
    (∀ pname, (glGetSynciv cfg t (some p) pname bufSize has_length).state = t) := by
  have hs := hcfg.2.2
  obtain ⟨_, _, _, _, hc, _⟩ := glFenceSync_returns cfg hs s condition flags p hret
  obtain ⟨hself, _⟩ := glFenceSync_handle_names_itself cfg hcfg s condition flags p hret
  obtain ⟨hcont, hname⟩ := run_keeps_contents cfg hs p ops _ hlive hnowait
  rw [← ht] at hcont hname
  have hname2 : t.storage.is_name cfg.RSXGL_MAX_SYNC_OBJECTS (name_of cfg t p) = true := by
    have : name_of cfg t p = p := by
      unfold name_of at hself ⊢
      rw [hcont]
      exact hself
    rw [this]
    exact hname
  have hstatus : (t.storage.contents p).status = 0 := by
    rw [hcont, hc]
  have h1 := (glGetSynciv_valid cfg t p GL_OBJECT_TYPE bufSize has_length hname2 hbuf).2.1 rfl
  have h2 := (glGetSynciv_valid cfg t p GL_SYNC_STATUS bufSize has_length hname2 hbuf).2.2.1 rfl
  have h3 :=
    (glGetSynciv_valid cfg t p GL_SYNC_CONDITION bufSize has_length hname2 hbuf).2.2.2.1 rfl
  have h4 :=
    (glGetSynciv_valid cfg t p GL_SYNC_FLAGS bufSize has_length hname2 hbuf).2.2.2.2.1 rfl
  refine ⟨h1.2, ?_, h3.2, h4.2, h1.1, h2.1, h3.1, h4.1, ?_⟩
  · rw [h2.2, hstatus]
    simp
  · intro pname
    exact glGetSynciv_state cfg t (some p) pname bufSize has_length

theorem fresh_fence_queries_witness :
    config64.wf ∧
    (glFenceSync config64 start GL_SYNC_GPU_COMMANDS_COMPLETE 0).ret = some 1 ∧
    always (fun t => t.storage.is_name config64.RSXGL_MAX_SYNC_OBJECTS 1 = true) config64
      (glFenceSync config64 start GL_SYNC_GPU_COMMANDS_COMPLETE 0).state
      [Op.isSync (some 1), Op.fenceSync GL_SYNC_GPU_COMMANDS_COMPLETE 0] ∧
    (∀ op ∈ [Op.isSync (some 1), Op.fenceSync GL_SYNC_GPU_COMMANDS_COMPLETE 0],
      ∀ (gpu : Gpu) (fuel fl timeout : Nat),
        op ≠ Op.clientWaitSync gpu fuel (some 1) fl timeout) ∧
    (1 : Int) ≤ 1 ∧
    (glGetSynciv config64
      (run config64 (glFenceSync config64 start GL_SYNC_GPU_COMMANDS_COMPLETE 0).state
        [Op.isSync (some 1), Op.fenceSync GL_SYNC_GPU_COMMANDS_COMPLETE 0])
      (some 1) GL_SYNC_STATUS 1 true).ret =
      { length := if true then some 1 else none, values := some GL_UNSIGNALED } :=
  have hlive : always (fun t => t.storage.is_name config64.RSXGL_MAX_SYNC_OBJECTS 1 = true)
      config64 (glFenceSync config64 start GL_SYNC_GPU_COMMANDS_COMPLETE 0).state
      [Op.isSync (some 1), Op.fenceSync GL_SYNC_GPU_COMMANDS_COMPLETE 0] :=
    ⟨by decide, by decide, by unfold always; decide⟩
  have hnowait : ∀ op ∈ [Op.isSync (some 1), Op.fenceSync GL_SYNC_GPU_COMMANDS_COMPLETE 0],
      ∀ (gpu : Gpu) (fuel fl timeout : Nat),
        op ≠ Op.clientWaitSync gpu fuel (some 1) fl timeout := by
    intro op hop gpu fuel fl timeout
    simp only [List.mem_cons, List.mem_singleton, List.not_mem_nil, or_false] at hop
    rcases hop with rfl | rfl <;> simp
  ⟨by decide, by decide, hlive, hnowait, by decide,
    (fresh_fence_queries config64 (by decide) start GL_SYNC_GPU_COMMANDS_COMPLETE 0 1
      (by decide) _ hlive hnowait _ rfl 1 (by decide) true).2.1⟩

/-- C16: zero timeout. For every valid, still-unsignaled fence whose hardware
semaphore does not hold its expected value, glClientWaitSync with accepted
flags and a timeout below 1000 ns (timeout = 0 included; it converts to 0
microseconds) reads the semaphore once and returns GL_TIMEOUT_EXPIRED with no
error and without sleeping, for every GPU behaviour and every bound of at least
one read; the sync objects (status, index, value), the registry and the
hardware are as before; only the count of reads, and of flushes when the flush
bit is set, has grown. -/
theorem zero_timeout_checks_once (cfg : Config) (gpu : Gpu) (fuel : Nat) (s : State)
    (p flags timeout : Nat)
    (hvalid : (glIsSync cfg s (some p)).ret = GL_TRUE)
    (hflags : flags = 0 ∨ flags = GL_SYNC_FLUSH_COMMANDS_BIT)
    (hst : (s.storage.contents p).status = 0)
    (hsem : s.hw.sem (s.storage.contents p).index ≠ (s.storage.contents p).value)
    (htimeout : timeout < 1000) :
    ∃ a t, glClientWaitSync cfg gpu (fuel + 1) s (some p) flags timeout =
        some { ret := GL_TIMEOUT_EXPIRED, error := some GL_NO_ERROR, asserts := a,
               state := t } ∧
      t.sleeps = s.sleeps ∧ t.polls = s.polls + 1 ∧ t.storage = s.storage ∧ t.hw = s.hw ∧
      t._rsxgl_sync_token = s._rsxgl_sync_token ∧ t.fifo = s.fifo ∧
      t.flushes = (if flags &&& GL_SYNC_FLUSH_COMMANDS_BIT ≠ 0 then s.flushes + 1
        else s.flushes) := by
  rw [glIsSync_true_iff] at hvalid
  have hname := hvalid
  unfold name_of at hname
  have hnv : flags &&& not_valid_flags = 0 := by
    rcases hflags with h | h <;> rw [h] <;> decide
  have hdiv : timeout / 1000 = 0 := Nat.div_eq_of_lt htimeout
  have hfl := flush_if_frame (flags &&& GL_SYNC_FLUSH_COMMANDS_BIT ≠ 0) s
  have hflush : (if flags &&& GL_SYNC_FLUSH_COMMANDS_BIT ≠ 0 then rsxgl_flush s else s).flushes =
      if flags &&& GL_SYNC_FLUSH_COMMANDS_BIT ≠ 0 then s.flushes + 1 else s.flushes := by
    split <;> rfl
  generalize hs1 : (if flags &&& GL_SYNC_FLUSH_COMMANDS_BIT ≠ 0 then rsxgl_flush s else s) = s1
    at hfl hflush
  have hsem1 : ¬ s1.hw.sem (s.storage.contents p).index = (s.storage.contents p).value := by
    rw [hfl.2.2.1]
    exact hsem
  have hw : rsxgl_sync_cpu_wait gpu (s.storage.contents p).index (s.storage.contents p).value
      cfg.RSXGL_SYNC_SLEEP_INTERVAL (fuel + 1) s1 0 =
      some (false, { s1 with polls := s1.polls + 1 }) := by
    simp [rsxgl_sync_cpu_wait, hsem1]
  refine ⟨(rsxgl_rsx_index_to_sync_name cfg (s.storage.contents p).index).2 &&
      s.storage.is_object cfg.RSXGL_MAX_SYNC_OBJECTS
        (rsxgl_rsx_index_to_sync_name cfg (s.storage.contents p).index).1,
    { s1 with polls := s1.polls + 1 }, ?_, ?_⟩
  · simp only [glClientWaitSync, hname, hnv, hs1, hfl.1, hst, hdiv, Nat.zero_mod, hw,
      RSXGL_NOERROR, Bool.not_true, Bool.false_eq_true, if_false, ne_eq, not_true_eq_false]
  · simp only [hfl.1, hfl.2.1, hfl.2.2.1, hfl.2.2.2.1, hfl.2.2.2.2.1, hfl.2.2.2.2.2.1, hflush,
      and_self]

theorem zero_timeout_checks_once_witness :
    (glIsSync config64 fenced (some 1)).ret = GL_TRUE ∧
    ((0 : Nat) = 0 ∨ (0 : Nat) = GL_SYNC_FLUSH_COMMANDS_BIT) ∧
    (fenced.storage.contents 1).status = 0 ∧
    fenced.hw.sem (fenced.storage.contents 1).index ≠ (fenced.storage.contents 1).value ∧
    (999 : Nat) < 1000 ∧
    ∃ a t, glClientWaitSync config64 idle (0 + 1) fenced (some 1) 0 999 =
        some { ret := GL_TIMEOUT_EXPIRED, error := some GL_NO_ERROR, asserts := a,
               state := t } ∧
      t.sleeps = fenced.sleeps ∧ t.polls = fenced.polls + 1 ∧ t.storage = fenced.storage ∧
      t.hw = fenced.hw ∧ t._rsxgl_sync_token = fenced._rsxgl_sync_token ∧
      t.fifo = fenced.fifo ∧
      t.flushes = (if 0 &&& GL_SYNC_FLUSH_COMMANDS_BIT ≠ 0 then fenced.flushes + 1
        else fenced.flushes) :=
  ⟨by decide, by decide, by decide, by decide, by decide,
    zero_timeout_checks_once config64 idle 0 fenced 1 0 999 (by decide) (by decide)
      (by decide) (by decide) (by decide)⟩


/-! ## A wait whose timeout elapses -/

/-- When the sleep quantum is positive and the GPU never writes the expected
value, the poll loop returns false once the timeout has elapsed: any bound on
reads above the timeout is enough. -/
theorem cpu_wait_expires (gpu : Gpu) (index value interval : Nat) (hint : 0 < interval)
    (hgpu : ∀ (k : Nat) (h : Hardware), h.sem index ≠ value → (gpu k h).sem index ≠ value) :
    ∀ (fuel : Nat) (s : State) (remaining : Nat),
      remaining < fuel → s.hw.sem index ≠ value →
      ∃ s1, rsxgl_sync_cpu_wait gpu index value interval fuel s remaining = some (false, s1) ∧
        s1.storage = s.storage ∧ s1.hw.sem index ≠ value := by
  intro fuel
  induction fuel with
  | zero =>
    intro s remaining hlt _
    exact absurd hlt (Nat.not_lt_zero _)
  | succ k ih =>
    intro s remaining hlt hne
    simp only [rsxgl_sync_cpu_wait]
    rw [if_neg hne]
    by_cases hrem : remaining = 0
    · rw [if_pos hrem]
      exact ⟨_, rfl, rfl, hne⟩
    · rw [if_neg hrem]
      have hne2 : (usleep gpu { s with polls := s.polls + 1 }).hw.sem index ≠ value := by
        simp only [usleep]
        exact hgpu _ _ hne
      obtain ⟨s1, h1, h2, h3⟩ :=
        ih (usleep gpu { s with polls := s.polls + 1 }) (remaining - interval) (by omega) hne2
      exact ⟨s1, h1, by rw [h2]; rfl, h3⟩

/-- On a valid, unsignaled fence with accepted flags, with a positive sleep
quantum and a GPU that never writes the expected value, glClientWaitSync returns
GL_TIMEOUT_EXPIRED once its timeout, converted to microseconds and narrowed to
useconds_t, has elapsed. -/
theorem glClientWaitSync_expires (cfg : Config) (gpu : Gpu) (fuel : Nat) (s : State)
    (p flags timeout : Nat)
    (hname : s.storage.is_name cfg.RSXGL_MAX_SYNC_OBJECTS (name_of cfg s p) = true)
    (hflags : flags &&& not_valid_flags = 0)
    (hst : (s.storage.contents p).status = 0)
    (hsem : s.hw.sem (s.storage.contents p).index ≠ (s.storage.contents p).value)
    (hint : 0 < cfg.RSXGL_SYNC_SLEEP_INTERVAL)
    (hgpu : ∀ (k : Nat) (h : Hardware),
      h.sem (s.storage.contents p).index ≠ (s.storage.contents p).value →
      (gpu k h).sem (s.storage.contents p).index ≠ (s.storage.contents p).value)
    (hfuel : (timeout / 1000) % 2 ^ cfg.useconds_t_bits < fuel) :
    ∃ a t, glClientWaitSync cfg gpu fuel s (some p) flags timeout =
        some { ret := GL_TIMEOUT_EXPIRED, error := some GL_NO_ERROR, asserts := a,
               state := t } ∧
      t.storage = s.storage := by
  unfold name_of at hname
  have hfl := flush_if_frame (flags &&& GL_SYNC_FLUSH_COMMANDS_BIT ≠ 0) s
  generalize hs1 : (if flags &&& GL_SYNC_FLUSH_COMMANDS_BIT ≠ 0 then rsxgl_flush s else s) = s1
    at hfl
  have hsem1 : s1.hw.sem (s.storage.contents p).index ≠ (s.storage.contents p).value := by
    rw [hfl.2.2.1]
    exact hsem
  obtain ⟨t, hw, hstore, _⟩ := cpu_wait_expires gpu _ _ cfg.RSXGL_SYNC_SLEEP_INTERVAL hint hgpu
    fuel s1 _ hfuel hsem1
  refine ⟨(rsxgl_rsx_index_to_sync_name cfg (s.storage.contents p).index).2 &&
      s.storage.is_object cfg.RSXGL_MAX_SYNC_OBJECTS
        (rsxgl_rsx_index_to_sync_name cfg (s.storage.contents p).index).1, t, ?_, ?_⟩
  · simp only [glClientWaitSync, hname, hflags, hs1, hfl.1, hst, hw, RSXGL_NOERROR,
      Bool.not_true, Bool.false_eq_true, if_false, ne_eq, not_true_eq_false]
  · rw [hstore, hfl.1]

/-- C17 (as stated, refuted): on the fresh fence of the state fenced, whose
semaphore holds the unsignaled sentinel, with a GPU that writes nothing,
glClientWaitSync with timeout = GL_TIMEOUT_IGNORED is handed
18446744073709551 % 2^32 = 1271310319 microseconds and returns
GL_TIMEOUT_EXPIRED when they have elapsed. -/
theorem ignored_timeout_expires :
    (glIsSync config64 fenced (some 1)).ret = GL_TRUE ∧
    (fenced.storage.contents 1).status = 0 ∧
    (GL_TIMEOUT_IGNORED / 1000) % 2 ^ config64.useconds_t_bits = 1271310319 ∧
    ∃ a t, glClientWaitSync config64 idle 1271310320 fenced (some 1) 0 GL_TIMEOUT_IGNORED =
      some { ret := GL_TIMEOUT_EXPIRED, error := some GL_NO_ERROR, asserts := a,
             state := t } := by
  refine ⟨by decide, by decide, by decide, ?_⟩
  obtain ⟨a, t, h, _⟩ := glClientWaitSync_expires config64 idle 1271310320 fenced 1 0
    GL_TIMEOUT_IGNORED (by decide) (by decide) (by decide) (by decide) (by decide)
    (fun _ _ h => h) (by decide)
  exact ⟨a, t, h⟩

/-- C17 (amended): the ignored timeout is a finite timeout. For every valid,
unsignaled fence and accepted flags, glClientWaitSync called with timeout =
GL_TIMEOUT_IGNORED returns, when it returns, GL_CONDITION_SATISFIED or
GL_TIMEOUT_EXPIRED with no error; it returns GL_CONDITION_SATISFIED only when
the hardware semaphore it read last equals the expected value of the fence (and
it then sets the status), and it leaves the sync objects as they were when it
returns GL_TIMEOUT_EXPIRED. The timeout handed to the poll routine is
18446744073709551 narrowed to useconds_t; with a positive sleep quantum and a
GPU that never writes the expected value the call returns GL_TIMEOUT_EXPIRED
once that many microseconds have elapsed. -/
theorem ignored_timeout_is_finite (cfg : Config) (gpu : Gpu) (s : State) (p flags : Nat)
    (hvalid : (glIsSync cfg s (some p)).ret = GL_TRUE)
    (hflags : flags = 0 ∨ flags = GL_SYNC_FLUSH_COMMANDS_BIT)
    (hst : (s.storage.contents p).status = 0) :
    (∀ (fuel : Nat) (o : Outcome Nat),
      glClientWaitSync cfg gpu fuel s (some p) flags GL_TIMEOUT_IGNORED = some o →
      o.error = some GL_NO_ERROR ∧
      ((o.ret = GL_CONDITION_SATISFIED ∧
          o.state.hw.sem (s.storage.contents p).index = (s.storage.contents p).value ∧
          (o.state.storage.contents p).status = 1) ∨
        (o.ret = GL_TIMEOUT_EXPIRED ∧ o.state.storage = s.storage))) ∧
    (0 < cfg.RSXGL_SYNC_SLEEP_INTERVAL →
      s.hw.sem (s.storage.contents p).index ≠ (s.storage.contents p).value →
      (∀ (k : Nat) (h : Hardware),
        h.sem (s.storage.contents p).index ≠ (s.storage.contents p).value →
        (gpu k h).sem (s.storage.contents p).index ≠ (s.storage.contents p).value) →
      ∀ fuel, 18446744073709551 % 2 ^ cfg.useconds_t_bits < fuel →
        ∃ a t, glClientWaitSync cfg gpu fuel s (some p) flags GL_TIMEOUT_IGNORED =
          some { ret := GL_TIMEOUT_EXPIRED, error := some GL_NO_ERROR, asserts := a,
                 state := t } ∧
        t.storage = s.storage) := by
  rw [glIsSync_true_iff] at hvalid
  have hnv : flags &&& not_valid_flags = 0 := by
    rcases hflags with h | h <;> rw [h] <;> decide
  have hfl := flush_if_frame (flags &&& GL_SYNC_FLUSH_COMMANDS_BIT ≠ 0) s
  constructor
  · intro fuel o ho
    rcases glClientWaitSync_cases cfg gpu fuel s p flags GL_TIMEOUT_IGNORED o ho with
      ⟨hbad, _⟩ | ⟨_, _, hsig, _⟩ | ⟨_, _, _, herr, r, s2, hw, hres⟩
    · rcases hbad with h | h
      · rw [hvalid] at h
        exact absurd h (by decide)
      · exact absurd hnv h
    · exact absurd hst hsig
    · have hfr := cpu_wait_frame _ _ _ _ _ _ _ _ _ hw
      refine ⟨herr, ?_⟩
      rcases hres with ⟨hr, hret, hstate⟩ | ⟨_, hret, hstate⟩
      · left
        refine ⟨hret, ?_, ?_⟩
        · rw [hstate]
          exact hfr.2.2.2.2.2 hr
        · rw [hstate]
          simp only [assign, if_true, bitfield]
          decide
      · right
        refine ⟨hret, ?_⟩
        rw [hstate, hfr.1, hfl.1]
  · intro hint hsem hgpu fuel hfuel
    have hdiv : GL_TIMEOUT_IGNORED / 1000 = 18446744073709551 := by decide
    exact glClientWaitSync_expires cfg gpu fuel s p flags GL_TIMEOUT_IGNORED hvalid hnv hst
      hsem hint hgpu (by rw [hdiv]; exact hfuel)

theorem ignored_timeout_is_finite_witness :
    (glIsSync config64 fenced (some 1)).ret = GL_TRUE ∧
    ((0 : Nat) = 0 ∨ (0 : Nat) = GL_SYNC_FLUSH_COMMANDS_BIT) ∧
    (fenced.storage.contents 1).status = 0 ∧
    0 < config64.RSXGL_SYNC_SLEEP_INTERVAL ∧
    fenced.hw.sem (fenced.storage.contents 1).index ≠ (fenced.storage.contents 1).value ∧
    18446744073709551 % 2 ^ config64.useconds_t_bits < 1271310320 ∧
    ∃ a t, glClientWaitSync config64 idle 1271310320 fenced (some 1) 0 GL_TIMEOUT_IGNORED =
        some { ret := GL_TIMEOUT_EXPIRED, error := some GL_NO_ERROR, asserts := a,
               state := t } ∧
      t.storage = fenced.storage :=
  ⟨by decide, by decide, by decide, by decide, by decide, by decide,
    (ignored_timeout_is_finite config64 idle fenced 1 0 (by decide) (by decide)
      (by decide)).2 (by decide) (by decide) (fun _ _ h => h) 1271310320 (by decide)⟩


/-! ## glFinish -/

/-- The state glFinish polls from: the counter incremented, the set-reference
command emitted with the value read before the increment, and the flush
done. -/
theorem glFinish_unfold (cfg : Config) (gpu : Gpu) (fuel : Nat) (s : State) :
    (0 < glFinish_timeout cfg →
      glFinish cfg gpu fuel s =
        (glFinish_wait_interval cfg gpu (s.ref % 2 ^ 32) (glFinish_timeout_interval cfg) fuel
          { s with ref := (s.ref + 1) % 2 ^ 32,
                   fifo := s.fifo ++ [Command.set_ref (s.ref % 2 ^ 32)],
                   flushes := s.flushes + 1 }
          (glFinish_timeout cfg)).map (fun r => RSXGL_NOERROR () true r.1)) ∧
    (glFinish_timeout cfg = 0 →
      glFinish cfg gpu fuel s =
        (glFinish_wait_forever gpu (s.ref % 2 ^ 32) (glFinish_timeout_interval cfg) fuel
          { s with ref := (s.ref + 1) % 2 ^ 32,
                   fifo := s.fifo ++ [Command.set_ref (s.ref % 2 ^ 32)],
                   flushes := s.flushes + 1 }).map (fun t => RSXGL_NOERROR () true t)) := by
  constructor
  · intro h
    simp only [glFinish, h, if_true, rsxgl_flush, rsxgl_emit_set_ref]
    cases glFinish_wait_interval cfg gpu (s.ref % 2 ^ 32) (glFinish_timeout_interval cfg) fuel
      { s with ref := (s.ref + 1) % 2 ^ 32,
               fifo := s.fifo ++ [Command.set_ref (s.ref % 2 ^ 32)],
               flushes := s.flushes + 1 }
      (glFinish_timeout cfg) <;> rfl
  · intro h
    simp only [glFinish, h, Nat.lt_irrefl, if_false, rsxgl_flush, rsxgl_emit_set_ref]
    cases glFinish_wait_forever gpu (s.ref % 2 ^ 32) (glFinish_timeout_interval cfg) fuel
      { s with ref := (s.ref + 1) % 2 ^ 32,
               fifo := s.fifo ++ [Command.set_ref (s.ref % 2 ^ 32)],
               flushes := s.flushes + 1 } <;> rfl

/-- The bounded loop of glFinish exits with the register equal to ref or with
remaining_timeout at 0; it touches only the hardware and the counts of reads
and sleeps. -/
theorem glFinish_wait_interval_exit (cfg : Config) (gpu : Gpu) (ref interval : Nat) :
    ∀ (fuel : Nat) (s : State) (remaining : Nat) (t : State) (left : Nat),
      glFinish_wait_interval cfg gpu ref interval fuel s remaining = some (t, left) →
      (t.hw.control_ref = ref ∨ left = 0) ∧
      t.fifo = s.fifo ∧ t.ref = s.ref ∧ t.flushes = s.flushes ∧ t.storage = s.storage ∧
      t._rsxgl_sync_token = s._rsxgl_sync_token := by
  intro fuel
  induction fuel with
  | zero =>
    intro s remaining t left h
    simp [glFinish_wait_interval] at h
  | succ k ih =>
    intro s remaining t left h
    simp only [glFinish_wait_interval] at h
    split at h
    · split at h
      · have := ih _ _ _ _ h
        simpa [usleep] using this
      · have := ih _ _ _ _ h
        simpa [spin] using this
    · rename_i hcond
      simp only [Option.some.injEq, Prod.mk.injEq] at h
      obtain ⟨ht, hl⟩ := h
      subst ht
      subst hl
      refine ⟨?_, rfl, rfl, rfl, rfl, rfl⟩
      by_cases hc : s.hw.control_ref = ref
      · exact Or.inl hc
      · right
        by_contra hr
        exact hcond ⟨hc, Nat.pos_of_ne_zero hr⟩

/-- The unbounded loop of glFinish exits only with the register equal to ref; it
touches only the hardware and the counts of reads and sleeps. -/
theorem glFinish_wait_forever_exit (gpu : Gpu) (ref interval : Nat) :
    ∀ (fuel : Nat) (s t : State),
      glFinish_wait_forever gpu ref interval fuel s = some t →
      t.hw.control_ref = ref ∧
      t.fifo = s.fifo ∧ t.ref = s.ref ∧ t.flushes = s.flushes ∧ t.storage = s.storage ∧
      t._rsxgl_sync_token = s._rsxgl_sync_token := by
  intro fuel
  induction fuel with
  | zero =>
    intro s t h
    simp [glFinish_wait_forever] at h
  | succ k ih =>
    intro s t h
    simp only [glFinish_wait_forever] at h
    split at h
    · have := ih _ _ h
      split at this
      · simpa [usleep] using this
      · simpa [spin] using this
    · rename_i hcond
      simp only [Option.some.injEq] at h
      subst h
      refine ⟨?_, rfl, rfl, rfl, rfl, rfl⟩
      by_contra hc
      exact hcond hc

/-- When the control register already holds the value glFinish emits, glFinish
returns after one read, whatever the constants. -/
theorem glFinish_returns_at_once (cfg : Config) (gpu : Gpu) (fuel : Nat) (s : State)
    (h : s.hw.control_ref = s.ref % 2 ^ 32) :
    ∃ o, glFinish cfg gpu (fuel + 1) s = some o := by
  by_cases ht : 0 < glFinish_timeout cfg
  · rw [(glFinish_unfold cfg gpu (fuel + 1) s).1 ht]
    simp [glFinish_wait_interval, h]
  · have ht0 : glFinish_timeout cfg = 0 := by omega
    rw [(glFinish_unfold cfg gpu (fuel + 1) s).2 ht0]
    simp [glFinish_wait_forever, h]


/-- C19 (as stated, refuted): from the start state, whose counter ref is 0 and
whose control register reads 0, glFinish emits the set-reference command
carrying 0, not 1, and leaves the counter at 1. -/
theorem glFinish_emits_old_counter :
    start.ref = 0 ∧ start.fifo = [] ∧
    (glFinish config64 idle 1 start).map (fun o => (o.state.fifo, o.state.ref)) =
      some ([Command.set_ref 0], 1) := by
  decide

/-- C19 (amended): glFinish emits the counter, then increments it. For every
value of the drain reference counter of the context before the call, glFinish
emits a set-reference command carrying that value r (as a uint32_t) and stores
r + 1 modulo 2^32 in the counter; the value it then polls the control register
for, in either loop, is the emitted value r. Whenever it returns, the command
stream is the earlier one followed by that single command, the counter is
r + 1 modulo 2^32, and no error is reported. -/
theorem glFinish_emits_counter_then_increments (cfg : Config) (gpu : Gpu) (fuel : Nat)
    (s : State) :
    (0 < glFinish_timeout cfg →
      glFinish cfg gpu fuel s =
        (glFinish_wait_interval cfg gpu (s.ref % 2 ^ 32) (glFinish_timeout_interval cfg) fuel
          { s with ref := (s.ref + 1) % 2 ^ 32,
                   fifo := s.fifo ++ [Command.set_ref (s.ref % 2 ^ 32)],
                   flushes := s.flushes + 1 }
          (glFinish_timeout cfg)).map (fun r => RSXGL_NOERROR () true r.1)) ∧
    (glFinish_timeout cfg = 0 →
      glFinish cfg gpu fuel s =
        (glFinish_wait_forever gpu (s.ref % 2 ^ 32) (glFinish_timeout_interval cfg) fuel
          { s with ref := (s.ref + 1) % 2 ^ 32,
                   fifo := s.fifo ++ [Command.set_ref (s.ref % 2 ^ 32)],
                   flushes := s.flushes + 1 }).map (fun t => RSXGL_NOERROR () true t)) ∧
    (∀ o, glFinish cfg gpu fuel s = some o →
      o.state.fifo = s.fifo ++ [Command.set_ref (s.ref % 2 ^ 32)] ∧
      o.state.ref = (s.ref + 1) % 2 ^ 32 ∧
      o.state.flushes = s.flushes + 1 ∧
      o.error = some GL_NO_ERROR) := by
  obtain ⟨hb, hf⟩ := glFinish_unfold cfg gpu fuel s
  refine ⟨hb, hf, ?_⟩
  intro o ho
  by_cases ht : 0 < glFinish_timeout cfg
  · rw [hb ht] at ho
    simp only [Option.map_eq_some', RSXGL_NOERROR] at ho
    obtain ⟨r, hr, hor⟩ := ho
    obtain ⟨_, h1, h2, h3, _⟩ := glFinish_wait_interval_exit cfg gpu _ _ _ _ _ r.1 r.2 hr
    subst hor
    exact ⟨h1, h2, h3, rfl⟩
  · have ht0 : glFinish_timeout cfg = 0 := by omega
    rw [hf ht0] at ho
    simp only [Option.map_eq_some', RSXGL_NOERROR] at ho
    obtain ⟨t, hr, hor⟩ := ho
    obtain ⟨_, h1, h2, h3, _⟩ := glFinish_wait_forever_exit gpu _ _ _ _ t hr
    subst hor
    exact ⟨h1, h2, h3, rfl⟩

theorem glFinish_emits_counter_then_increments_witness :
    glFinish config_short idle 4 behind = some expired ∧
    expired.state.fifo = behind.fifo ++ [Command.set_ref (behind.ref % 2 ^ 32)] ∧
    expired.state.ref = (behind.ref + 1) % 2 ^ 32 ∧
    expired.state.flushes = behind.flushes + 1 ∧
    expired.error = some GL_NO_ERROR :=
  ⟨rfl, (glFinish_emits_counter_then_increments config_short idle 4 behind).2.2 expired rfl⟩

/-- C20 (as stated, refuted): under config_short (three quanta of 100
microseconds), from the state behind whose control register reads 7, with a GPU
that writes nothing, glFinish emits the value 0, sleeps three times and returns
with no error while the register still reads 7. -/
theorem glFinish_returns_while_register_differs :
    (glFinish config_short idle 4 behind).map
        (fun o => (o.error, o.state.fifo, o.state.hw.control_ref, o.state.sleeps)) =
      some (some GL_NO_ERROR, [Command.set_ref 0], 7, 3) := by
  decide

/-- C20 (amended): glFinish returns on a match or when its bounded wait has run
out. For every GPU behaviour (every sequence of values read from the control
register), whenever glFinish returns it reports no error and either the value
of the control register it read last equals the value it emitted, or
RSXGL_SYNC_SLEEP_INTERVAL * RSXGL_FINISH_SLEEP_ITERATIONS (as a useconds_t) is
greater than 0 and the bounded loop has exited with remaining_timeout at 0.
When that product is 0, glFinish never returns while the register differs. -/
theorem glFinish_returns_on_match_or_expiry (cfg : Config) (gpu : Gpu) (fuel : Nat)
    (s : State) (o : Outcome Unit) (h : glFinish cfg gpu fuel s = some o) :
    o.error = some GL_NO_ERROR ∧
    (o.state.hw.control_ref = s.ref % 2 ^ 32 ∨
      (0 < glFinish_timeout cfg ∧
        glFinish_wait_interval cfg gpu (s.ref % 2 ^ 32) (glFinish_timeout_interval cfg) fuel
          { s with ref := (s.ref + 1) % 2 ^ 32,
                   fifo := s.fifo ++ [Command.set_ref (s.ref % 2 ^ 32)],
                   flushes := s.flushes + 1 }
          (glFinish_timeout cfg) = some (o.state, 0))) ∧
    (glFinish_timeout cfg = 0 → o.state.hw.control_ref = s.ref % 2 ^ 32) := by
  obtain ⟨hb, hf⟩ := glFinish_unfold cfg gpu fuel s
  by_cases ht : 0 < glFinish_timeout cfg
  · rw [hb ht] at h
    simp only [Option.map_eq_some', RSXGL_NOERROR] at h
    obtain ⟨r, hr, hor⟩ := h
    obtain ⟨hexit, _⟩ := glFinish_wait_interval_exit cfg gpu _ _ _ _ _ r.1 r.2 hr
    subst hor
    refine ⟨rfl, ?_, ?_⟩
    · rcases hexit with hm | h0
      · exact Or.inl hm
      · right
        refine ⟨ht, ?_⟩
        rw [hr]
        have : r = (r.1, 0) := by
          rw [← h0]
        rw [this]
    · intro h0
      omega
  · have ht0 : glFinish_timeout cfg = 0 := by omega
    rw [hf ht0] at h
    simp only [Option.map_eq_some', RSXGL_NOERROR] at h
    obtain ⟨t, hr, hor⟩ := h
    obtain ⟨hm, _⟩ := glFinish_wait_forever_exit gpu _ _ _ _ t hr
    subst hor
    exact ⟨rfl, Or.inl hm, fun _ => hm⟩

theorem glFinish_returns_on_match_or_expiry_witness :
    glFinish config_short idle 4 behind = some expired ∧
    expired.error = some GL_NO_ERROR ∧
    (expired.state.hw.control_ref = behind.ref % 2 ^ 32 ∨
      (0 < glFinish_timeout config_short ∧
        glFinish_wait_interval config_short idle (behind.ref % 2 ^ 32)
          (glFinish_timeout_interval config_short) 4
          { behind with ref := (behind.ref + 1) % 2 ^ 32,
                        fifo := behind.fifo ++ [Command.set_ref (behind.ref % 2 ^ 32)],
                        flushes := behind.flushes + 1 }
          (glFinish_timeout config_short) = some (expired.state, 0))) :=
  ⟨rfl, (glFinish_returns_on_match_or_expiry config_short idle 4 behind expired rfl).1,
    (glFinish_returns_on_match_or_expiry config_short idle 4 behind expired rfl).2.1⟩


/-! ## The value a fence expects and the token it emits -/

/-- A successful glFenceSync stores 0 in the 23-bit value field whatever the
token counter is, because the token is 0 or 1 << 23 and the field keeps its low
23 bits; the write-back command carries the whole token. -/
theorem glFenceSync_value_and_token (cfg : Config)
    (hs : cfg.create_name_sentinel = 0 ∨ cfg.RSXGL_MAX_SYNC_OBJECTS < cfg.create_name_sentinel)
    (s : State) (condition flags p : Nat)
    (hret : (glFenceSync cfg s condition flags).ret = some p) :
    ((glFenceSync cfg s condition flags).state.storage.contents p).value = 0 ∧
    (glFenceSync cfg s condition flags).state.fifo =
      s.fifo ++ [Command.sync_gpu_signal_read
        (bitfield 8 (rsxgl_sync_name_to_rsx_index cfg p).1) (rsxgl_sync_token s).1] ∧
    ((rsxgl_sync_token s).1 = 0 ∨ (rsxgl_sync_token s).1 = 2 ^ 23) := by
  obtain ⟨_, _, _, _, hc, _, hf, _, _⟩ := glFenceSync_returns cfg hs s condition flags p hret
  refine ⟨?_, hf, rsxgl_sync_token_values s⟩
  rw [hc]
  show bitfield 23 (rsxgl_sync_token s).1 = 0
  rcases rsxgl_sync_token_values s with h | h
  · rw [h]
    rfl
  · rw [h]
    simp [bitfield]

/-- In a reachable state the token of a successful glFenceSync is 0, so the
value stored in the object and the token of the write-back command are both
0. -/
theorem glFenceSync_reachable_value_is_token (cfg : Config)
    (hs : cfg.create_name_sentinel = 0 ∨ cfg.RSXGL_MAX_SYNC_OBJECTS < cfg.create_name_sentinel)
    (s : State) (hr : Reachable cfg s) (condition flags p : Nat)
    (hret : (glFenceSync cfg s condition flags).ret = some p) :
    ((glFenceSync cfg s condition flags).state.storage.contents p).value = 0 ∧
    (glFenceSync cfg s condition flags).state.fifo =
      s.fifo ++ [Command.sync_gpu_signal_read
        (bitfield 8 (rsxgl_sync_name_to_rsx_index cfg p).1) 0] := by
  obtain ⟨hv, hf, _⟩ := glFenceSync_value_and_token cfg hs s condition flags p hret
  have h0 := rsxgl_sync_token_of_zero s (reachable_invariant cfg hs s hr).1
  rw [h0] at hf
  exact ⟨hv, hf⟩

/-- The subtraction of the loop in useconds_t from a remaining timeout congruent
to interval * (k + 1) leaves one congruent to interval * k. -/
theorem remaining_timeout_step (m a k : Nat) (hm : 0 < m) :
    ((a * (k + 1)) % m + m - a % m) % m = (a * k) % m := by
  have hy : a % m < m := Nat.mod_lt _ hm
  have e : ((a * (k + 1)) % m + m - a % m) + a % m = (a * (k + 1)) % m + m := by omega
  have h1 : Nat.ModEq m (((a * (k + 1)) % m + m - a % m) + a % m) (a * k + a) := by
    rw [e]
    unfold Nat.ModEq
    rw [Nat.add_mod_right, Nat.mod_mod, Nat.mul_succ]
  have h2 : Nat.ModEq m (a % m) a := Nat.mod_mod _ _
  exact Nat.ModEq.add_right_cancel h2 h1

/-- Started with a remaining timeout congruent to interval * k modulo the range
of useconds_t, the bounded loop of glFinish exits after at most k sleeps, for
every GPU, given more than k reads of the register. -/
theorem glFinish_wait_interval_bounded (cfg : Config) (gpu : Gpu) (ref interval : Nat) :
    ∀ (k fuel : Nat) (s : State), k < fuel →
      ∃ t left,
        glFinish_wait_interval cfg gpu ref (interval % 2 ^ cfg.useconds_t_bits) fuel s
          ((interval * k) % 2 ^ cfg.useconds_t_bits) = some (t, left) ∧
        t.sleeps ≤ s.sleeps + k ∧ (t.hw.control_ref = ref ∨ left = 0) := by
  have hm : 0 < 2 ^ cfg.useconds_t_bits := Nat.two_pow_pos _
  intro k
  induction k with
  | zero =>
    intro fuel s hlt
    obtain ⟨f, rfl⟩ : ∃ f, fuel = f + 1 := ⟨fuel - 1, by omega⟩
    simp only [glFinish_wait_interval, Nat.mul_zero, Nat.zero_mod]
    rw [if_neg (fun h => absurd h.2 (Nat.lt_irrefl 0))]
    exact ⟨_, _, rfl, Nat.le_refl _, Or.inr rfl⟩
  | succ k ih =>
    intro fuel s hlt
    obtain ⟨f, rfl⟩ : ∃ f, fuel = f + 1 := ⟨fuel - 1, by omega⟩
    simp only [glFinish_wait_interval]
    split
    · rename_i hc
      have hint : interval % 2 ^ cfg.useconds_t_bits > 0 := by
        apply Nat.pos_of_ne_zero
        intro h0
        have : (interval * (k + 1)) % 2 ^ cfg.useconds_t_bits = 0 := by
          rw [Nat.mul_mod, h0, Nat.zero_mul, Nat.zero_mod]
        omega
      rw [if_pos hint, remaining_timeout_step _ _ _ hm]
      obtain ⟨t, left, h1, h2, h3⟩ := ih f (usleep gpu { s with polls := s.polls + 1 }) (by omega)
      refine ⟨t, left, h1, ?_, h3⟩
      simp only [usleep] at h2
      omega
    · rename_i hc
      refine ⟨_, _, rfl, Nat.le_add_right _ _, ?_⟩
      by_cases hr : s.hw.control_ref = ref
      · exact Or.inl hr
      · right
        by_contra hl
        exact hc ⟨hr, Nat.pos_of_ne_zero hl⟩

/-- Started with the remaining timeout interval * k below the range of
useconds_t, the bounded loop of glFinish subtracts without wrapping: it exits
with the remaining timeout interval * j after exactly k - j sleeps, and j is 0
unless the register matched. -/
theorem glFinish_wait_interval_countdown (cfg : Config) (gpu : Gpu) (ref interval : Nat)
    (hint : 0 < interval) :
    ∀ (k fuel : Nat) (s : State), k < fuel → interval * k < 2 ^ cfg.useconds_t_bits →
      ∃ t j,
        glFinish_wait_interval cfg gpu ref interval fuel s (interval * k) =
          some (t, interval * j) ∧
        j ≤ k ∧ t.sleeps = s.sleeps + (k - j) ∧ (t.hw.control_ref = ref ∨ j = 0) := by
  intro k
  induction k with
  | zero =>
    intro fuel s hlt _
    obtain ⟨f, rfl⟩ : ∃ f, fuel = f + 1 := ⟨fuel - 1, by omega⟩
    simp only [glFinish_wait_interval, Nat.mul_zero]
    rw [if_neg (fun h => absurd h.2 (Nat.lt_irrefl 0))]
    exact ⟨_, 0, rfl, Nat.le_refl _, rfl, Or.inr rfl⟩
  | succ k ih =>
    intro fuel s hlt hfit
    obtain ⟨f, rfl⟩ : ∃ f, fuel = f + 1 := ⟨fuel - 1, by omega⟩
    have hk : interval * k < 2 ^ cfg.useconds_t_bits := by
      rw [Nat.mul_succ] at hfit
      omega
    simp only [glFinish_wait_interval]
    split
    · rename_i hc
      have hrem : (interval * (k + 1) + 2 ^ cfg.useconds_t_bits - interval)
          % 2 ^ cfg.useconds_t_bits = interval * k := by
        have e : interval * (k + 1) + 2 ^ cfg.useconds_t_bits - interval =
            interval * k + 2 ^ cfg.useconds_t_bits := by
          rw [Nat.mul_succ]
          omega
        rw [e, Nat.add_mod_right, Nat.mod_eq_of_lt hk]
      rw [hrem]
      obtain ⟨t, j, h1, h2, h3, h4⟩ :=
        ih f (usleep gpu { s with polls := s.polls + 1 }) (by omega) hk
      refine ⟨t, j, h1, by omega, ?_, h4⟩
      simp only [usleep] at h3
      omega
    · rename_i hc
      refine ⟨_, k + 1, rfl, Nat.le_refl _, by simp, ?_⟩
      by_cases hr : s.hw.control_ref = ref
      · exact Or.inl hr
      · exfalso
        apply hc
        refine ⟨hr, ?_⟩
        exact Nat.mul_pos hint (Nat.succ_pos k)

/-- C22 (as stated, refuted): with the interval 3 and 1431655766 iterations the
product is 2 ^ 32 + 2, so the 32-bit timeout is 2, which is positive. The first
turn of the loop subtracts 3 from 2 and wraps: when the register matches after
the first sleep, the loop exits with remaining_timeout 4294967295. -/
theorem glFinish_remaining_timeout_wraps :
    glFinish_timeout config_wrap = 2 ∧ glFinish_timeout_interval config_wrap = 3 ∧
    behind.hw.control_ref ≠ 0 ∧
    (glFinish_wait_interval config_wrap prompt 0 (glFinish_timeout_interval config_wrap) 2
      behind (glFinish_timeout config_wrap)).map (fun r => (r.1.sleeps, r.2)) =
      some (1, 4294967295) := by
  decide

/-- C22 (amended): the bounded loop of glFinish terminates. For all constants
whose product, reduced to useconds_t, is a positive timeout, for every GPU and
every start state, the loop exits after at most RSXGL_FINISH_SLEEP_ITERATIONS
sleeps, given more reads of the register than that, with the register equal to
ref or remaining_timeout 0; and so glFinish returns. When moreover the product
fits useconds_t, remaining_timeout at the exit is the timeout less the interval
for each sleep made, with no wrap, and it is 0 only after exactly
RSXGL_FINISH_SLEEP_ITERATIONS sleeps. -/
theorem glFinish_bounded_loop_terminates (cfg : Config) (gpu : Gpu) (ref fuel : Nat)
    (s : State) (ht : 0 < glFinish_timeout cfg)
    (hfuel : cfg.RSXGL_FINISH_SLEEP_ITERATIONS < fuel) :
    (∃ t left,
      glFinish_wait_interval cfg gpu ref (glFinish_timeout_interval cfg) fuel s
        (glFinish_timeout cfg) = some (t, left) ∧
      t.sleeps ≤ s.sleeps + cfg.RSXGL_FINISH_SLEEP_ITERATIONS ∧
      (t.hw.control_ref = ref ∨ left = 0) ∧
      (cfg.RSXGL_SYNC_SLEEP_INTERVAL * cfg.RSXGL_FINISH_SLEEP_ITERATIONS
          < 2 ^ cfg.useconds_t_bits →
        left + glFinish_timeout_interval cfg * (t.sleeps - s.sleeps) = glFinish_timeout cfg ∧
        (left = 0 → t.sleeps = s.sleeps + cfg.RSXGL_FINISH_SLEEP_ITERATIONS))) ∧
    (∃ o, glFinish cfg gpu fuel s = some o ∧
      o.state.sleeps ≤ s.sleeps + cfg.RSXGL_FINISH_SLEEP_ITERATIONS) := by
  constructor
  · obtain ⟨t, left, h1, h2, h3⟩ :=
      glFinish_wait_interval_bounded cfg gpu ref cfg.RSXGL_SYNC_SLEEP_INTERVAL
        cfg.RSXGL_FINISH_SLEEP_ITERATIONS fuel s hfuel
    refine ⟨t, left, h1, h2, h3, ?_⟩
    intro hfit
    have hprod : 0 < cfg.RSXGL_SYNC_SLEEP_INTERVAL * cfg.RSXGL_FINISH_SLEEP_ITERATIONS := by
      apply Nat.pos_of_ne_zero
      intro h0
      unfold glFinish_timeout at ht
      rw [h0, Nat.zero_mod] at ht
      exact Nat.lt_irrefl 0 ht
    have hint : 0 < cfg.RSXGL_SYNC_SLEEP_INTERVAL := Nat.pos_of_mul_pos_right hprod
    have hit : 0 < cfg.RSXGL_FINISH_SLEEP_ITERATIONS := Nat.pos_of_mul_pos_left hprod
    have hsmall : cfg.RSXGL_SYNC_SLEEP_INTERVAL < 2 ^ cfg.useconds_t_bits :=
      Nat.lt_of_le_of_lt (Nat.le_mul_of_pos_right _ hit) hfit
    obtain ⟨u, j, g1, g2, g3, _⟩ :=
      glFinish_wait_interval_countdown cfg gpu ref cfg.RSXGL_SYNC_SLEEP_INTERVAL hint
        cfg.RSXGL_FINISH_SLEEP_ITERATIONS fuel s hfuel hfit
    rw [Nat.mod_eq_of_lt hsmall, Nat.mod_eq_of_lt hfit, g1] at h1
    simp only [Option.some.injEq, Prod.mk.injEq] at h1
    obtain ⟨hu, hl⟩ := h1
    subst hu
    subst hl
    unfold glFinish_timeout glFinish_timeout_interval
    rw [Nat.mod_eq_of_lt hsmall, Nat.mod_eq_of_lt hfit, g3, Nat.add_sub_cancel_left,
      ← Nat.mul_add, Nat.add_sub_cancel' g2]
    refine ⟨rfl, ?_⟩
    intro h0
    have hj : j = 0 := by
      rcases Nat.mul_eq_zero.mp h0 with h | h
      · omega
      · exact h
    rw [hj]
    rfl
  · obtain ⟨t, left, h1, h2, _⟩ :=
      glFinish_wait_interval_bounded cfg gpu (s.ref % 2 ^ 32) cfg.RSXGL_SYNC_SLEEP_INTERVAL
        cfg.RSXGL_FINISH_SLEEP_ITERATIONS fuel
        { s with ref := (s.ref + 1) % 2 ^ 32,
                 fifo := s.fifo ++ [Command.set_ref (s.ref % 2 ^ 32)],
                 flushes := s.flushes + 1 } hfuel
    refine ⟨RSXGL_NOERROR () true t, ?_, h2⟩
    rw [(glFinish_unfold cfg gpu fuel s).1 ht]
    unfold glFinish_timeout glFinish_timeout_interval
    rw [h1]
    rfl

theorem glFinish_bounded_loop_terminates_witness :
    0 < glFinish_timeout config_short ∧
    config_short.RSXGL_FINISH_SLEEP_ITERATIONS < 4 ∧
    config_short.RSXGL_SYNC_SLEEP_INTERVAL * config_short.RSXGL_FINISH_SLEEP_ITERATIONS
      < 2 ^ config_short.useconds_t_bits ∧
    (∃ t left,
      glFinish_wait_interval config_short idle 0 (glFinish_timeout_interval config_short) 4
        behind (glFinish_timeout config_short) = some (t, left) ∧
      t.sleeps ≤ behind.sleeps + config_short.RSXGL_FINISH_SLEEP_ITERATIONS ∧
      (t.hw.control_ref = 0 ∨ left = 0) ∧
      (config_short.RSXGL_SYNC_SLEEP_INTERVAL * config_short.RSXGL_FINISH_SLEEP_ITERATIONS
          < 2 ^ config_short.useconds_t_bits →
        left + glFinish_timeout_interval config_short * (t.sleeps - behind.sleeps) =
          glFinish_timeout config_short ∧
        (left = 0 →
          t.sleeps = behind.sleeps + config_short.RSXGL_FINISH_SLEEP_ITERATIONS))) ∧
    (∃ o, glFinish config_short idle 4 behind = some o ∧
      o.state.sleeps ≤ behind.sleeps + config_short.RSXGL_FINISH_SLEEP_ITERATIONS) :=
  ⟨by decide, by decide, by decide,
    (glFinish_bounded_loop_terminates config_short idle 0 4 behind (by decide) (by decide)).1,
    (glFinish_bounded_loop_terminates config_short idle 0 4 behind (by decide) (by decide)).2⟩

end RSXGL
